import Mathlib

/-!
# pjlib secure socket (`pjlib/src/pj/ssl_sock_ossl.c`): a shallow embedding

The C module drives a TLS handshake and record stream on top of a non-blocking
socket layer.  This file embeds the data model and the functions of that source
file as Lean definitions and proves properties of them.

Conventions of the embedding:

* pointers are natural numbers (addresses); `NULL` is `none` where the source
  tests for it;
* a `pj_list` (circular doubly linked list with a sentinel) is a Lean `List` of
  its nodes in `next` order; a node carries its own address in `self`;
* `pj_size_t` arithmetic that can wrap is taken modulo `2^64`;
* results of calls into the TLS engine, the event layer and the application's
  callbacks are arguments of the embedded function (they are inputs from the
  environment);
* `pj_assert` is compiled out (release build); where an assertion matters it
  appears as a hypothesis of the theorem or as a guard of the step relation.
-/

namespace SslSock

/-! ## Status codes and constants -/

/-- Modelled from the spec: `pj_status_t` values of `pj/errno.h`, a header that
is not under `src/`; the values are those of pjlib (`PJ_ERRNO_START_STATUS`
is 70000). `PJ_SUCCESS` is zero. -/
def PJ_SUCCESS : Int := 0

/-- Modelled from the spec: the "pending" status, `PJ_ERRNO_START_STATUS + 2`. -/
def PJ_EPENDING : Int := 70002

/-- Modelled from the spec: invalid argument, `PJ_ERRNO_START_STATUS + 4`. -/
def PJ_EINVAL : Int := 70004

/-- Modelled from the spec: not found, `PJ_ERRNO_START_STATUS + 6`. -/
def PJ_ENOTFOUND : Int := 70006

/-- Modelled from the spec: out of memory, `PJ_ERRNO_START_STATUS + 7`. -/
def PJ_ENOMEM : Int := 70007

/-- Modelled from the spec: timed out, `PJ_ERRNO_START_STATUS + 9`. -/
def PJ_ETIMEDOUT : Int := 70009

/-- Modelled from the spec: too many objects, `PJ_ERRNO_START_STATUS + 10`. -/
def PJ_ETOOMANY : Int := 70010

/-- Modelled from the spec: the "busy" status, `PJ_ERRNO_START_STATUS + 11`. -/
def PJ_EBUSY : Int := 70011

/-- Modelled from the spec: not supported, `PJ_ERRNO_START_STATUS + 12`. -/
def PJ_ENOTSUP : Int := 70012

/-- Modelled from the spec: invalid operation, `PJ_ERRNO_START_STATUS + 13`. -/
def PJ_EINVALIDOP : Int := 70013

/-- Modelled from the spec: end of file, `PJ_ERRNO_START_STATUS + 16`. -/
def PJ_EEOF : Int := 70016

/-- Modelled from the spec: `GNUTLS_E_SUCCESS` of `gnutls/gnutls.h`, the engine's
"handshake complete / no error" result. -/
def GNUTLS_E_SUCCESS : Int := 0

/-- Modelled from the spec: `GNUTLS_E_AGAIN` of `gnutls/gnutls.h`, the engine's
would-block / retry sentinel. -/
def GNUTLS_E_AGAIN : Int := -28

/-- Modelled from the spec: `SSL_ERROR_NONE` of `openssl/ssl.h`. -/
def SSL_ERROR_NONE : Nat := 0

/-- Modulus of `pj_size_t` arithmetic (`2^64`). -/
def SIZE_T_MOD : Nat := 18446744073709551616

/-- Subtraction of `pj_size_t` values (also of a pointer difference stored in a
`pj_size_t`): wraps modulo `2^64`. -/
def size_sub (a b : Nat) : Nat := (a + SIZE_T_MOD - b % SIZE_T_MOD) % SIZE_T_MOD

/-- Addition of `pj_size_t` values: wraps modulo `2^64`. -/
def size_add (a b : Nat) : Nat := (a + b) % SIZE_T_MOD

/-! ## Data model -/

/-- The SSL/TLS state enumeration `enum ssl_state`. -/
inductive ssl_state where
  | SSL_STATE_NULL
  | SSL_STATE_HANDSHAKING
  | SSL_STATE_ESTABLISHED
  deriving DecidableEq, Repr

/-- The internal timer types `enum timer_id`. -/
inductive timer_id where
  | TIMER_NONE
  | TIMER_HANDSHAKE_TIMEOUT
  | TIMER_CLOSE
  deriving DecidableEq, Repr

/-- The write data `write_data_t`.  `self` is the address of the node (the value
of a `write_data_t*` pointing at it); `data_ptr` is `data.ptr`.  The embedded
`key` is left out: only its address is ever used. -/
structure write_data_t where
  self : Nat
  record_len : Nat
  app_key : Nat
  plain_data_len : Nat
  data_len : Nat
  flags : Nat
  data_ptr : Nat
  deriving DecidableEq, Repr

/-- The circular send buffer `send_buf_t`; `buf` and `start` are addresses. -/
structure send_buf_t where
  buf : Nat
  max_len : Nat
  start : Nat
  len : Nat
  deriving DecidableEq, Repr

/-- Which of the application's callbacks `param.cb` are set (non-NULL). -/
structure pj_ssl_sock_cb where
  on_accept_complete : Bool
  on_connect_complete : Bool
  on_data_read : Bool
  on_data_sent : Bool
  deriving DecidableEq, Repr

/-- The fields of `pj_ssl_sock_param` that the module reads. -/
structure pj_ssl_sock_param where
  cb : pj_ssl_sock_cb
  timer_heap : Bool
  timeout_sec : Nat
  timeout_msec : Nat
  verify_peer : Bool
  require_client_cert : Bool
  server_name : List Char
  ciphers : List Nat
  proto : Nat
  send_buffer_size : Nat
  read_buffer_size : Nat
  async_cnt : Nat
  qos_ignore_error : Bool
  sock_type : Nat
  deriving DecidableEq, Repr

/-- The credential `struct pj_ssl_cert_t`: four file names / pass phrase. -/
structure pj_ssl_cert_t where
  CA_file : List Char
  cert_file : List Char
  privkey_file : List Char
  privkey_pass : List Char
  deriving DecidableEq, Repr

/-- A certificate descriptor `pj_ssl_cert_info`.  Strings are held by value;
`serial_no` is the fixed buffer of 20 bytes; an entry of `subj_alt_name` is the
name type and the name. -/
structure pj_ssl_cert_info where
  version : Nat
  issuer_cn : List Char
  issuer_info : List Char
  serial_no : List Nat
  subject_cn : List Char
  subject_info : List Char
  validity_start : Int
  validity_end : Int
  validity_gmt : Bool
  subj_alt_name : List (Nat × List Char)
  deriving DecidableEq, Repr

/-- The descriptor after `pj_bzero`. -/
def pj_ssl_cert_info.zero : pj_ssl_cert_info :=
  { version := 0, issuer_cn := [], issuer_info := [], serial_no := List.replicate 20 0,
    subject_cn := [], subject_info := [], validity_start := 0, validity_end := 0,
    validity_gmt := false, subj_alt_name := [] }

/-- The state of the event layer's active socket `pj_activesock_t` as far as this
module depends on it: whether an asynchronous connect is outstanding, whether
reading has been started (`pj_activesock_start_read2`) and whether accepting has
been started.  The event layer delivers a completion callback only for an
operation that was started. -/
structure pj_activesock_t where
  connect_pending : Bool
  reading : Bool
  accepting : Bool
  deriving DecidableEq, Repr

/-- One invocation of a callback of the application (`param.cb`), with the
arguments the module passes: the status for `on_connect_complete`; whether data
is passed, the size and the status for `on_data_read`; the application's key
and the sent length for `on_data_sent`. -/
inductive cb_event where
  | connect_complete (status : Int)
  | accept_complete
  | data_read (has_data : Bool) (size : Int) (status : Int)
  | data_sent (app_key : Nat) (sent : Int)
  deriving DecidableEq, Repr

/-- What a callback of the application can see of the socket it is invoked on:
the fields of `pj_ssl_sock_t` of the same names at that moment. -/
structure sock_view where
  ssl_state : SslSock.ssl_state
  timer : timer_id
  session : Bool
  xcred : Bool
  sock : Option Nat
  asock : Option pj_activesock_t
  pool : Bool
  deriving DecidableEq, Repr

/-- The secure socket `struct pj_ssl_sock_t`.  `sock`, `asock`, `parent` and `cert`
are `none` when the C field is NULL (`PJ_INVALID_SOCKET` for `sock`); `pool`,
`session` and `xcred` are `true` when the C pointer is non-NULL; `timer` is
`timer.id`.  Five fields are not C fields, they record what the code does:
`engine_log` lists, oldest first, the arguments `(data, size, flags)` of every
call of `ssl_write` (what has been handed to the engine's record-send),
`state_log` lists, oldest first, every value assigned to `ssl_state`,
`cb_log` lists, oldest first, the invocations of the application's callbacks,
`cb_view` lists, in the same order, the socket as each of these invocations
finds it, and `renegotiate_calls` counts the calls of the engine's
renegotiation trigger `SSL_renegotiate`. -/
structure pj_ssl_sock_t where
  pool : Bool
  parent : Option Nat
  param : pj_ssl_sock_param
  cert : Option pj_ssl_cert_t
  local_cert_info : pj_ssl_cert_info
  remote_cert_info : pj_ssl_cert_info
  is_server : Bool
  ssl_state : ssl_state
  timer : timer_id
  verify_status : Nat
  last_err : Nat
  sock : Option Nat
  asock : Option pj_activesock_t
  local_addr : Nat
  rem_addr : Nat
  read_started : Bool
  read_size : Nat
  read_flags : Nat
  write_pending : List write_data_t
  write_pending_empty : List write_data_t
  flushing_write_pend : Bool
  send_buf : send_buf_t
  send_pending : List write_data_t
  session : Bool
  xcred : Bool
  tls_init_count : Nat
  engine_log : List (Nat × Nat × Nat)
  state_log : List SslSock.ssl_state
  cb_log : List cb_event
  renegotiate_calls : Nat
  cb_view : List sock_view
  deriving DecidableEq, Repr

/-- The socket as a callback invoked at this moment finds it. -/
def pj_ssl_sock_t.view (s : pj_ssl_sock_t) : sock_view :=
  { ssl_state := s.ssl_state, timer := s.timer, session := s.session, xcred := s.xcred,
    sock := s.sock, asock := s.asock, pool := s.pool }

/-- An invocation `(*ssock->param.cb.on_...)(ssock, ...)` of a callback of the
application: recorded with its arguments and with the socket as it is when the
call is made. -/
def notify (s : pj_ssl_sock_t) (ev : cb_event) : pj_ssl_sock_t :=
  { s with cb_log := s.cb_log ++ [ev], cb_view := s.cb_view ++ [s.view] }

/-- The answers of the environment during one call into the module: the results
of the TLS engine, of the event layer and operating system, and of the
application's callbacks.  Each field is the result of one call site;
`flush_nwritten i` is the engine's result for the `i`-th write of a flush. -/
structure env where
  /-- result of `gnutls_handshake` -/
  handshake_r : Int
  /-- the engine's `gnutls_error_is_fatal` -/
  error_is_fatal : Int → Bool
  /-- result of `gnutls_record_recv` -/
  record_recv_r : Int
  /-- results of `gnutls_record_send` for the successive writes of a flush -/
  flush_nwritten : Nat → Int
  /-- result of `gnutls_record_send` for the write of `pj_ssl_sock_send` -/
  send_nwritten : Int
  /-- result of `SSL_renegotiate_pending` -/
  renegotiate_pending : Bool
  /-- result of `SSL_renegotiate` -/
  renegotiate_r : Int
  /-- result of `gnutls_cipher_get` -/
  cipher_get : Nat
  /-- result of `ERR_get_error` in the caller -/
  err_get_error : Nat
  /-- result of `ERR_get_error` inside `STATUS_FROM_SSL_ERR` -/
  err_queue_next : Nat
  /-- result of `tls_priorities_set` inside `create_ssl` -/
  priorities_status : Int
  /-- whether loading the CA list succeeds (in either format) -/
  ca_load_ok : Bool
  /-- whether loading the certificate and key succeeds (in either format) -/
  cert_load_ok : Bool
  /-- local descriptor left by `update_certs_info` -/
  local_info : pj_ssl_cert_info
  /-- remote descriptor left by `update_certs_info` -/
  remote_info : pj_ssl_cert_info
  /-- status of `pj_sock_socket` and the socket it returns -/
  sock_socket_status : Int
  new_sock : Nat
  qos_status : Int
  bind_status : Int
  listen_status : Int
  asock_create_status : Int
  start_accept_status : Int
  start_connect_status : Int
  start_read_status : Int
  getsockname_status : Int
  /-- address reported by `pj_sock_getsockname` -/
  sockname : Nat
  /-- status of scheduling the handshake timer -/
  timer_schedule_status : Int
  /-- status of scheduling the delayed-close timer -/
  close_timer_status : Int
  /-- status of `pj_lock_create_recursive_mutex` -/
  mutex_status : Int
  /-- whether the build targets Windows (`PJ_WIN32` or `PJ_WIN64`) -/
  win32 : Bool
  /-- address returned by `pj_pool_alloc` for the send buffer -/
  pool_alloc : Nat
  /-- address returned by `PJ_POOL_ZALLOC_T` in `delay_send` -/
  zalloc : Nat
  /-- return values of the application's callbacks -/
  cb_accept_ret : Bool
  cb_connect_ret : Bool
  cb_read_ret : Bool
  cb_sent_ret : Bool

/-! ## Send ring buffer: `alloc_send_data`, `free_send_data` -/

/-- A `write_data_t` at address `p` after `pj_bzero(p, sizeof(*p))`. -/
def write_data_t.zero (p : Nat) : write_data_t :=
  { self := p, record_len := 0, app_key := 0, plain_data_len := 0, data_len := 0,
    flags := 0, data_ptr := 0 }

/-- The label `init_send_data` of `alloc_send_data`: zero the new record and push
it at the back of `send_pending`. -/
def init_send_data (ssock : pj_ssl_sock_t) (p : Nat) : pj_ssl_sock_t :=
  { ssock with send_pending := ssock.send_pending ++ [write_data_t.zero p] }

/-- The function `alloc_send_data(ssock, len)`.  The first component is the returned
pointer (`none` for NULL), the second the socket afterwards. -/
def alloc_send_data (ssock : pj_ssl_sock_t) (len : Nat) : Option Nat × pj_ssl_sock_t :=
  let send_buf := ssock.send_buf
  -- Check buffer availability
  let avail_len := size_sub send_buf.max_len send_buf.len
  if avail_len < len then (none, ssock)
  else if send_buf.len = 0 then
    -- If buffer empty, reset start pointer and return it
    let p := send_buf.buf
    (some p,
      init_send_data
        { ssock with send_buf := { send_buf with start := send_buf.buf, len := len } } p)
  else
    -- Free space may be wrapped/splitted into two regions
    let reg1a := send_buf.start + send_buf.len
    let reg1 := if reg1a ≥ send_buf.buf + send_buf.max_len then reg1a - send_buf.max_len
                else reg1a
    let reg1_len_a := size_sub send_buf.max_len send_buf.len
    let split : Bool := decide (reg1 + reg1_len_a > send_buf.buf + send_buf.max_len)
    let reg1_len := if split then size_sub (send_buf.buf + send_buf.max_len) reg1
                    else reg1_len_a
    let reg2 := if split then send_buf.buf else 0
    let reg2_len := if split then size_sub send_buf.start send_buf.buf else 0
    -- More buffer availability check
    let avail_len2 := max reg1_len reg2_len
    if avail_len2 < len then (none, ssock)
    else
      -- Get the data slot
      let p := if reg1_len ≥ len then reg1 else reg2
      let skipped_len := if reg1_len ≥ len then 0 else reg1_len
      -- Update buffer length
      (some p,
        init_send_data
          { ssock with
            send_buf :=
              { send_buf with len := size_add send_buf.len (size_add len skipped_len) } }
          p)

/-- The call `pj_list_erase(node)`: unlink the node at address `p` from the list. -/
def pj_list_erase : List write_data_t → Nat → List write_data_t
  | [], _ => []
  | w :: ws, p => if w.self = p then ws else w :: pj_list_erase ws p

/-- The function `free_send_data(ssock, wdata)`; `wdata` is the address of the
record.  `spl->next` is the head of `send_pending`, `spl->prev` its last node,
`wdata->next` the node after the head and `wdata->prev` the node before the last. -/
def free_send_data (ssock : pj_ssl_sock_t) (wdata : Nat) : pj_ssl_sock_t :=
  let buf := ssock.send_buf
  let spl := ssock.send_pending
  let is_first : Bool := (spl.head?.map (·.self)) == some wdata
  let is_last : Bool := (spl.getLast?.map (·.self)) == some wdata
  let buf2 : send_buf_t :=
    if is_first && is_last then
      -- This is the only data, reset the buffer
      { buf with start := buf.buf, len := 0 }
    else if is_first then
      -- This is the first data, shift start pointer and adjust the length
      match spl with
      | _ :: next :: _ =>
        let start2 := next.self
        if next.self > wdata then
          { buf with start := start2, len := size_sub buf.len (size_sub next.self start2) }
        else
          -- Overlapped
          let right_len := size_sub (buf.buf + buf.max_len) wdata
          let left_len := size_sub next.self buf.buf
          { buf with start := start2, len := size_sub buf.len (size_add right_len left_len) }
      | _ => buf
    else if is_last then
      -- This is the last data, just adjust the buffer length
      match spl.reverse with
      | last :: prev :: _ =>
        if prev.self < wdata then
          let jump_len := size_sub wdata (prev.self + prev.record_len)
          { buf with len := size_sub buf.len (size_add last.record_len jump_len) }
        else
          -- Overlapped
          let right_len := size_sub (buf.buf + buf.max_len) (prev.self + prev.record_len)
          let left_len := size_sub (wdata + last.record_len) buf.buf
          { buf with len := size_sub buf.len (size_add right_len left_len) }
      | _ => buf
    else buf
  -- Remove the data from send pending list
  { ssock with send_buf := buf2, send_pending := pj_list_erase spl wdata }

/-- The assignment `wdata->record_len = needed_len` that the caller of
`alloc_send_data` (`flush_write_bio`) performs on the record it was given. -/
def set_record_len (ssock : pj_ssl_sock_t) (wdata : Nat) (needed_len : Nat) : pj_ssl_sock_t :=
  { ssock with
    send_pending :=
      ssock.send_pending.map
        (fun w => if w.self = wdata then { w with record_len := needed_len } else w) }

/-! ## Error mapper -/

/-- Modelled from the spec: `PJ_ERRNO_START_USER` (170000) and
`PJ_ERRNO_SPACE_SIZE` (50000) come from `pj/errno.h`, not under `src/`;
`PJ_SSL_ERRNO_START` is `PJ_ERRNO_START_USER + PJ_ERRNO_SPACE_SIZE*6`. -/
def PJ_SSL_ERRNO_START : Int := 170000 + 50000 * 6

/-- Modelled from the spec: `PJ_SSL_ERRNO_SPACE_SIZE` is `PJ_ERRNO_SPACE_SIZE`
of `pj/errno.h` (50000). -/
def PJ_SSL_ERRNO_SPACE_SIZE : Int := 50000

/-- Expected maximum value of reason component in OpenSSL error code. -/
def MAX_OSSL_ERR_REASON : Int := 1200

/-- Modelled from the spec: `SSL_ERROR_SSL` of `openssl/ssl.h`. -/
def SSL_ERROR_SSL : Nat := 1

/-- Modelled from the spec: the macro `ERR_GET_LIB` of `openssl/err.h` (not under
`src/`), the library identifier packed in bits 24..31 of the code. -/
def ERR_GET_LIB (err : Nat) : Int := ((err / 2 ^ 24) % 256 : Nat)

/-- Modelled from the spec: the macro `ERR_GET_REASON` of `openssl/err.h` (not
under `src/`), the reason code in the low 12 bits of the code. -/
def ERR_GET_REASON (err : Nat) : Int := (err % 4096 : Nat)

/-- The function `STATUS_FROM_SSL_ERR(ssock, err)`; `queued` is what
`ERR_get_error()` returns when the function consults the error queue. -/
def STATUS_FROM_SSL_ERR (ssock : pj_ssl_sock_t) (err : Nat) (queued : Nat) :
    Int × pj_ssl_sock_t :=
  -- General SSL error, dig more from OpenSSL error queue
  let err1 := if err = SSL_ERROR_SSL then queued else err
  let status := ERR_GET_LIB err1 * MAX_OSSL_ERR_REASON + ERR_GET_REASON err1
  let status2 := if status > PJ_SSL_ERRNO_SPACE_SIZE then ERR_GET_REASON err1 else status
  (status2 + PJ_SSL_ERRNO_START, { ssock with last_err := err1 })

/-- The function `GET_SSL_STATUS(ssock)`. -/
def GET_SSL_STATUS (ssock : pj_ssl_sock_t) (e : env) : Int × pj_ssl_sock_t :=
  STATUS_FROM_SSL_ERR ssock e.err_get_error e.err_queue_next

/-! ## Socket state: reset, close, handshake -/

/-- An assignment `ssock->ssl_state = v`. -/
def set_ssl_state (ssock : pj_ssl_sock_t) (v : ssl_state) : pj_ssl_sock_t :=
  { ssock with ssl_state := v, state_log := ssock.state_log ++ [v] }

/-- The function `destroy_ssl`: free the credentials, end and free the session,
and undo the library initialization this socket did. -/
def destroy_ssl (ssock : pj_ssl_sock_t) : pj_ssl_sock_t :=
  { ssock with
    xcred := false
    session := false
    tls_init_count := if ssock.tls_init_count ≠ 0 then ssock.tls_init_count - 1 else 0 }

/-- The function `reset_ssl_sock_state`. -/
def reset_ssl_sock_state (ssock : pj_ssl_sock_t) : pj_ssl_sock_t :=
  let s1 := destroy_ssl (set_ssl_state ssock ssl_state.SSL_STATE_NULL)
  let s2 := if s1.asock.isSome then { s1 with asock := none, sock := none } else s1
  if s2.sock.isSome then { s2 with sock := none } else s2

/-- The function `update_certs_info`.  The two descriptors that `get_cert_info`
leaves (or the zeroed descriptor when the engine has no certificate) are taken
from the environment. -/
def update_certs_info (ssock : pj_ssl_sock_t) (e : env) : pj_ssl_sock_t :=
  { ssock with local_cert_info := e.local_info, remote_cert_info := e.remote_info }

/-- The function `pj_ssl_sock_close`. -/
def pj_ssl_sock_close (ssock : pj_ssl_sock_t) : Int × pj_ssl_sock_t :=
  if !ssock.pool then (PJ_SUCCESS, ssock)
  else
    let s1 := if ssock.timer ≠ timer_id.TIMER_NONE then
                { ssock with timer := timer_id.TIMER_NONE } else ssock
    let s2 := reset_ssl_sock_state s1
    (PJ_SUCCESS, { s2 with pool := false })

/-- The function `on_handshake_complete(ssock, status)`; the result is the
returned `pj_bool_t` and the socket afterwards. -/
def on_handshake_complete (ssock : pj_ssl_sock_t) (status : Int) (e : env) :
    Bool × pj_ssl_sock_t :=
  -- Cancel handshake timer
  let s1 := if ssock.timer = timer_id.TIMER_HANDSHAKE_TIMEOUT then
              { ssock with timer := timer_id.TIMER_NONE } else ssock
  -- Update certificates info on successful handshake
  let s2 := if status = PJ_SUCCESS then update_certs_info s1 e else s1
  if s2.is_server then
    -- Accepting
    if status ≠ PJ_SUCCESS then
      -- Handshake failed in accepting, destroy our self silently
      if e.win32 && s2.param.timer_heap then
        let s3 := { reset_ssl_sock_state s2 with timer := timer_id.TIMER_CLOSE }
        if e.close_timer_status ≠ 0 then
          (false, (pj_ssl_sock_close { s3 with timer := timer_id.TIMER_NONE }).2)
        else (false, s3)
      else (false, (pj_ssl_sock_close s2).2)
    else if s2.param.cb.on_accept_complete then
      -- Notify application the newly accepted SSL socket
      let s3 := notify s2 cb_event.accept_complete
      if e.cb_accept_ret = false then (false, s3) else (true, s3)
    else (true, s2)
  else
    -- Connecting: on failure, reset SSL socket state first
    let r : Int × pj_ssl_sock_t :=
      if status ≠ PJ_SUCCESS then
        let r1 : Int × pj_ssl_sock_t :=
          if status = PJ_EEOF then
            if e.err_get_error ≠ SSL_ERROR_NONE then
              STATUS_FROM_SSL_ERR s2 e.err_get_error e.err_queue_next
            else (status, s2)
          else (status, s2)
        (r1.1, reset_ssl_sock_state r1.2)
      else (status, s2)
    if r.2.param.cb.on_connect_complete then
      let s4 := notify r.2 (cb_event.connect_complete r.1)
      if e.cb_connect_ret = false then (false, s4) else (true, s4)
    else (true, r.2)

/-- The function `on_timer`: expiry of the socket's timer entry. -/
def on_timer (ssock : pj_ssl_sock_t) (e : env) : pj_ssl_sock_t :=
  let id := ssock.timer
  let s1 := { ssock with timer := timer_id.TIMER_NONE }
  match id with
  | .TIMER_HANDSHAKE_TIMEOUT => (on_handshake_complete s1 PJ_ETIMEDOUT e).2
  | .TIMER_CLOSE => (pj_ssl_sock_close s1).2
  | .TIMER_NONE => s1

/-- The function `do_handshake`: one non-blocking handshake advance of the engine,
whose result is `e.handshake_r`. -/
def do_handshake (ssock : pj_ssl_sock_t) (e : env) : Int × pj_ssl_sock_t :=
  let err := e.handshake_r
  if err = GNUTLS_E_SUCCESS then
    (PJ_SUCCESS, set_ssl_state ssock ssl_state.SSL_STATE_ESTABLISHED)
  else if !e.error_is_fatal err then (PJ_EPENDING, ssock)
  else (PJ_ENOTFOUND, ssock)

/-! ## Delayed-send queue: `ssl_write`, `flush_delayed_send`, `delay_send` -/

/-- The function `ssl_write(ssock, send_key, data, size, flags)`; `nwritten` is the
result of the engine's `gnutls_record_send(session, data, size)`. -/
def ssl_write (ssock : pj_ssl_sock_t) (_send_key : Nat) (data : Nat) (size : Nat)
    (flags : Nat) (nwritten : Int) : Int × pj_ssl_sock_t :=
  let s1 := { ssock with engine_log := ssock.engine_log ++ [(data, size, flags)] }
  if nwritten = (size : Int) then
    -- All data written
    (PJ_SUCCESS, s1)
  else if nwritten ≤ 0 then
    -- SSL failed to process the data, it may just that re-negotiation is on progress
    (PJ_EBUSY, s1)
  else
    -- nwritten < *size, shouldn't happen
    (PJ_ENOMEM, s1)

/-- The `while (!pj_list_empty(&ssock->write_pending))` loop of
`flush_delayed_send`.  The second argument is the list `ssock->write_pending`
itself; `rs i` is the engine's result for the `i`-th write from here on. -/
def flush_loop (ssock : pj_ssl_sock_t) : List write_data_t → (Nat → Int) → Int × pj_ssl_sock_t
  | [], _ =>
    -- Reset ongoing flush flag
    (PJ_SUCCESS, { ssock with flushing_write_pend := false })
  | wp :: rest, rs =>
    let r := ssl_write ssock wp.self wp.data_ptr wp.plain_data_len wp.flags (rs 0)
    if r.1 ≠ PJ_SUCCESS then
      -- Reset ongoing flush flag first
      (r.1, { r.2 with flushing_write_pend := false })
    else
      -- pj_list_erase(wp); pj_list_push_back(&ssock->write_pending_empty, wp)
      flush_loop
        { r.2 with write_pending := rest
                   write_pending_empty := r.2.write_pending_empty ++ [wp] }
        rest (fun i => rs (i + 1))

/-- The function `flush_delayed_send`. -/
def flush_delayed_send (ssock : pj_ssl_sock_t) (e : env) : Int × pj_ssl_sock_t :=
  -- Check for another ongoing flush
  if ssock.flushing_write_pend then (PJ_EBUSY, ssock)
  else
    -- Set ongoing flush flag
    flush_loop { ssock with flushing_write_pend := true } ssock.write_pending
      e.flush_nwritten

/-- The function `delay_send(ssock, send_key, data, size, flags)`. -/
def delay_send (ssock : pj_ssl_sock_t) (send_key : Nat) (data : Nat) (size : Nat)
    (flags : Nat) (e : env) : Int × pj_ssl_sock_t :=
  -- Init write pending instance
  let wp : write_data_t :=
    match ssock.write_pending_empty with
    | w :: _ => w
    | [] => write_data_t.zero e.zalloc
  let wp2 : write_data_t :=
    { wp with app_key := send_key, plain_data_len := size, data_ptr := data, flags := flags }
  -- Must return PJ_EPENDING
  (PJ_EPENDING,
    { ssock with write_pending_empty := ssock.write_pending_empty.tail
                 write_pending := ssock.write_pending ++ [wp2] })

/-- The function `pj_ssl_sock_send(ssock, send_key, data, size, flags)`; `data` is
the pointer (zero for NULL) and `size` is `*size`. -/
def pj_ssl_sock_send (ssock : pj_ssl_sock_t) (send_key : Nat) (data : Nat) (size : Int)
    (flags : Nat) (e : env) : Int × pj_ssl_sock_t :=
  if data = 0 ∨ ¬ (size > 0) then (PJ_EINVAL, ssock)
  else if ssock.ssl_state ≠ ssl_state.SSL_STATE_ESTABLISHED then (PJ_EINVALIDOP, ssock)
  else
    -- Flush delayed send first
    let r := flush_delayed_send ssock e
    if r.1 = PJ_EBUSY then
      -- Re-negotiation or flushing is on progress, delay sending
      delay_send r.2 send_key data size.toNat flags e
    else if r.1 ≠ PJ_SUCCESS then r
    else
      -- Write data to SSL
      let r2 := ssl_write r.2 send_key data size.toNat flags e.send_nwritten
      if r2.1 = PJ_EBUSY then
        -- Re-negotiation is on progress, delay sending
        delay_send r2.2 send_key data size.toNat flags e
      else r2

/-! ## Active socket callbacks -/

/-- The label `on_error` of `asock_on_data_read`. -/
def asock_on_data_read_on_error (ssock : pj_ssl_sock_t) (status : Int) (e : env) :
    Bool × pj_ssl_sock_t :=
  if ssock.ssl_state = ssl_state.SSL_STATE_HANDSHAKING then
    on_handshake_complete ssock status e
  else if ssock.read_started && ssock.param.cb.on_data_read then
    let s1 := notify ssock (cb_event.data_read false 0 status)
    if e.cb_read_ret = false then
      -- We've been destroyed
      (false, s1)
    else (false, reset_ssl_sock_state s1)
  else (false, reset_ssl_sock_state ssock)

/-- The function `asock_on_data_read(asock, data, size, status, remainder)`;
`data` is whether the data pointer is non-NULL. -/
def asock_on_data_read (ssock : pj_ssl_sock_t) (data : Bool) (size : Nat) (status : Int)
    (e : env) : Bool × pj_ssl_sock_t :=
  -- Check if SSL handshake hasn't finished yet
  if ssock.ssl_state = ssl_state.SSL_STATE_HANDSHAKING then
    let r : Int × pj_ssl_sock_t :=
      if status = PJ_SUCCESS then do_handshake ssock e else (status, ssock)
    -- Not pending is either success or failed
    if r.1 ≠ PJ_EPENDING then on_handshake_complete r.2 r.1 e else (true, r.2)
  -- See if there is any decrypted data for the application
  else if data && decide (size > 0) && ssock.read_started then
    let decoded_size := e.record_recv_r
    if decoded_size > 0 ∨ status ≠ PJ_SUCCESS then
      let s1 := if ssock.param.cb.on_data_read then
                  notify ssock (cb_event.data_read true decoded_size PJ_EEOF)
                else ssock
      if ssock.param.cb.on_data_read && (e.cb_read_ret = false) then
        -- We've been destroyed
        (false, s1)
      else if status ≠ PJ_SUCCESS then
        -- Active socket signalled connection closed/error
        (false, reset_ssl_sock_state s1)
      else (true, s1)
    else if decoded_size ≠ GNUTLS_E_SUCCESS ∧ decoded_size ≠ GNUTLS_E_AGAIN then
      -- Reset SSL socket state, then return PJ_FALSE
      asock_on_data_read_on_error (reset_ssl_sock_state ssock) status e
    else
      -- Let's try renegotiating
      let r := do_handshake ssock e
      if r.1 = PJ_SUCCESS then
        -- Update certificates, flush any data left in our buffers
        let r2 := flush_delayed_send (update_certs_info r.2 e) e
        -- If flushing is ongoing, treat it as success
        let status2 := if r2.1 = PJ_EBUSY then PJ_SUCCESS else r2.1
        if status2 ≠ PJ_SUCCESS ∧ status2 ≠ PJ_EPENDING then
          asock_on_data_read_on_error r2.2 status2 e
        else (false, r2.2)
      else if r.1 ≠ PJ_EPENDING then asock_on_data_read_on_error r.2 r.1 e
      else (false, r.2)
  else (true, ssock)

/-- The function `asock_on_data_sent(asock, send_key, sent)`.  `send_key` is `none`
for `&ssock->handshake_op_key` and `some wdata` for the key of the send record
at address `wdata` (`send_key->user_data`). -/
def asock_on_data_sent (ssock : pj_ssl_sock_t) (send_key : Option Nat) (sent : Int)
    (e : env) : Bool × pj_ssl_sock_t :=
  if ssock.ssl_state = ssl_state.SSL_STATE_HANDSHAKING then
    -- Initial handshaking
    let r := do_handshake ssock e
    -- Not pending is either success or failed
    if r.1 ≠ PJ_EPENDING then on_handshake_complete r.2 r.1 e else (true, r.2)
  else
    match send_key with
    | some wdata =>
      -- Some data has been sent, notify application
      let rec_ := (ssock.send_pending.find? (fun w => w.self = wdata)).getD
                    (write_data_t.zero wdata)
      let sent_len : Int := if sent > 0 then (rec_.plain_data_len : Int) else sent
      let s1 := if ssock.param.cb.on_data_sent then
                  notify ssock (cb_event.data_sent rec_.app_key sent_len)
                else ssock
      if ssock.param.cb.on_data_sent && (e.cb_sent_ret = false) then
        -- We've been destroyed
        (false, s1)
      else
        -- Update write buffer state
        (true, free_send_data s1 wdata)
    | none =>
      -- SSL re-negotiation is on-progress, just do nothing
      (true, ssock)

/-! ## Engine session set-up, connect and accept completion -/

/-- The function `create_ssl`.  The status of `tls_priorities_set` and the outcome
of loading the trust list and the certificate come from the environment. -/
def create_ssl (ssock : pj_ssl_sock_t) (e : env) : Int × pj_ssl_sock_t :=
  -- OpenSSL library initialization counter
  if ssock.tls_init_count ≠ 0 then (PJ_SUCCESS, ssock)
  else
    let s1 := { ssock with tls_init_count := ssock.tls_init_count + 1, session := true }
    -- Determine SSL method to use
    if e.priorities_status ≠ PJ_SUCCESS then (e.priorities_status, s1)
    else
      -- Allocate credentials
      let s2 := { s1 with xcred := true }
      match s2.cert with
      | some cert =>
        if cert.CA_file ≠ [] ∧ e.ca_load_ok = false then (PJ_EINVAL, s2)
        else if cert.cert_file ≠ [] ∧ e.cert_load_ok = false then (PJ_EINVAL, s2)
        else (PJ_SUCCESS, s2)
      | none => (PJ_SUCCESS, s2)

/-- The block "Prepare write/send state" of the connect and accept completion:
the send buffer is allocated from the pool and set empty. -/
def prepare_send_state (ssock : pj_ssl_sock_t) (e : env) : pj_ssl_sock_t :=
  { ssock with
    send_buf := { buf := e.pool_alloc, max_len := ssock.param.send_buffer_size,
                  start := e.pool_alloc, len := 0 } }

/-- The call `pj_activesock_start_read2` on the socket's active socket, when it
succeeds: reading is started. -/
def asock_start_read (ssock : pj_ssl_sock_t) : pj_ssl_sock_t :=
  { ssock with asock := ssock.asock.map (fun a => { a with reading := true }) }

/-- The block "Start handshake timer" of `asock_on_accept_complete` and "Start
timer" of `pj_ssl_sock_start_connect`. -/
def start_handshake_timer (ssock : pj_ssl_sock_t) (e : env) : pj_ssl_sock_t :=
  if ssock.param.timer_heap && (ssock.param.timeout_sec ≠ 0 || ssock.param.timeout_msec ≠ 0)
  then
    if e.timer_schedule_status ≠ PJ_SUCCESS then { ssock with timer := timer_id.TIMER_NONE }
    else { ssock with timer := timer_id.TIMER_HANDSHAKE_TIMEOUT }
  else ssock

/-- The function `asock_on_connect_complete(asock, status)`.  The event layer has
completed the connect, so none is outstanding on the active socket any more. -/
def asock_on_connect_complete (ssock0 : pj_ssl_sock_t) (status : Int) (e : env) :
    Bool × pj_ssl_sock_t :=
  let ssock := { ssock0 with
                 asock := ssock0.asock.map (fun a => { a with connect_pending := false }) }
  if status ≠ PJ_SUCCESS then on_handshake_complete ssock status e
  -- Update local address
  else if e.getsockname_status ≠ PJ_SUCCESS then
    on_handshake_complete ssock e.getsockname_status e
  else
    let s1 := { ssock with local_addr := e.sockname }
    -- Create SSL context
    let r := create_ssl s1 e
    if r.1 ≠ PJ_SUCCESS then on_handshake_complete r.2 r.1 e
    -- Start read
    else if e.start_read_status ≠ PJ_SUCCESS then
      on_handshake_complete r.2 e.start_read_status e
    else
      -- Prepare write/send state
      let s2 := prepare_send_state (asock_start_read r.2) e
      -- Start SSL handshake
      let s3 := set_ssl_state s2 ssl_state.SSL_STATE_HANDSHAKING
      let r2 := do_handshake s3 e
      if r2.1 ≠ PJ_EPENDING then on_handshake_complete r2.2 r2.1 e
      else (true, r2.2)

/-- Modelled from the spec: `pj_SOCK_STREAM()` of `pj/sock.h` (not under `src/`). -/
def pj_SOCK_STREAM : Nat := 1

/-- The function `pj_ssl_sock_create(pool, param, p_ssock)`: the status and, on
success, the new socket. -/
def pj_ssl_sock_create (param : pj_ssl_sock_param) (e : env) : Int × Option pj_ssl_sock_t :=
  if param.sock_type ≠ pj_SOCK_STREAM then (PJ_ENOTSUP, none)
  -- Create secure socket mutex
  else if e.mutex_status ≠ PJ_SUCCESS then (e.mutex_status, none)
  else
    (PJ_SUCCESS, some
      { pool := true, parent := none,
        -- Init secure socket param
        param := { param with read_buffer_size := ((param.read_buffer_size + 7) / 8) * 8 },
        cert := none, local_cert_info := pj_ssl_cert_info.zero,
        remote_cert_info := pj_ssl_cert_info.zero, is_server := false,
        ssl_state := ssl_state.SSL_STATE_NULL, timer := timer_id.TIMER_NONE,
        verify_status := 0, last_err := 0, sock := none, asock := none,
        local_addr := 0, rem_addr := 0, read_started := false, read_size := 0,
        read_flags := 0, write_pending := [], write_pending_empty := [],
        flushing_write_pend := false,
        send_buf := { buf := 0, max_len := 0, start := 0, len := 0 },
        send_pending := [], session := false, xcred := false, tls_init_count := 0,
        engine_log := [], state_log := [], cb_log := [], renegotiate_calls := 0,
        cb_view := [] })

/-- The function `asock_on_accept_complete(asock, newsock, src_addr, src_addr_len)`
on the listening socket `ssock_parent` (at address `parent_addr`).  The listening
socket itself is only read; the result is the returned `pj_bool_t` and the
newly accepted socket as the callback leaves it (`none` when it could not be
created). -/
def asock_on_accept_complete (ssock_parent : pj_ssl_sock_t) (parent_addr : Nat)
    (newsock : Nat) (src_addr : Nat) (e : env) : Bool × Option pj_ssl_sock_t :=
  -- Create new SSL socket instance
  match pj_ssl_sock_create ssock_parent.param e with
  | (_, none) => (true, none)
  | (_, some ssock0) =>
    let on_return (s : pj_ssl_sock_t) (status : Int) : Bool × Option pj_ssl_sock_t :=
      if status ≠ PJ_EPENDING then (true, some (on_handshake_complete s status e).2)
      else (true, some s)
    -- Update new SSL socket attributes
    let s1 := { ssock0 with sock := some newsock, parent := some parent_addr,
                            is_server := true, cert := ssock_parent.cert }
    -- Apply QoS, if specified
    if e.qos_status ≠ PJ_SUCCESS ∧ s1.param.qos_ignore_error = false then
      on_return s1 e.qos_status
    else
      -- Update local address, set remote address
      let s2 := { s1 with
                  local_addr := if e.getsockname_status ≠ PJ_SUCCESS
                                then ssock_parent.local_addr else e.sockname,
                  rem_addr := src_addr }
      -- Create SSL context
      let r := create_ssl s2 e
      if r.1 ≠ PJ_SUCCESS then on_return r.2 r.1
      -- Create active socket
      else if e.asock_create_status ≠ PJ_SUCCESS then on_return r.2 e.asock_create_status
      else
        let s3 := { r.2 with
                    asock := some { connect_pending := false, reading := false,
                                    accepting := false } }
        -- Start read
        if e.start_read_status ≠ PJ_SUCCESS then on_return s3 e.start_read_status
        else
          -- Prepare write/send state, start handshake timer
          let s4 := start_handshake_timer (prepare_send_state (asock_start_read s3) e) e
          -- Start SSL handshake
          let s5 := set_ssl_state s4 ssl_state.SSL_STATE_HANDSHAKING
          let r2 := do_handshake s5 e
          on_return r2.2 r2.1

/-! ## API -/

/-- The function `pj_ssl_sock_start_read2(ssock, pool, buff_size, readbuf, flags)`
(`pj_ssl_sock_start_read` allocates the buffers and calls it). -/
def pj_ssl_sock_start_read2 (ssock : pj_ssl_sock_t) (buff_size : Nat) (flags : Nat) :
    Int × pj_ssl_sock_t :=
  if buff_size = 0 then (PJ_EINVAL, ssock)
  else if ssock.ssl_state ≠ ssl_state.SSL_STATE_ESTABLISHED then (PJ_EINVALIDOP, ssock)
  else
    (PJ_SUCCESS,
      { ssock with read_size := buff_size, read_started := true, read_flags := flags })

/-- The function `pj_ssl_sock_start_accept(ssock, pool, localaddr, addr_len)`. -/
def pj_ssl_sock_start_accept (ssock : pj_ssl_sock_t) (localaddr : Nat) (e : env) :
    Int × pj_ssl_sock_t :=
  -- Create socket
  if e.sock_socket_status ≠ PJ_SUCCESS then
    (e.sock_socket_status, reset_ssl_sock_state ssock)
  else
    let s1 := { ssock with sock := some e.new_sock }
    -- Apply QoS, if specified
    if e.qos_status ≠ PJ_SUCCESS ∧ s1.param.qos_ignore_error = false then
      (e.qos_status, reset_ssl_sock_state s1)
    -- Bind socket
    else if e.bind_status ≠ PJ_SUCCESS then (e.bind_status, reset_ssl_sock_state s1)
    -- Start listening to the address
    else if e.listen_status ≠ PJ_SUCCESS then (e.listen_status, reset_ssl_sock_state s1)
    -- Create active socket
    else if e.asock_create_status ≠ PJ_SUCCESS then
      (e.asock_create_status, reset_ssl_sock_state s1)
    else
      let s2 := { s1 with
                  asock := some { connect_pending := false, reading := false,
                                  accepting := false } }
      -- Start accepting
      if e.start_accept_status ≠ PJ_SUCCESS then
        (e.start_accept_status, reset_ssl_sock_state s2)
      else
        (PJ_SUCCESS,
          { s2 with
            asock := some { connect_pending := false, reading := false, accepting := true },
            local_addr := if e.getsockname_status ≠ PJ_SUCCESS then localaddr else e.sockname,
            is_server := true })

/-- The function `pj_ssl_sock_start_connect(ssock, pool, localaddr, remaddr,
addr_len)`.  When the event layer completes the connect at once
(`pj_activesock_start_connect` returns `PJ_SUCCESS`) the function calls
`asock_on_connect_complete` itself; when it returns `PJ_EPENDING` the connect is
outstanding on the active socket. -/
def pj_ssl_sock_start_connect (ssock : pj_ssl_sock_t) (remaddr : Nat) (e : env) :
    Int × pj_ssl_sock_t :=
  -- Create socket
  if e.sock_socket_status ≠ PJ_SUCCESS then
    (e.sock_socket_status, reset_ssl_sock_state ssock)
  else
    let s1 := { ssock with sock := some e.new_sock }
    -- Apply QoS, if specified
    if e.qos_status ≠ PJ_SUCCESS ∧ s1.param.qos_ignore_error = false then
      (e.qos_status, reset_ssl_sock_state s1)
    -- Bind socket
    else if e.bind_status ≠ PJ_SUCCESS then (e.bind_status, reset_ssl_sock_state s1)
    -- Create active socket
    else if e.asock_create_status ≠ PJ_SUCCESS then
      (e.asock_create_status, reset_ssl_sock_state s1)
    else
      -- Save remote address, start timer
      let s2 := start_handshake_timer
                  { s1 with
                    asock := some { connect_pending := false, reading := false,
                                    accepting := false },
                    rem_addr := remaddr } e
      if e.start_connect_status = PJ_SUCCESS then
        let s3 := (asock_on_connect_complete s2 PJ_SUCCESS e).2
        (PJ_EPENDING, { s3 with local_addr := e.sockname, is_server := false })
      else if e.start_connect_status ≠ PJ_EPENDING then
        (e.start_connect_status, reset_ssl_sock_state s2)
      else
        (PJ_EPENDING,
          { s2 with
            asock := s2.asock.map (fun a => { a with connect_pending := true }),
            local_addr := e.sockname, is_server := false })

/-- The function `pj_ssl_sock_renegotiate`. -/
def pj_ssl_sock_renegotiate (ssock : pj_ssl_sock_t) (e : env) : Int × pj_ssl_sock_t :=
  if ssock.ssl_state ≠ ssl_state.SSL_STATE_ESTABLISHED then (PJ_EINVALIDOP, ssock)
  else if e.renegotiate_pending then (PJ_EPENDING, ssock)
  else
    -- ret = SSL_renegotiate(ssock->ossl_ssl)
    let s1 := { ssock with renegotiate_calls := ssock.renegotiate_calls + 1 }
    if e.renegotiate_r ≤ 0 then GET_SSL_STATUS s1 e
    else do_handshake s1 e

/-! ## Definitions used by the statements -/

/-- One write request as `delay_send` receives it. -/
structure write_req where
  send_key : Nat
  data : Nat
  size : Nat
  flags : Nat
  deriving DecidableEq, Repr

/-- The triple `(data, size, flags)` a request hands to `ssl_write`. -/
def write_req.triple (q : write_req) : Nat × Nat × Nat := (q.data, q.size, q.flags)

/-- The calls `delay_send` for a sequence of requests, in order; each request
comes with the environment of its call. -/
def delay_sends (ssock : pj_ssl_sock_t) : List (write_req × env) → pj_ssl_sock_t
  | [] => ssock
  | (q, e) :: qs =>
    delay_sends (delay_send ssock q.send_key q.data q.size q.flags e).2 qs

/-- The engine accepts the `i`-th write of a flush, for every `i` below the length
of `sizes`: `gnutls_record_send` returns the size it was given. -/
def engine_accepts (rs : Nat → Int) (sizes : List Nat) : Prop :=
  ∀ (i n : Nat), sizes[i]? = some n → rs i = (n : Int)

/-- An environment in which every call succeeds at once: the engine completes the
handshake, accepts writes of 10 bytes, and the callbacks return true. -/
def env_ok : env :=
  { handshake_r := 0, error_is_fatal := fun r => decide (r < 0 ∧ r ≠ -28 ∧ r ≠ -52),
    record_recv_r := 10, flush_nwritten := fun _ => 10, send_nwritten := 10,
    renegotiate_pending := false, renegotiate_r := 1, cipher_get := 7, err_get_error := 0,
    err_queue_next := 0, priorities_status := 0, ca_load_ok := true, cert_load_ok := true,
    local_info := pj_ssl_cert_info.zero, remote_info := pj_ssl_cert_info.zero,
    sock_socket_status := 0, new_sock := 5, qos_status := 0, bind_status := 0,
    listen_status := 0, asock_create_status := 0, start_accept_status := 0,
    start_connect_status := 70002, start_read_status := 0, getsockname_status := 0,
    sockname := 7, timer_schedule_status := 0, close_timer_status := 0, mutex_status := 0,
    win32 := false, pool_alloc := 4096, zalloc := 9000, cb_accept_ret := true,
    cb_connect_ret := true, cb_read_ret := true, cb_sent_ret := true }

/-- The environment `env_ok` with an engine that would block: the handshake
returns `GNUTLS_E_AGAIN` and a write returns zero. -/
def env_again : env :=
  { env_ok with handshake_r := -28, flush_nwritten := fun _ => 0, send_nwritten := 0 }

/-- The environment `env_ok` with an engine whose handshake fails fatally (`-12`,
`GNUTLS_E_FATAL_ALERT_RECEIVED`). -/
def env_fatal : env := { env_ok with handshake_r := -12 }

/-- A parameter block: all callbacks set, a send buffer of 8192 bytes. -/
def param0 : pj_ssl_sock_param :=
  { cb := { on_accept_complete := true, on_connect_complete := true, on_data_read := true,
            on_data_sent := true },
    timer_heap := true, timeout_sec := 0, timeout_msec := 50, verify_peer := false,
    require_client_cert := false, server_name := [], ciphers := [], proto := 0,
    send_buffer_size := 8192, read_buffer_size := 1500, async_cnt := 1,
    qos_ignore_error := true, sock_type := 1 }

/-- The socket `pj_ssl_sock_create` returns for `param0` (written out). -/
def sock0 : pj_ssl_sock_t :=
  { pool := true, parent := none,
    param := { param0 with read_buffer_size := 1504 },
    cert := none, local_cert_info := pj_ssl_cert_info.zero,
    remote_cert_info := pj_ssl_cert_info.zero, is_server := false,
    ssl_state := ssl_state.SSL_STATE_NULL, timer := timer_id.TIMER_NONE,
    verify_status := 0, last_err := 0, sock := none, asock := none,
    local_addr := 0, rem_addr := 0, read_started := false, read_size := 0,
    read_flags := 0, write_pending := [], write_pending_empty := [],
    flushing_write_pend := false,
    send_buf := { buf := 0, max_len := 0, start := 0, len := 0 },
    send_pending := [], session := false, xcred := false, tls_init_count := 0,
    engine_log := [], state_log := [], cb_log := [], renegotiate_calls := 0,
        cb_view := [] }

/-- The socket `sock0` with its send buffer prepared at address 4096 (empty ring
of 8192 bytes). -/
def sock_ring : pj_ssl_sock_t := prepare_send_state sock0 env_ok

/-! ### Send ring buffer: geometry and operation sequences -/

/-- The number of bytes from `start` to the address `a`, measured around the ring
(forwards, wrapping at the buffer end). -/
def ring_off (b : send_buf_t) (a : Nat) : Nat :=
  if b.start ≤ a then a - b.start else a + b.max_len - b.start

/-- A well-formed ring descriptor: the buffer lies in the address space, the
recorded length is within the capacity, and `start` points into the buffer. -/
def ring_wf (b : send_buf_t) : Prop :=
  b.buf + b.max_len < SIZE_T_MOD ∧ b.len ≤ b.max_len ∧ b.buf ≤ b.start ∧
    (b.start < b.buf + b.max_len ∨ b.start = b.buf)

/-- The byte at address `a` lies in the ring's recorded live range: the `len` bytes
beginning at `start`, wrapping at the buffer end. -/
def ring_live (b : send_buf_t) (a : Nat) : Prop :=
  b.buf ≤ a ∧ a < b.buf + b.max_len ∧ ring_off b a < b.len

instance (b : send_buf_t) (a : Nat) : Decidable (ring_live b a) := by
  unfold ring_live; infer_instance

/-- The `n` bytes at `p` lie inside the buffer and outside the recorded live
range. -/
def region_free (b : send_buf_t) (p n : Nat) : Prop :=
  b.buf ≤ p ∧ p + n ≤ b.buf + b.max_len ∧ ∀ i, i < n → ¬ ring_live b (p + i)

instance (b : send_buf_t) (p n : Nat) : Decidable (region_free b p n) := by
  unfold region_free; infer_instance

/-- The address just after the recorded live range (wrapping at the buffer end). -/
def live_end (b : send_buf_t) : Nat :=
  if b.start + b.len ≥ b.buf + b.max_len then b.start + b.len - b.max_len
  else b.start + b.len

/-- The condition of the specification for `allocate(n)` to succeed: the ring is
empty and `n` fits the capacity, or `n` free bytes follow the live range, or
`n` free bytes lie at the buffer start, before `start`. -/
def spec_alloc_ok (b : send_buf_t) (n : Nat) : Prop :=
  (b.len = 0 ∧ n ≤ b.max_len) ∨ region_free b (live_end b) n ∨
    (region_free b b.buf n ∧ b.buf + n ≤ b.start)

/-- The ring is empty: nothing live, `start` at the buffer start, no record
pending. -/
def ring_empty (s : pj_ssl_sock_t) : Prop :=
  s.send_buf.start = s.send_buf.buf ∧ s.send_buf.len = 0 ∧ s.send_pending = []

/-- A sequence of successful `alloc_send_data` calls with the given sizes: the
returned pointers in order and the socket afterwards, `none` when one of the
calls fails. -/
def alloc_seq (s : pj_ssl_sock_t) : List Nat → Option (List Nat × pj_ssl_sock_t)
  | [] => some ([], s)
  | n :: ns =>
    match alloc_send_data s n with
    | (some p, s1) => (alloc_seq s1 ns).map (fun r => (p :: r.1, r.2))
    | (none, _) => none

/-- An operation on the ring: an allocation of `n` bytes by a caller that stores
the size in the record (as `flush_write_bio` does), or the release of the
record at address `wdata`. -/
inductive ring_op where
  | alloc (n : Nat)
  | free (wdata : Nat)
  deriving DecidableEq, Repr

/-- One ring operation.  A failed allocation leaves the socket as
`alloc_send_data` returns it. -/
def ring_step (s : pj_ssl_sock_t) : ring_op → pj_ssl_sock_t
  | .alloc n =>
    match alloc_send_data s n with
    | (some p, s1) => set_record_len s1 p n
    | (none, s1) => s1
  | .free wdata => free_send_data s wdata

/-- A sequence of ring operations, in order. -/
def ring_run (s : pj_ssl_sock_t) (ops : List ring_op) : pj_ssl_sock_t :=
  ops.foldl ring_step s

/-- The sequence allocates at least one byte each time and frees only records
that are live (on `send_pending`) at that moment. -/
def ring_ops_ok : pj_ssl_sock_t → List ring_op → Prop
  | _, [] => True
  | s, .alloc n :: ops => 0 < n ∧ ring_ops_ok (ring_step s (.alloc n)) ops
  | s, .free p :: ops =>
    (∃ w ∈ s.send_pending, w.self = p) ∧ ring_ops_ok (ring_step s (.free p)) ops

/-- The invariant of the ring under allocation and release: the live records lie
inside the buffer, follow each other around the ring from `start` in list
order without overlap, and end within the recorded length. -/
def ring_inv (s : pj_ssl_sock_t) : Prop :=
  s.send_buf.buf + s.send_buf.max_len < SIZE_T_MOD ∧
  s.send_buf.len ≤ s.send_buf.max_len ∧
  (s.send_pending = [] → s.send_buf.len = 0) ∧
  (∀ w, s.send_pending.head? = some w → s.send_buf.start = w.self) ∧
  (∀ w ∈ s.send_pending,
    s.send_buf.buf ≤ w.self ∧ w.self + w.record_len ≤ s.send_buf.buf + s.send_buf.max_len ∧
    0 < w.record_len ∧ ring_off s.send_buf w.self + w.record_len ≤ s.send_buf.len) ∧
  s.send_pending.Pairwise
    (fun a c => ring_off s.send_buf a.self + a.record_len ≤ ring_off s.send_buf c.self)

/-! ### Socket info and error decoding -/

/-- The info block `pj_ssl_sock_info` that `pj_ssl_sock_get_info` fills.  The two
certificate references are `none` for NULL and otherwise hold the descriptor
they point at. -/
structure pj_ssl_sock_info where
  established : Bool
  proto : Nat
  cipher : Nat
  local_addr : Nat
  remote_addr : Nat
  local_cert_info : Option pj_ssl_cert_info
  remote_cert_info : Option pj_ssl_cert_info
  verify_status : Nat
  last_native_err : Nat
  deriving DecidableEq, Repr

/-- The function `pj_ssl_sock_get_info(ssock, info)`: the status, the info block
and the socket afterwards. -/
def pj_ssl_sock_get_info (ssock : pj_ssl_sock_t) (e : env) :
    Int × pj_ssl_sock_info × pj_ssl_sock_t :=
  -- Established flag
  let established : Bool := decide (ssock.ssl_state = ssl_state.SSL_STATE_ESTABLISHED)
  (PJ_SUCCESS,
    { established := established
      -- Protocol, local address
      proto := ssock.param.proto
      local_addr := ssock.local_addr
      -- Current cipher
      cipher := if established then e.cipher_get % 2 ^ 24 else 0
      -- Remote address
      remote_addr := if established then ssock.rem_addr else 0
      -- Certificates info
      local_cert_info := if established then some ssock.local_cert_info else none
      remote_cert_info := if established then some ssock.remote_cert_info else none
      -- Verification status
      verify_status := if established then ssock.verify_status else 0
      -- Last known OpenSSL error code
      last_native_err := ssock.last_err },
    ssock)

/-- The decoding at the head of `ssl_strerror(status, buf, bufsize)`: the pair
`(l, r)` it recovers from a non-zero status, `l = ssl_err / MAX_OSSL_ERR_REASON`
and `r = ssl_err % MAX_OSSL_ERR_REASON` with `ssl_err = status -
PJ_SSL_ERRNO_START`; for status zero nothing is decoded. -/
def ssl_strerror_decode (status : Int) : Int × Int :=
  if status ≠ 0 then
    let ssl_err := status - PJ_SSL_ERRNO_START
    (ssl_err / MAX_OSSL_ERR_REASON, ssl_err % MAX_OSSL_ERR_REASON)
  else (0, 0)

/-- The native code `STATUS_FROM_SSL_ERR` works on: the code it was given, or the
head of the error queue when that is the general `SSL_ERROR_SSL`. -/
def effective_err (err queued : Nat) : Nat := if err = SSL_ERROR_SSL then queued else err

/-! ### Strings and certificate information -/

/-- Modelled from the spec: the string `pj_str_t` of `pj/types.h` (not under
`src/`), a pointer `ptr` followed by a length `slen`.  `ptr` is `none` for NULL
and otherwise the characters in memory from the pointer on. -/
structure pj_str_t where
  ptr : Option (List Char)
  slen : Nat
  deriving DecidableEq, Repr

/-- The characters of a `pj_str_t`: the first `slen` characters at `ptr`. -/
def pj_str_t.chars (s : pj_str_t) : List Char := (s.ptr.getD []).take s.slen

/-- Whether the characters `cs` begin with `sub` (`pj_ansi_strncmp(s, sub, n) == 0`
over the length of `sub`). -/
def begins_with : List Char → List Char → Bool
  | _, [] => true
  | [], _ :: _ => false
  | c :: cs, d :: ds => c == d && begins_with cs ds

/-- The search loop of `pj_strstr`: the offset of the first of the next `k`
positions at which `sub` begins. -/
def strstr_loop (cs : List Char) (sub : List Char) : Nat → Nat → Option Nat
  | 0, _ => none
  | k + 1, i => if begins_with cs sub then some i else strstr_loop cs.tail sub k (i + 1)

/-- Modelled from the spec: `pj_strstr(str, substr)` of `pj/string.h` (not under
`src/`), as the offset of the first occurrence of `substr` in `str`, `none`
for NULL. -/
def pj_strstr (str substr : pj_str_t) : Option Nat :=
  if substr.slen = 0 then (if str.ptr.isSome then some 0 else none)
  else if str.slen < substr.slen then none
  else strstr_loop (str.ptr.getD []) substr.chars (str.slen - substr.slen + 1) 0

/-- Modelled from the spec: `pj_strchr(str, chr)` of `pj/string.h` (not under
`src/`), as the offset of the first `chr` among the `slen` characters. -/
def pj_strchr (str : pj_str_t) (chr : Char) : Option Nat :=
  let i := str.chars.indexOf chr
  if i < str.chars.length then some i else none

/-- The function `get_cn_from_gen_name(gen_name, cn)`: the string `cn` afterwards.
`pj_bzero(cn, sizeof(cn))` clears as many bytes as a pointer has, that is the
member `ptr` and not `slen`. -/
def get_cn_from_gen_name (gen_name : pj_str_t) (cn : pj_str_t) : pj_str_t :=
  let CN_sign : pj_str_t := { ptr := some ['C', 'N', '='], slen := 3 }
  let cn0 : pj_str_t := { cn with ptr := none }
  match pj_strstr gen_name CN_sign with
  | none => cn0
  | some i =>
    -- shift pointer to value part
    let p := i + 3
    let cn1 : pj_str_t := { ptr := some ((gen_name.ptr.getD []).drop p), slen := gen_name.slen - p }
    match pj_strchr cn1 ',' with
    | some q => { cn1 with slen := q }
    | none => cn1

/-- One subject-alternative-name entry as the engine reports it:
the result of `gnutls_x509_crt_get_subject_alt_name` (a name type, or a negative
error), the length and text it stores, and the text `pj_inet_ntop2` makes of
the bytes of an address. -/
structure x509_san where
  ret : Int
  len : Nat
  out : List Char
  ip_text : List Char
  deriving DecidableEq, Repr

/-- The native certificate `gnutls_x509_crt_t` as the accessors show it. -/
structure gnutls_x509_crt where
  issuer_dn : List Char
  serial : List Nat
  version : Nat
  dn : List Char
  expiration_time : Int
  activation_time : Int
  alt_names : List x509_san
  deriving DecidableEq, Repr

/-- The local buffer `serial_no[64]` of `get_cert_info` after
`gnutls_x509_crt_get_serial`: the serial followed by zeros. -/
def serial_buf (cert : gnutls_x509_crt) : List Nat :=
  (cert.serial ++ List.replicate 64 0).take 64

/-- The test `update_needed` of `get_cert_info`: the issuer string differs
(`pj_strcmp2`), or the first `serialsize` bytes of the serial differ
(`pj_memcmp`).  For a serial longer than the 20 bytes of `ci->serial_no` the
comparison runs past that array; this counts as a difference. -/
def cert_update_needed (ci : pj_ssl_cert_info) (cert : gnutls_x509_crt) : Bool :=
  decide (ci.issuer_info ≠ cert.issuer_dn) ||
    decide (ci.serial_no.take cert.serial.length ≠ (serial_buf cert).take cert.serial.length)

/-- The name type `get_cert_info` gives an entry (`PJ_SSL_CERT_NAME_*`: unknown 0,
RFC822 1, DNS 2, URI 3, IP 4) from the engine's (`GNUTLS_SAN_*`: DNS 1,
RFC822 2, URI 3, IP address 4). -/
def san_type (ret : Int) : Nat :=
  if ret = 4 then 4 else if ret = 3 then 3 else if ret = 2 then 1 else if ret = 1 then 2 else 0

/-- The loop of `get_cert_info` over the alternative names: an entry with a
non-zero length and a known type is appended. -/
def san_entries : List x509_san → List (Nat × List Char)
  | [] => []
  | a :: as =>
    if a.len ≠ 0 ∧ san_type a.ret ≠ 0 then
      (san_type a.ret, if san_type a.ret = 4 then a.ip_text else a.out) :: san_entries as
    else san_entries as

/-- The value of the common name `get_cn_from_gen_name` extracts from `info` into
a zeroed `pj_str_t`. -/
def cn_of (info : List Char) : List Char :=
  (get_cn_from_gen_name { ptr := some info, slen := info.length } { ptr := none, slen := 0 }).chars

/-- The function `get_cert_info(pool, ci, cert)`: the descriptor afterwards. -/
def get_cert_info (ci : pj_ssl_cert_info) (cert : gnutls_x509_crt) : pj_ssl_cert_info :=
  -- Check if the contents need to be updated
  if cert_update_needed ci cert = false then ci
  else
    -- Update cert info
    { version := cert.version
      issuer_info := cert.issuer_dn
      issuer_cn := cn_of cert.issuer_dn
      serial_no := (serial_buf cert).take 20
      subject_info := cert.dn
      subject_cn := cn_of cert.dn
      validity_end := cert.expiration_time
      validity_start := cert.activation_time
      validity_gmt := false
      subj_alt_name := if cert.version ≥ 3 then san_entries cert.alt_names else [] }

/-- A certificate as an engine might report it. -/
def cert0 : gnutls_x509_crt :=
  { issuer_dn := ['C', 'N', '=', 'c', 'a', ',', 'O', '=', 'x'], serial := [1, 2, 3],
    version := 3, dn := ['O', '=', 'y'], expiration_time := 2000, activation_time := 1000,
    alt_names := [{ ret := 1, len := 3, out := ['a', '.', 'b'], ip_text := [] }] }

/-- An established client socket: `sock0` connected, its handshake completed. -/
def sock_est : pj_ssl_sock_t :=
  { sock0 with
    ssl_state := ssl_state.SSL_STATE_ESTABLISHED, sock := some 5,
    asock := some { connect_pending := false, reading := true, accepting := false },
    session := true, xcred := true, tls_init_count := 1 }

/-- A client socket in the middle of its handshake, the handshake timer armed. -/
def sock_hs : pj_ssl_sock_t :=
  { sock_est with
    ssl_state := ssl_state.SSL_STATE_HANDSHAKING, timer := timer_id.TIMER_HANDSHAKE_TIMEOUT }

/-! ### Timer expiry, certificate verification, cipher priorities -/

/-- Modelled from the spec: the verification flags `PJ_SSL_CERT_E*` of
`pj/ssl_sock.h` (not under `src/`). -/
def PJ_SSL_CERT_EISSUER_NOT_FOUND : Nat := 2 ^ 0

/-- Modelled from the spec: flag of `pj/ssl_sock.h`, the certificate is untrusted. -/
def PJ_SSL_CERT_EUNTRUSTED : Nat := 2 ^ 1

/-- Modelled from the spec: flag of `pj/ssl_sock.h`, expired or not yet valid. -/
def PJ_SSL_CERT_EVALIDITY_PERIOD : Nat := 2 ^ 2

/-- Modelled from the spec: flag of `pj/ssl_sock.h`, a field has an invalid format. -/
def PJ_SSL_CERT_EINVALID_FORMAT : Nat := 2 ^ 3

/-- Modelled from the spec: flag of `pj/ssl_sock.h`, issuer and subject mismatch. -/
def PJ_SSL_CERT_EISSUER_MISMATCH : Nat := 2 ^ 5

/-- Modelled from the spec: flag of `pj/ssl_sock.h`, the certificate is revoked. -/
def PJ_SSL_CERT_EREVOKED : Nat := 2 ^ 7

/-- Modelled from the spec: flag of `pj/ssl_sock.h`, the server identity does not
match any identity of the certificate. -/
def PJ_SSL_CERT_EIDENTITY_NOT_MATCH : Nat := 2 ^ 30

/-- Modelled from the spec: flag of `pj/ssl_sock.h`, unknown verification error. -/
def PJ_SSL_CERT_EUNKNOWN : Nat := 2 ^ 31

/-- Modelled from the spec: `GNUTLS_E_CERTIFICATE_ERROR` of `gnutls/gnutls.h`. -/
def GNUTLS_E_CERTIFICATE_ERROR : Int := -43

/-- Modelled from the spec: `GNUTLS_CRT_X509` of `gnutls/gnutls.h`. -/
def GNUTLS_CRT_X509 : Nat := 1

/-- Modelled from the spec: the bits `GNUTLS_CERT_*` of
`gnutls_certificate_status_t` in `gnutls/gnutls.h`. -/
def GNUTLS_CERT_INVALID : Nat := 2 ^ 1

/-- Modelled from the spec: bit of `gnutls_certificate_status_t`. -/
def GNUTLS_CERT_REVOKED : Nat := 2 ^ 5

/-- Modelled from the spec: bit of `gnutls_certificate_status_t`. -/
def GNUTLS_CERT_SIGNER_NOT_FOUND : Nat := 2 ^ 6

/-- Modelled from the spec: bit of `gnutls_certificate_status_t`. -/
def GNUTLS_CERT_SIGNER_NOT_CA : Nat := 2 ^ 7

/-- Modelled from the spec: bit of `gnutls_certificate_status_t`. -/
def GNUTLS_CERT_INSECURE_ALGORITHM : Nat := 2 ^ 8

/-- Modelled from the spec: bit of `gnutls_certificate_status_t`. -/
def GNUTLS_CERT_NOT_ACTIVATED : Nat := 2 ^ 9

/-- Modelled from the spec: bit of `gnutls_certificate_status_t`. -/
def GNUTLS_CERT_EXPIRED : Nat := 2 ^ 10

/-- Modelled from the spec: bit of `gnutls_certificate_status_t`. -/
def GNUTLS_CERT_UNEXPECTED_OWNER : Nat := 2 ^ 14

/-- Modelled from the spec: bit of `gnutls_certificate_status_t`. -/
def GNUTLS_CERT_MISMATCH : Nat := 2 ^ 17

/-- The answers of the engine to the calls of `verify_callback` on one session. -/
structure verify_session where
  /-- `GNUTLS_VERSION_MAJOR` of the build -/
  version_major : Nat
  /-- result of `gnutls_certificate_type_get` -/
  certificate_type : Nat
  /-- result of `gnutls_certificate_verify_peers2` and the status it stores -/
  verify_peers_ret : Int
  verify_peers_status : Nat
  /-- result of `gnutls_x509_crt_init` -/
  crt_init_ret : Int
  /-- whether `gnutls_certificate_get_peers` returns a list -/
  peers_found : Bool
  /-- results of `gnutls_x509_crt_import` for DER and for PEM -/
  import_der_ret : Int
  import_pem_ret : Int
  /-- result of `gnutls_x509_crt_check_hostname` -/
  check_hostname_ret : Int

/-- The bit test `status & bit` of C, as a truth value. -/
def has_bit (status bit : Nat) : Bool := status &&& bit != 0

/-- The function `verify_callback(session)`: the value returned to the engine and
the socket afterwards. -/
def verify_callback (ssock : pj_ssl_sock_t) (v : verify_session) : Int × pj_ssl_sock_t :=
  -- Support only x509 format
  let ret : Int := if v.certificate_type ≠ GNUTLS_CRT_X509 then 1 else 0
  if ret < 0 then
    (GNUTLS_E_CERTIFICATE_ERROR,
      { ssock with verify_status := ssock.verify_status ||| PJ_SSL_CERT_EINVALID_FORMAT })
  -- Store verification status
  else if v.verify_peers_ret < 0 then
    (GNUTLS_E_CERTIFICATE_ERROR,
      { ssock with verify_status := ssock.verify_status ||| PJ_SSL_CERT_EUNKNOWN })
  else if has_bit v.verify_peers_status GNUTLS_CERT_INVALID then
    let status := v.verify_peers_status
    let flag : Nat :=
      if has_bit status GNUTLS_CERT_SIGNER_NOT_FOUND then PJ_SSL_CERT_EISSUER_NOT_FOUND
      else if has_bit status GNUTLS_CERT_EXPIRED || has_bit status GNUTLS_CERT_NOT_ACTIVATED then
        PJ_SSL_CERT_EVALIDITY_PERIOD
      else if has_bit status GNUTLS_CERT_SIGNER_NOT_CA ||
          has_bit status GNUTLS_CERT_INSECURE_ALGORITHM then
        PJ_SSL_CERT_EUNTRUSTED
      else if decide (v.version_major ≥ 3) && (has_bit status GNUTLS_CERT_UNEXPECTED_OWNER ||
          has_bit status GNUTLS_CERT_MISMATCH) then
        PJ_SSL_CERT_EISSUER_MISMATCH
      else if has_bit status GNUTLS_CERT_REVOKED then PJ_SSL_CERT_EREVOKED
      else PJ_SSL_CERT_EUNKNOWN
    (GNUTLS_E_CERTIFICATE_ERROR, { ssock with verify_status := ssock.verify_status ||| flag })
  -- When verification is not requested just return ok here
  else if ssock.param.verify_peer then
    let fail : Int × pj_ssl_sock_t :=
      (GNUTLS_E_CERTIFICATE_ERROR,
        { ssock with verify_status := ssock.verify_status ||| PJ_SSL_CERT_EUNKNOWN })
    if v.crt_init_ret < 0 then fail
    else if !v.peers_found then fail
    else
      let ret1 := v.import_der_ret
      let ret2 := if ret1 < 0 then v.import_pem_ret else ret1
      if ret2 < 0 then
        (GNUTLS_E_CERTIFICATE_ERROR,
          { ssock with verify_status := ssock.verify_status ||| PJ_SSL_CERT_EINVALID_FORMAT })
      else if v.check_hostname_ret < 0 then fail
      else
        -- notify gnutls to continue handshake normally
        (0, ssock)
  else (0, ssock)

/-- The constant `MAX_CIPHERS`. -/
def MAX_CIPHERS : Nat := 100

/-- One cipher suite as `gnutls_cipher_suite_info` reports it: the two bytes of its
id, its name, and the names the engine gives (`gnutls_kx_get_name` and so on)
for its key exchange, cipher algorithm, MAC and protocol. -/
structure cipher_suite where
  id0 : Nat
  id1 : Nat
  name : List Char
  kx : List Char
  algo : List Char
  mac : List Char
  proto : List Char
  deriving DecidableEq, Repr

/-- The cipher id `(pj_uint32_t) ((id[0] << 8) | id[1])` of a suite. -/
def cipher_suite.id (s : cipher_suite) : Nat := ((s.id0 <<< 8) ||| s.id1) % 2 ^ 32

/-- One entry of the table `openssl_ciphers`. -/
structure openssl_ciphers_t where
  id : Nat
  name : Option (List Char)
  deriving DecidableEq, Repr

/-- The file-level state `openssl_cipher_num` and `openssl_ciphers[MAX_CIPHERS]`.
`writes` is not in the C code: it lists, oldest first, every index `i` at which
the code stores into `openssl_ciphers[i]`. -/
structure cipher_table where
  openssl_cipher_num : Nat
  openssl_ciphers : List openssl_ciphers_t
  writes : List Nat
  deriving DecidableEq, Repr

/-- The table before `init_openssl` has run: zeroed static storage. -/
def cipher_table.zero : cipher_table :=
  { openssl_cipher_num := 0
    openssl_ciphers := List.replicate MAX_CIPHERS { id := 0, name := none }
    writes := [] }

/-- The entry at index `i` after a store into one of its members. -/
def cipher_table.store (t : cipher_table) (i : Nat)
    (f : openssl_ciphers_t → openssl_ciphers_t) : cipher_table :=
  { t with
    openssl_ciphers := t.openssl_ciphers.modify f i
    writes := t.writes ++ [i] }

/-- The loop `for (i = 0; ; i++)` of `init_openssl` from index `i` on; the engine
enumerates the list `suites` (`gnutls_cipher_suite_info(i, ..)` is its `i`-th
element, NULL past the end).  The first argument bounds the iterations left;
the loop leaves at `i = MAX_CIPHERS` at the latest.  The result is the final
`i` and the table. -/
def init_openssl_loop (suites : List cipher_suite) : Nat → Nat → cipher_table → Nat × cipher_table
  | 0, i, t => (i, t)
  | k + 1, i, t =>
    let suite := suites[i]?
    let t1 := t.store i (fun c => { c with id := 0 })
    match suite with
    | some su =>
      if i < MAX_CIPHERS then
        let t2 := t1.store i (fun c => { c with id := su.id })
        let t3 := t2.store i (fun c => { c with name := some su.name })
        init_openssl_loop suites k (i + 1) t3
      else (i, t1)
    | none => (i, t1)

/-- The function `init_openssl`: the status and the table afterwards. -/
def init_openssl (t : cipher_table) (suites : List cipher_suite) : Int × cipher_table :=
  -- Init available ciphers
  if t.openssl_cipher_num = 0 then
    let r := init_openssl_loop suites (MAX_CIPHERS + 1) 0 t
    (PJ_SUCCESS, { r.2 with openssl_cipher_num := r.1 })
  else (PJ_SUCCESS, t)

/-- Modelled from the spec: `pj_str(s)` of `pj/string.h` (not under `src/`), the
string over the characters of a C string. -/
def pj_str (l : List Char) : pj_str_t := { ptr := some l, slen := l.length }

/-- Modelled from the spec: `pj_strcat(dst, src)` of `pj/string.h` (not under
`src/`), the characters of `src` copied behind those of `dst`. -/
def pj_strcat (dst src : pj_str_t) : pj_str_t :=
  { ptr := some (dst.chars ++ src.chars), slen := dst.slen + src.slen }

/-- The function `tls_str_append_once(dst, src)`: the status and `dst` afterwards. -/
def tls_str_append_once (dst src : pj_str_t) : Int × pj_str_t :=
  if (pj_strstr dst src).isNone then
    -- Check buffer size
    if dst.slen + src.slen + 3 > 1024 then (PJ_ETOOMANY, dst)
    else (PJ_SUCCESS, pj_strcat (pj_strcat dst (pj_str [':', '+'])) src)
  else (PJ_SUCCESS, dst)

/-- Modelled from the spec: the protocol constants `PJ_SSL_SOCK_PROTO_*` of
`pj/ssl_sock.h` (not under `src/`): default 0, TLS1 1, SSL3 2, SSL23 3. -/
def PJ_SSL_SOCK_PROTO_DEFAULT : Nat := 0

/-- Modelled from the spec: `PJ_SSL_SOCK_PROTO_TLS1` of `pj/ssl_sock.h`. -/
def PJ_SSL_SOCK_PROTO_TLS1 : Nat := 1

/-- Modelled from the spec: `PJ_SSL_SOCK_PROTO_SSL3` of `pj/ssl_sock.h`. -/
def PJ_SSL_SOCK_PROTO_SSL3 : Nat := 2

/-- Modelled from the spec: `PJ_SSL_SOCK_PROTO_SSL23` of `pj/ssl_sock.h`. -/
def PJ_SSL_SOCK_PROTO_SSL23 : Nat := 3

/-- The body of `tls_priorities_set` for one matching suite: the four appends.
Only the status of the first is assigned to `status`; the three tests that
follow read that same value.  The result is `status`, whether the function
returns here, and `cipher_list`. -/
def tls_priorities_entry (cipher_list : pj_str_t) (su : cipher_suite) : Int × Bool × pj_str_t :=
  let r1 := tls_str_append_once cipher_list (pj_strcat (pj_str ['V', 'E', 'R', 'S', '-'])
    (pj_str su.proto))
  let status := r1.1
  if status ≠ PJ_SUCCESS then (status, true, r1.2)
  else
    let l2 := (tls_str_append_once r1.2 (pj_str su.algo)).2
    if status ≠ PJ_SUCCESS then (status, true, l2)
    else
      let l3 := (tls_str_append_once l2 (pj_str su.mac)).2
      if status ≠ PJ_SUCCESS then (status, true, l3)
      else
        let l4 := (tls_str_append_once l3 (pj_str su.kx)).2
        if status ≠ PJ_SUCCESS then (status, true, l4)
        else (status, false, l4)

/-- The loop `for (j = 0; ; j++)` of `tls_priorities_set` for the configured cipher
`c`, over the suites the engine still enumerates. -/
def tls_priorities_inner (c : Nat) (cipher_list : pj_str_t) :
    List cipher_suite → Int × Bool × pj_str_t
  | [] => (PJ_SUCCESS, false, cipher_list)
  | su :: rest =>
    if c = su.id then tls_priorities_entry cipher_list su
    else tls_priorities_inner c cipher_list rest

/-- The loop `for (i = 0; i < ciphers_num; i++)` of `tls_priorities_set`. -/
def tls_priorities_outer (suites : List cipher_suite) (cipher_list : pj_str_t) :
    List Nat → Int × Bool × pj_str_t
  | [] => (PJ_SUCCESS, false, cipher_list)
  | c :: cs =>
    let r := tls_priorities_inner c cipher_list suites
    if r.2.1 then r else tls_priorities_outer suites r.2.2 cs

/-- The function `tls_priorities_set(ssock)`.  The engine enumerates `suites`;
`set_direct` is the result of `gnutls_priority_set_direct`.  The result is the
status and the priority string handed to the engine, `none` when the function
returns before that call. -/
def tls_priorities_set (ssock : pj_ssl_sock_t) (suites : List cipher_suite) (set_direct : Int) :
    Int × Option (List Char) :=
  let compression := pj_str ['C', 'O', 'M', 'P', '-', 'N', 'U', 'L', 'L']
  let server := pj_str ":%SERVER_PRECEDENCE".toList
  let cipher_list0 : pj_str_t := { ptr := some [], slen := 0 }
  -- default choice
  let priority : Option (List Char) :=
    if ssock.param.ciphers.length = 0 then
      if ssock.param.proto = PJ_SSL_SOCK_PROTO_DEFAULT ∨ ssock.param.proto = PJ_SSL_SOCK_PROTO_TLS1
      then some "SECURE256:-VERS-SSL3.0".toList
      else if ssock.param.proto = PJ_SSL_SOCK_PROTO_SSL3 then some "SECURE256".toList
      else if ssock.param.proto = PJ_SSL_SOCK_PROTO_SSL23 then some "NORMAL".toList
      else none
    else some "NONE".toList
  match priority with
  | none => (PJ_ENOTSUP, none)
  | some pr =>
    let cipher_list1 := pj_strcat cipher_list0 (pj_str pr)
    let r := tls_priorities_outer suites cipher_list1 ssock.param.ciphers
    if r.2.1 then (r.1, none)
    else
      -- disable compression, it's a TLS extension only after all
      let cipher_list2 := (tls_str_append_once r.2.2 compression).2
      -- server should be the one deciding which cripto to use
      let r3 : Option pj_str_t :=
        if ssock.is_server then
          if cipher_list2.slen + server.slen + 1 > 1024 then none
          else some (pj_strcat cipher_list2 server)
        else some cipher_list2
      match r3 with
      | none => (PJ_ETOOMANY, none)
      | some cipher_list3 =>
        -- set our priority string
        let status := set_direct
        if status < 0 then (status, some cipher_list3.chars)
        else (PJ_SUCCESS, some cipher_list3.chars)

/-- Whether the token `:+NAME` stands at the head of `cs`, followed by the end of
the string or by `:`. -/
def token_at (cs name : List Char) : Bool :=
  begins_with cs (':' :: '+' :: name) &&
    (match cs.drop (name.length + 2) with
     | [] => true
     | c :: _ => c == ':')

/-- Whether the priority string `s` contains `name` as a whole `:+NAME` token. -/
def has_token : List Char → List Char → Bool
  | [], name => token_at [] name
  | c :: cs, name => token_at (c :: cs) name || has_token cs name

/-- The socket `sock_est` with reading started by the application. -/
def sock_reading : pj_ssl_sock_t := { sock_est with read_started := true, read_size := 1500 }

/-- An answer of the engine to `verify_callback`: an X.509 certificate whose chain
verifies and whose owner matches. -/
def verify_ok : verify_session :=
  { version_major := 3, certificate_type := 1, verify_peers_ret := 0, verify_peers_status := 0,
    crt_init_ret := 0, peers_found := true, import_der_ret := 0, import_pem_ret := 0,
    check_hostname_ret := 1 }

/-- The suite `TLS_DHE_RSA_AES_128_CBC_SHA1` (id 0x0033) as an engine reports it. -/
def suite_dhe_rsa : cipher_suite :=
  { id0 := 0, id1 := 51, name := "TLS_DHE_RSA_AES_128_CBC_SHA1".toList,
    kx := "DHE-RSA".toList, algo := "AES-128-CBC".toList, mac := "SHA1".toList,
    proto := "SSL3.0".toList }

/-- The suite `TLS_RSA_AES_128_CBC_SHA1` (id 0x002F) as an engine reports it. -/
def suite_rsa : cipher_suite :=
  { id0 := 0, id1 := 47, name := "TLS_RSA_AES_128_CBC_SHA1".toList,
    kx := "RSA".toList, algo := "AES-128-CBC".toList, mac := "SHA1".toList,
    proto := "SSL3.0".toList }

/-- Two suites as an engine enumerates them. -/
def suites0 : List cipher_suite := [suite_dhe_rsa, suite_rsa]

/-- A suite whose component names are long (each fits the 256 bytes of `temp`). -/
def suite_long : cipher_suite :=
  { id0 := 0, id1 := 47, name := "LONG".toList,
    kx := List.replicate 252 'D', algo := List.replicate 250 'B',
    mac := List.replicate 250 'C', proto := List.replicate 245 'A' }

/-- The suite `suite_long` with another id and another cipher algorithm. -/
def suite_long2 : cipher_suite :=
  { suite_long with id1 := 51, name := "LONG2".toList, algo := List.replicate 100 'E' }

/-- The priority string for the one configured cipher `suite_long`, before the
append of the compression: 1014 characters. -/
def long_list : List Char :=
  "NONE".toList ++ ":+VERS-".toList ++ List.replicate 245 'A' ++ ":+".toList ++
    List.replicate 250 'B' ++ ":+".toList ++ List.replicate 250 'C' ++ ":+".toList ++
    List.replicate 252 'D'

/-! ### The state machine of `ssl_state` -/

/-- A change of `ssl_state` from `a` to `b` that the state machine allows: no
change, NULL to HANDSHAKING, HANDSHAKING to ESTABLISHED, or a reset to NULL. -/
def state_change_ok (a b : ssl_state) : Prop :=
  a = b ∨ (a = ssl_state.SSL_STATE_NULL ∧ b = ssl_state.SSL_STATE_HANDSHAKING) ∨
    (a = ssl_state.SSL_STATE_HANDSHAKING ∧ b = ssl_state.SSL_STATE_ESTABLISHED) ∨
    b = ssl_state.SSL_STATE_NULL

instance (a b : ssl_state) : Decidable (state_change_ok a b) := by
  unfold state_change_ok; infer_instance

/-- Every assignment of the list `l` of values assigned to `ssl_state`, made in
this order from the state `a` on, is an allowed change. -/
def steps_ok : ssl_state → List ssl_state → Prop
  | _, [] => True
  | a, b :: l => state_change_ok a b ∧ steps_ok b l

/-- The state after the assignments `l` made from the state `a` on. -/
def final_state : ssl_state → List ssl_state → ssl_state
  | a, [] => a
  | _, b :: l => final_state b l

/-- What one operation does to `ssl_state`, read off `state_log`: the operation
that takes `s` to `s2` makes the assignments `l`, each of them is an allowed
change, and `ssl_state` ends as the last one. -/
def legal_change (s s2 : pj_ssl_sock_t) : Prop :=
  ∃ l : List ssl_state, s2.state_log = s.state_log ++ l ∧ steps_ok s.ssl_state l ∧
    s2.ssl_state = final_state s.ssl_state l

/-- What the event layer guarantees for the callbacks, as a condition on a socket:
an active socket on which reading was started belongs to a socket out of
state NULL, and one with a connect outstanding to a socket in state NULL. -/
def asock_inv (s : pj_ssl_sock_t) : Prop :=
  ∀ a : pj_activesock_t, s.asock = some a →
    (a.reading = true → s.ssl_state ≠ ssl_state.SSL_STATE_NULL) ∧
    (a.connect_pending = true → s.ssl_state = ssl_state.SSL_STATE_NULL)

/-- The active socket after an operation: released, or the same as before with
`ssl_state` either as before or still out of state NULL. -/
def asock_kept (s s2 : pj_ssl_sock_t) : Prop :=
  s2.asock = none ∨
    (s2.asock = s.asock ∧
      (s2.ssl_state = s.ssl_state ∨
        (s.ssl_state ≠ ssl_state.SSL_STATE_NULL ∧ s2.ssl_state ≠ ssl_state.SSL_STATE_NULL)))

/-- An operation that takes `s` to `s2` changes `ssl_state` by allowed assignments
only and keeps the active socket in step with it. -/
def op_ok (s s2 : pj_ssl_sock_t) : Prop := legal_change s s2 ∧ asock_kept s s2

/-- One operation of the module on a socket, with any answers of the environment.
The event layer delivers a connect completion only while a connect is
outstanding and a read completion only when reading was started; a connect is
started on a socket in state NULL. -/
inductive sock_step : pj_ssl_sock_t → pj_ssl_sock_t → Prop where
  | connect_complete (s : pj_ssl_sock_t) (a : pj_activesock_t) (status : Int) (e : env) :
      s.asock = some a → a.connect_pending = true →
      sock_step s (asock_on_connect_complete s status e).2
  | data_read (s : pj_ssl_sock_t) (a : pj_activesock_t) (data : Bool) (size : Nat)
      (status : Int) (e : env) :
      s.asock = some a → a.reading = true →
      sock_step s (asock_on_data_read s data size status e).2
  | data_sent (s : pj_ssl_sock_t) (send_key : Option Nat) (sent : Int) (e : env) :
      sock_step s (asock_on_data_sent s send_key sent e).2
  | timer (s : pj_ssl_sock_t) (e : env) : sock_step s (on_timer s e)
  | send (s : pj_ssl_sock_t) (send_key data : Nat) (size : Int) (flags : Nat) (e : env) :
      sock_step s (pj_ssl_sock_send s send_key data size flags e).2
  | renegotiate (s : pj_ssl_sock_t) (e : env) : sock_step s (pj_ssl_sock_renegotiate s e).2
  | reset (s : pj_ssl_sock_t) : sock_step s (reset_ssl_sock_state s)
  | close (s : pj_ssl_sock_t) : sock_step s (pj_ssl_sock_close s).2
  | start_read (s : pj_ssl_sock_t) (buff_size flags : Nat) :
      sock_step s (pj_ssl_sock_start_read2 s buff_size flags).2
  | start_accept (s : pj_ssl_sock_t) (localaddr : Nat) (e : env) :
      sock_step s (pj_ssl_sock_start_accept s localaddr e).2
  | start_connect (s : pj_ssl_sock_t) (remaddr : Nat) (e : env) :
      s.ssl_state = ssl_state.SSL_STATE_NULL →
      sock_step s (pj_ssl_sock_start_connect s remaddr e).2

/-- The sockets reachable from a freshly created one: those `pj_ssl_sock_create`
returns, those an accept completion on a reachable listening socket creates,
and those an operation leaves. -/
inductive reachable : pj_ssl_sock_t → Prop where
  | create (param : pj_ssl_sock_param) (e : env) (status : Int) (s : pj_ssl_sock_t) :
      pj_ssl_sock_create param e = (status, some s) → reachable s
  | accept (p : pj_ssl_sock_t) (parent_addr newsock src_addr : Nat) (e : env) (b : Bool)
      (c : pj_ssl_sock_t) :
      reachable p → asock_on_accept_complete p parent_addr newsock src_addr e = (b, some c) →
      reachable c
  | step (s s2 : pj_ssl_sock_t) : reachable s → sock_step s s2 → reachable s2

/-- The client socket `sock0` after `pj_ssl_sock_start_connect` with the connect
outstanding. -/
def sock_connecting : pj_ssl_sock_t := (pj_ssl_sock_start_connect sock0 9 env_ok).2

/-- The block "Cancel handshake timer" of `on_handshake_complete`. -/
def cancel_handshake_timer (s : pj_ssl_sock_t) : pj_ssl_sock_t :=
  if s.timer = timer_id.TIMER_HANDSHAKE_TIMEOUT then { s with timer := timer_id.TIMER_NONE }
  else s

/-- The block of `on_handshake_complete` that fixes the status a failed client
handshake is reported with: `PJ_EEOF` with a code in the error queue is
replaced by the image of that code under the error mapper.  The result is the
status and the socket at that point. -/
def client_failure (s : pj_ssl_sock_t) (status : Int) (e : env) : Int × pj_ssl_sock_t :=
  if status = PJ_EEOF then
    if e.err_get_error ≠ SSL_ERROR_NONE then
      STATUS_FROM_SSL_ERR (cancel_handshake_timer s) e.err_get_error e.err_queue_next
    else (status, cancel_handshake_timer s)
  else (status, cancel_handshake_timer s)

/-- The certificate `cert0` with a serial number of 21 bytes. -/
def cert_long : gnutls_x509_crt :=
  { cert0 with serial := [1, 2, 3, 4, 5, 6, 7, 8, 9, 10, 11, 12, 13, 14, 15, 16, 17, 18, 19, 20,
                           21] }

/-! ## Theorems -/

/-! ### `do_handshake` -/

/-- C2: `do_handshake` has three outcomes decided by the engine's result `r` of the
single handshake advance: success gives `PJ_SUCCESS` and `ssl_state`
ESTABLISHED; a non-fatal non-success gives `PJ_EPENDING` and leaves the socket
unchanged; a fatal result gives a status that is neither `PJ_SUCCESS` nor
`PJ_EPENDING` and leaves the socket (so also `ssl_state`) unchanged. -/
theorem do_handshake_three_outcomes (ssock : pj_ssl_sock_t) (e : env) :
    (e.handshake_r = GNUTLS_E_SUCCESS →
      (do_handshake ssock e).1 = PJ_SUCCESS ∧
      (do_handshake ssock e).2.ssl_state = ssl_state.SSL_STATE_ESTABLISHED) ∧
    (e.handshake_r ≠ GNUTLS_E_SUCCESS → e.error_is_fatal e.handshake_r = false →
      do_handshake ssock e = (PJ_EPENDING, ssock)) ∧
    (e.handshake_r ≠ GNUTLS_E_SUCCESS → e.error_is_fatal e.handshake_r = true →
      (do_handshake ssock e).1 ≠ PJ_SUCCESS ∧ (do_handshake ssock e).1 ≠ PJ_EPENDING ∧
      (do_handshake ssock e).2 = ssock) := by
  refine ⟨?_, ?_, ?_⟩
  · intro h
    simp [do_handshake, h, set_ssl_state]
  · intro h hf
    simp [do_handshake, h, hf]
  · intro h hf
    simp [do_handshake, h, hf, PJ_ENOTFOUND, PJ_SUCCESS, PJ_EPENDING]

/-- C2, at concrete inputs: on a handshaking socket the three engine results
success, `GNUTLS_E_AGAIN` and a fatal alert give the three outcomes. -/
theorem do_handshake_three_outcomes_witness :
    ((do_handshake (set_ssl_state sock0 ssl_state.SSL_STATE_HANDSHAKING) env_ok).1 = PJ_SUCCESS ∧
      (do_handshake (set_ssl_state sock0 ssl_state.SSL_STATE_HANDSHAKING) env_ok).2.ssl_state
        = ssl_state.SSL_STATE_ESTABLISHED) ∧
    do_handshake (set_ssl_state sock0 ssl_state.SSL_STATE_HANDSHAKING) env_again
      = (PJ_EPENDING, set_ssl_state sock0 ssl_state.SSL_STATE_HANDSHAKING) ∧
    (do_handshake (set_ssl_state sock0 ssl_state.SSL_STATE_HANDSHAKING) env_fatal).2.ssl_state
      = ssl_state.SSL_STATE_HANDSHAKING :=
  ⟨(do_handshake_three_outcomes _ env_ok).1 (by decide),
   (do_handshake_three_outcomes _ env_again).2.1 (by decide) (by decide),
   by rw [((do_handshake_three_outcomes _ env_fatal).2.2 (by decide) (by decide)).2.2]; rfl⟩

/-! ### Delayed-send queue -/

/-- The flush loop always leaves with `flushing_write_pend` clear. -/
theorem flush_loop_flag (pend : List write_data_t) :
    ∀ (s : pj_ssl_sock_t) (rs : Nat → Int), (flush_loop s pend rs).2.flushing_write_pend = false := by
  induction pend with
  | nil => intro s rs; simp [flush_loop]
  | cons wp rest ih =>
    intro s rs
    simp only [flush_loop]
    split
    · rfl
    · exact ih _ _

/-- The flush loop when the engine accepts every write: all entries are handed to
`ssl_write` in order and moved to `write_pending_empty`. -/
theorem flush_loop_accepts (pend : List write_data_t) :
    ∀ (s : pj_ssl_sock_t) (rs : Nat → Int),
      engine_accepts rs (pend.map (·.plain_data_len)) →
      flush_loop s pend rs =
        (PJ_SUCCESS,
          { s with
            flushing_write_pend := false
            write_pending := if pend = [] then s.write_pending else []
            write_pending_empty := s.write_pending_empty ++ pend
            engine_log := s.engine_log ++ pend.map (fun w => (w.data_ptr, w.plain_data_len, w.flags)) }) := by
  induction pend with
  | nil => intro s rs _; simp [flush_loop]
  | cons wp rest ih =>
    intro s rs h
    have h0 : rs 0 = (wp.plain_data_len : Int) := h 0 _ (by simp)
    have hr : engine_accepts (fun i => rs (i + 1)) (rest.map (·.plain_data_len)) := by
      intro i n hi
      exact h (i + 1) n (by simpa using hi)
    simp only [flush_loop, ssl_write, h0, if_true, ne_eq, not_true_eq_false, if_false]
    rw [ih _ _ hr]
    cases rest <;> simp

/-- The flush loop when the engine accepts the writes of `pre` and fails on `ei`. -/
theorem flush_loop_fails (pre : List write_data_t) :
    ∀ (s : pj_ssl_sock_t) (rs : Nat → Int) (ei : write_data_t) (post : List write_data_t),
      engine_accepts rs (pre.map (·.plain_data_len)) →
      rs pre.length ≠ (ei.plain_data_len : Int) →
      flush_loop s (pre ++ ei :: post) rs =
        (if rs pre.length ≤ 0 then PJ_EBUSY else PJ_ENOMEM,
          { s with
            flushing_write_pend := false
            write_pending := if pre = [] then s.write_pending else ei :: post
            write_pending_empty := s.write_pending_empty ++ pre
            engine_log := s.engine_log ++
              (pre ++ [ei]).map (fun w => (w.data_ptr, w.plain_data_len, w.flags)) }) := by
  induction pre with
  | nil =>
    intro s rs ei post _ hne
    simp only [List.length_nil] at hne
    by_cases h0 : rs 0 ≤ 0 <;>
      simp [flush_loop, ssl_write, hne, h0, PJ_EBUSY, PJ_ENOMEM, PJ_SUCCESS]
  | cons wp rest ih =>
    intro s rs ei post h hne
    have h0 : rs 0 = (wp.plain_data_len : Int) := h 0 _ (by simp)
    have hr : engine_accepts (fun i => rs (i + 1)) (rest.map (·.plain_data_len)) := by
      intro i n hi
      exact h (i + 1) n (by simpa using hi)
    simp only [List.cons_append, flush_loop, ssl_write, h0, if_true, ne_eq, not_true_eq_false,
      if_false, List.append_eq]
    rw [ih _ _ ei post hr (by simpa using hne)]
    cases rest <;> simp

/-- What a sequence of `delay_send` calls appends to `write_pending`. -/
theorem delay_sends_queue (reqs : List (write_req × env)) :
    ∀ s : pj_ssl_sock_t,
      (delay_sends s reqs).flushing_write_pend = s.flushing_write_pend ∧
      (delay_sends s reqs).engine_log = s.engine_log ∧
      (delay_sends s reqs).write_pending.map (fun w => (w.data_ptr, w.plain_data_len, w.flags))
        = s.write_pending.map (fun w => (w.data_ptr, w.plain_data_len, w.flags))
            ++ reqs.map (fun q => q.1.triple) := by
  induction reqs with
  | nil => intro s; simp [delay_sends]
  | cons q qs ih =>
    intro s
    obtain ⟨q, e⟩ := q
    obtain ⟨h1, h2, h3⟩ := ih (delay_send s q.send_key q.data q.size q.flags e).2
    refine ⟨?_, ?_, ?_⟩
    · simp only [delay_sends]; rw [h1]; simp [delay_send]
    · simp only [delay_sends]; rw [h2]; simp [delay_send]
    · simp only [delay_sends]; rw [h3]; simp [delay_send, write_req.triple]

/-- C8: writes queued by `delay_send` on an empty queue are handed to `ssl_write`
by a following flush, in which the engine accepts every write, in the order
they were queued, each once, each with its own data pointer, length and
flags; the flush returns `PJ_SUCCESS` and leaves `write_pending` empty. -/
theorem flush_delayed_send_keeps_order (s : pj_ssl_sock_t) (reqs : List (write_req × env))
    (e : env) (hq : s.write_pending = []) (hf : s.flushing_write_pend = false)
    (ha : engine_accepts e.flush_nwritten (reqs.map (fun q => q.1.size))) :
    (flush_delayed_send (delay_sends s reqs) e).1 = PJ_SUCCESS ∧
    (flush_delayed_send (delay_sends s reqs) e).2.write_pending = [] ∧
    (flush_delayed_send (delay_sends s reqs) e).2.engine_log
      = s.engine_log ++ reqs.map (fun q => q.1.triple) := by
  obtain ⟨h1, h2, h3⟩ := delay_sends_queue reqs s
  have hsz : (delay_sends s reqs).write_pending.map (·.plain_data_len)
      = reqs.map (fun q => q.1.size) := by
    have := congrArg (List.map (fun t : Nat × Nat × Nat => t.2.1)) h3
    simpa [hq, write_req.triple, Function.comp_def] using this
  have hlog : (delay_sends s reqs).write_pending.map
      (fun w => (w.data_ptr, w.plain_data_len, w.flags)) = reqs.map (fun q => q.1.triple) := by
    simpa [hq] using h3
  have hacc := flush_loop_accepts (delay_sends s reqs).write_pending
    { delay_sends s reqs with flushing_write_pend := true } e.flush_nwritten (by rw [hsz]; exact ha)
  unfold flush_delayed_send
  rw [h1, hf]
  simp only [Bool.false_eq_true, if_false]
  rw [hacc]
  refine ⟨rfl, ?_, ?_⟩
  · simp
  · simp [h2, hlog]

/-- C8, at a concrete input: two writes of 10 bytes queued on a fresh socket are
flushed in the order queued. -/
theorem flush_delayed_send_keeps_order_witness :
    (flush_delayed_send
        (delay_sends sock0 [(⟨1, 100, 10, 0⟩, env_ok), (⟨2, 200, 10, 1⟩, env_ok)]) env_ok).1
      = PJ_SUCCESS ∧
    (flush_delayed_send
        (delay_sends sock0 [(⟨1, 100, 10, 0⟩, env_ok), (⟨2, 200, 10, 1⟩, env_ok)]) env_ok).2.write_pending
      = [] ∧
    (flush_delayed_send
        (delay_sends sock0 [(⟨1, 100, 10, 0⟩, env_ok), (⟨2, 200, 10, 1⟩, env_ok)]) env_ok).2.engine_log
      = [(100, 10, 0), (200, 10, 1)] :=
  flush_delayed_send_keeps_order sock0 [(⟨1, 100, 10, 0⟩, env_ok), (⟨2, 200, 10, 1⟩, env_ok)]
    env_ok rfl rfl
    (by
      intro i n h
      rcases i with _ | _ | i
      · simp at h; subst h; rfl
      · simp at h; subst h; rfl
      · simp at h)

/-- C9: when the engine write fails for entry `ei` of a flush over
`pre ++ ei :: post` (the writes of `pre` having been accepted), the flush returns
the status of that write, which is not `PJ_SUCCESS`; the entries of `pre` have
left `write_pending` and are appended to `write_pending_empty`; `ei :: post`
remain in `write_pending` in their order; nothing after `ei` was handed to the
engine; and the flush flag is clear. -/
theorem flush_delayed_send_failure (s : pj_ssl_sock_t) (pre : List write_data_t)
    (ei : write_data_t) (post : List write_data_t) (e : env)
    (hf : s.flushing_write_pend = false) (hq : s.write_pending = pre ++ ei :: post)
    (ha : engine_accepts e.flush_nwritten (pre.map (·.plain_data_len)))
    (hne : e.flush_nwritten pre.length ≠ (ei.plain_data_len : Int)) :
    (flush_delayed_send s e).1
      = (ssl_write s ei.self ei.data_ptr ei.plain_data_len ei.flags
          (e.flush_nwritten pre.length)).1 ∧
    (flush_delayed_send s e).1 ≠ PJ_SUCCESS ∧
    (flush_delayed_send s e).2.write_pending = ei :: post ∧
    (flush_delayed_send s e).2.write_pending_empty = s.write_pending_empty ++ pre ∧
    (flush_delayed_send s e).2.engine_log
      = s.engine_log ++ (pre ++ [ei]).map (fun w => (w.data_ptr, w.plain_data_len, w.flags)) ∧
    (flush_delayed_send s e).2.flushing_write_pend = false := by
  have hl := flush_loop_fails pre { s with flushing_write_pend := true } e.flush_nwritten ei post
    ha hne
  unfold flush_delayed_send
  rw [hf]
  simp only [Bool.false_eq_true, if_false]
  rw [← hq] at hl
  rw [hl]
  refine ⟨?_, ?_, ?_, rfl, rfl, rfl⟩
  · by_cases h0 : e.flush_nwritten pre.length ≤ 0 <;> simp [ssl_write, hne, h0]
  · by_cases h0 : e.flush_nwritten pre.length ≤ 0 <;> simp [h0, PJ_EBUSY, PJ_ENOMEM, PJ_SUCCESS]
  · cases pre <;> simp [hq]

/-- C9, at a concrete input: with three queued writes of 10, 20 and 10 bytes and an
engine that takes 10 bytes per write, the flush stops at the second entry and
leaves the second and third queued. -/
theorem flush_delayed_send_failure_witness :
    (flush_delayed_send
        { sock0 with write_pending := [{ write_data_t.zero 9000 with plain_data_len := 10 },
                                       { write_data_t.zero 9100 with plain_data_len := 20 },
                                       { write_data_t.zero 9200 with plain_data_len := 10 }] }
        env_ok).2.write_pending
      = [{ write_data_t.zero 9100 with plain_data_len := 20 },
         { write_data_t.zero 9200 with plain_data_len := 10 }] :=
  (flush_delayed_send_failure
    { sock0 with write_pending := [{ write_data_t.zero 9000 with plain_data_len := 10 },
                                   { write_data_t.zero 9100 with plain_data_len := 20 },
                                   { write_data_t.zero 9200 with plain_data_len := 10 }] }
    [{ write_data_t.zero 9000 with plain_data_len := 10 }]
    { write_data_t.zero 9100 with plain_data_len := 20 }
    [{ write_data_t.zero 9200 with plain_data_len := 10 }] env_ok rfl rfl
    (by
      intro i n h
      rcases i with _ | i
      · simp at h; subst h; rfl
      · simp at h)
    (by decide)).2.2.1

/-- A flush loop that returns `PJ_SUCCESS` has emptied the list it ran over. -/
theorem flush_loop_success_empties (pend : List write_data_t) :
    ∀ (s : pj_ssl_sock_t) (rs : Nat → Int), (flush_loop s pend rs).1 = PJ_SUCCESS →
      (flush_loop s pend rs).2.write_pending = if pend = [] then s.write_pending else [] := by
  induction pend with
  | nil => intro s rs _; simp [flush_loop]
  | cons wp rest ih =>
    intro s rs
    simp only [flush_loop]
    split
    · intro h; simp_all
    · intro h
      rw [ih _ _ h]
      cases rest <;> simp

/-- A flush with the flag clear and nothing queued returns `PJ_SUCCESS` and changes
nothing. -/
theorem flush_delayed_send_idle (s : pj_ssl_sock_t) (e : env)
    (hf : s.flushing_write_pend = false) (hq : s.write_pending = []) :
    flush_delayed_send s e = (PJ_SUCCESS, s) := by
  unfold flush_delayed_send
  rw [hf, hq]
  simp only [Bool.false_eq_true, if_false, flush_loop]
  cases s
  simp_all

/-- C10, as stated, fails: two consecutive flushes need not have the effect of one.
With one queued write, a first flush in which the engine would block returns
`PJ_EBUSY` and leaves the write queued; a second flush in which the engine
accepts returns `PJ_SUCCESS` and empties the queue. -/
theorem two_flushes_differ_from_one :
    (flush_delayed_send (delay_sends sock0 [(⟨1, 100, 10, 0⟩, env_ok)]) env_again).1 = PJ_EBUSY ∧
    (flush_delayed_send (delay_sends sock0 [(⟨1, 100, 10, 0⟩, env_ok)]) env_again).2.write_pending
      = [{ write_data_t.zero 9000 with app_key := 1, plain_data_len := 10, data_ptr := 100 }] ∧
    (flush_delayed_send
      (flush_delayed_send (delay_sends sock0 [(⟨1, 100, 10, 0⟩, env_ok)]) env_again).2
      env_ok).2.write_pending = [] ∧
    (flush_delayed_send
      (flush_delayed_send (delay_sends sock0 [(⟨1, 100, 10, 0⟩, env_ok)]) env_again).2 env_ok).2
      ≠ (flush_delayed_send (delay_sends sock0 [(⟨1, 100, 10, 0⟩, env_ok)]) env_again).2 := by
  refine ⟨by decide, by decide, by decide, ?_⟩
  intro h
  have h2 := congrArg pj_ssl_sock_t.write_pending h
  revert h2
  decide

/-- C10, amended: a flush entered while `flushing_write_pend` is set returns
`PJ_EBUSY` and changes nothing; a flush entered with the flag clear returns
with the flag clear, whether it succeeds or fails; on an empty queue it returns
`PJ_SUCCESS` and leaves the socket unchanged; and after a flush that returned
`PJ_SUCCESS` a second flush returns `PJ_SUCCESS` and changes nothing. -/
theorem flush_delayed_send_reentrant (s : pj_ssl_sock_t) (e : env) :
    (s.flushing_write_pend = true → flush_delayed_send s e = (PJ_EBUSY, s)) ∧
    (s.flushing_write_pend = false → (flush_delayed_send s e).2.flushing_write_pend = false) ∧
    (s.flushing_write_pend = false → s.write_pending = [] →
      flush_delayed_send s e = (PJ_SUCCESS, s)) ∧
    (s.flushing_write_pend = false → (flush_delayed_send s e).1 = PJ_SUCCESS →
      ∀ e2 : env,
        flush_delayed_send (flush_delayed_send s e).2 e2
          = (PJ_SUCCESS, (flush_delayed_send s e).2)) := by
  refine ⟨?_, ?_, flush_delayed_send_idle s e, ?_⟩
  · intro h
    simp [flush_delayed_send, h]
  · intro h
    simp only [flush_delayed_send, h, Bool.false_eq_true, if_false]
    exact flush_loop_flag _ _ _
  · intro h hs e2
    apply flush_delayed_send_idle
    · simp only [flush_delayed_send, h, Bool.false_eq_true, if_false]
      exact flush_loop_flag _ _ _
    · simp only [flush_delayed_send, h, Bool.false_eq_true, if_false] at hs ⊢
      rw [flush_loop_success_empties _ _ _ hs]
      split
      · assumption
      · rfl

/-- C10 amended, at concrete inputs: a flush of a fresh socket marked as flushing
returns `PJ_EBUSY` unchanged, and a flush after a successful flush of one
queued write changes nothing. -/
theorem flush_delayed_send_reentrant_witness :
    flush_delayed_send { sock0 with flushing_write_pend := true } env_ok
      = (PJ_EBUSY, { sock0 with flushing_write_pend := true }) ∧
    flush_delayed_send
        (flush_delayed_send (delay_sends sock0 [(⟨1, 100, 10, 0⟩, env_ok)]) env_ok).2 env_again
      = (PJ_SUCCESS,
          (flush_delayed_send (delay_sends sock0 [(⟨1, 100, 10, 0⟩, env_ok)]) env_ok).2) :=
  ⟨(flush_delayed_send_reentrant { sock0 with flushing_write_pend := true } env_ok).1 rfl,
   (flush_delayed_send_reentrant (delay_sends sock0 [(⟨1, 100, 10, 0⟩, env_ok)]) env_ok).2.2.2
     rfl (by decide) env_again⟩

/-! ### Send ring buffer -/

/-- The list after `free_send_data` is the list with the node unlinked. -/
theorem free_send_data_pending (s : pj_ssl_sock_t) (p : Nat) :
    (free_send_data s p).send_pending = pj_list_erase s.send_pending p := rfl

/-- Releasing a record never moves the buffer nor changes its capacity. -/
theorem free_send_data_buf (s : pj_ssl_sock_t) (p : Nat) :
    (free_send_data s p).send_buf.buf = s.send_buf.buf ∧
    (free_send_data s p).send_buf.max_len = s.send_buf.max_len := by
  unfold free_send_data
  simp only
  split
  · exact ⟨rfl, rfl⟩
  · split
    · split
      · split <;> exact ⟨rfl, rfl⟩
      · exact ⟨rfl, rfl⟩
    · split
      · split
        · split <;> exact ⟨rfl, rfl⟩
        · exact ⟨rfl, rfl⟩
      · exact ⟨rfl, rfl⟩

/-- Releasing the only record resets the ring. -/
theorem free_send_data_only (s : pj_ssl_sock_t) (w : write_data_t)
    (h : s.send_pending = [w]) :
    (free_send_data s w.self).send_buf.start = s.send_buf.buf ∧
    (free_send_data s w.self).send_buf.len = 0 ∧
    (free_send_data s w.self).send_pending = [] := by
  simp [free_send_data, h, pj_list_erase]

/-- Unlinking a node removes its address from the list of addresses. -/
theorem pj_list_erase_map_self (l : List write_data_t) (p : Nat) :
    (pj_list_erase l p).map (·.self) = (l.map (·.self)).erase p := by
  induction l with
  | nil => rfl
  | cons w ws ih =>
    by_cases h : w.self = p
    · simp [pj_list_erase, h]
    · simp [pj_list_erase, h, ih, List.erase_cons]

/-- Releasing every live record once, in any order, empties the list and resets
the ring. -/
theorem free_all_resets (fs : List Nat) :
    ∀ s : pj_ssl_sock_t, fs.Perm (s.send_pending.map (·.self)) →
      (fs.foldl free_send_data s).send_pending = [] ∧
      (fs.foldl free_send_data s).send_buf.buf = s.send_buf.buf ∧
      (fs ≠ [] → (fs.foldl free_send_data s).send_buf.len = 0 ∧
        (fs.foldl free_send_data s).send_buf.start = s.send_buf.buf) := by
  induction fs with
  | nil =>
    intro s h
    have : s.send_pending.map (·.self) = [] := List.Perm.eq_nil (List.Perm.symm h)
    simp_all
  | cons p fs ih =>
    intro s h
    have hmem : p ∈ s.send_pending.map (·.self) := h.subset (List.mem_cons_self _ _)
    have h1 : fs.Perm ((free_send_data s p).send_pending.map (·.self)) := by
      rw [free_send_data_pending, pj_list_erase_map_self]
      exact List.Perm.cons_inv (h.trans (List.perm_cons_erase hmem))
    obtain ⟨e1, e2, e3⟩ := ih (free_send_data s p) h1
    simp only [List.foldl_cons]
    refine ⟨e1, by rw [e2, (free_send_data_buf s p).1], fun _ => ?_⟩
    by_cases hfs : fs = []
    · subst hfs
      have hl : s.send_pending.map (·.self) = [p] := List.perm_singleton.mp (List.Perm.symm h)
      obtain ⟨w, hw, hp⟩ : ∃ w, s.send_pending = [w] ∧ w.self = p := by
        match hs : s.send_pending, hl with
        | [w], hl => exact ⟨w, rfl, by simpa [hs] using hl⟩
      subst hp
      obtain ⟨a, b, _⟩ := free_send_data_only s w hw
      exact ⟨b, a⟩
    · obtain ⟨a, b⟩ := e3 hfs
      exact ⟨a, by rw [b, (free_send_data_buf s p).1]⟩

/-- A successful allocation appends one zeroed record at the returned address and
keeps the buffer where it is. -/
theorem alloc_send_data_pending (s : pj_ssl_sock_t) (n p : Nat) (s1 : pj_ssl_sock_t)
    (h : alloc_send_data s n = (some p, s1)) :
    s1.send_pending = s.send_pending ++ [write_data_t.zero p] ∧
    s1.send_buf.buf = s.send_buf.buf ∧ s1.send_buf.max_len = s.send_buf.max_len := by
  unfold alloc_send_data at h
  simp only at h
  split_ifs at h <;>
    first
    | (simp at h; done)
    | (simp only [Prod.mk.injEq, Option.some.injEq] at h
       obtain ⟨hp, hs⟩ := h
       subst hp; subst hs
       simp [init_send_data])

/-- The records a sequence of successful allocations leaves pending. -/
theorem alloc_seq_pending (ns : List Nat) :
    ∀ (s : pj_ssl_sock_t) (ps : List Nat) (s1 : pj_ssl_sock_t),
      alloc_seq s ns = some (ps, s1) →
      s1.send_pending.map (·.self) = s.send_pending.map (·.self) ++ ps ∧
      s1.send_buf.buf = s.send_buf.buf ∧ (ps = [] → s1 = s) := by
  induction ns with
  | nil =>
    intro s ps s1 h
    simp only [alloc_seq, Option.some.injEq, Prod.mk.injEq] at h
    obtain ⟨h1, h2⟩ := h
    subst h1; subst h2
    simp
  | cons n ns ih =>
    intro s ps s1 h
    simp only [alloc_seq] at h
    split at h
    · rename_i p s2 ha
      simp only [Option.map_eq_some', Prod.exists, Prod.mk.injEq] at h
      obtain ⟨ps2, s3, hseq, hps, hs⟩ := h
      subst hps; subst hs
      obtain ⟨i1, i2, _⟩ := ih s2 ps2 s3 hseq
      obtain ⟨a1, a2, _⟩ := alloc_send_data_pending s n p s2 ha
      refine ⟨?_, by rw [i2, a2], by simp⟩
      rw [i1, a1]
      simp [write_data_t.zero]
    · simp at h

/-- C5: after a sequence of successful `alloc_send_data` calls on an empty ring,
`free_send_data` applied once to each allocated record, in any order, leaves
`send_buf.len == 0`, `send_buf.start == send_buf.buf` and an empty
send-pending list. -/
theorem alloc_then_free_all_resets (s0 : pj_ssl_sock_t) (ns ps frees : List Nat)
    (s1 : pj_ssl_sock_t) (h0 : ring_empty s0) (ha : alloc_seq s0 ns = some (ps, s1))
    (hf : frees.Perm ps) :
    (frees.foldl free_send_data s1).send_buf.len = 0 ∧
    (frees.foldl free_send_data s1).send_buf.start
      = (frees.foldl free_send_data s1).send_buf.buf ∧
    (frees.foldl free_send_data s1).send_pending = [] := by
  obtain ⟨hstart, hlen, hpend⟩ := h0
  obtain ⟨a1, a2, a3⟩ := alloc_seq_pending ns s0 ps s1 ha
  have hperm : frees.Perm (s1.send_pending.map (·.self)) := by
    rw [a1, hpend]; simpa using hf
  obtain ⟨e1, e2, e3⟩ := free_all_resets frees s1 hperm
  by_cases hfr : frees = []
  · subst hfr
    have hps : ps = [] := List.Perm.eq_nil (List.Perm.symm hf)
    rw [a3 hps]
    exact ⟨hlen, hstart, hpend⟩
  · obtain ⟨b1, b2⟩ := e3 hfr
    exact ⟨b1, by rw [b2, e2], e1⟩

/-- C5, at a concrete input: three records of 400, 200 and 300 bytes allocated in
the empty ring of 8192 bytes at 4096 and freed in the order second, third,
first. -/
theorem alloc_then_free_all_resets_witness :
    ([4496, 4696, 4096].foldl free_send_data
        ((alloc_send_data ((alloc_send_data ((alloc_send_data sock_ring 400).2) 200).2) 300).2)).send_buf.len
      = 0 ∧
    ([4496, 4696, 4096].foldl free_send_data
        ((alloc_send_data ((alloc_send_data ((alloc_send_data sock_ring 400).2) 200).2) 300).2)).send_buf.start
      = ([4496, 4696, 4096].foldl free_send_data
        ((alloc_send_data ((alloc_send_data ((alloc_send_data sock_ring 400).2) 200).2) 300).2)).send_buf.buf ∧
    ([4496, 4696, 4096].foldl free_send_data
        ((alloc_send_data ((alloc_send_data ((alloc_send_data sock_ring 400).2) 200).2) 300).2)).send_pending
      = [] :=
  alloc_then_free_all_resets sock_ring [400, 200, 300] [4096, 4496, 4696]
    [4496, 4696, 4096]
    ((alloc_send_data ((alloc_send_data ((alloc_send_data sock_ring 400).2) 200).2) 300).2)
    ⟨rfl, rfl, rfl⟩ (by decide) (by decide)

/-- What `alloc_send_data` decides, as arithmetic on a well-formed ring. -/
theorem alloc_send_data_isSome (s : pj_ssl_sock_t) (n : Nat) (hwf : ring_wf s.send_buf) :
    (alloc_send_data s n).1.isSome ↔
      (n + s.send_buf.len ≤ s.send_buf.max_len ∧
        (s.send_buf.len = 0 ∨
          (s.send_buf.start + s.send_buf.len ≥ s.send_buf.buf + s.send_buf.max_len) ∨
          s.send_buf.start + s.send_buf.len + n ≤ s.send_buf.buf + s.send_buf.max_len ∨
          s.send_buf.buf + n ≤ s.send_buf.start)) := by
  obtain ⟨w1, w2, w3, w4⟩ := hwf
  unfold alloc_send_data
  simp only [size_sub, size_add, SIZE_T_MOD, Nat.max_def, decide_eq_true_eq] at *
  split_ifs <;> simp only [Option.isSome_none, Option.isSome_some, Bool.false_eq_true,
    false_iff, true_iff] <;> omega

/-- The specification's condition, as arithmetic on a well-formed ring. -/
theorem spec_alloc_ok_iff (b : send_buf_t) (n : Nat) (hwf : ring_wf b) :
    spec_alloc_ok b n ↔
      (n + b.len ≤ b.max_len ∧
        (b.len = 0 ∨ (b.start + b.len ≥ b.buf + b.max_len) ∨
          b.start + b.len + n ≤ b.buf + b.max_len ∨ b.buf + n ≤ b.start)) := by
  obtain ⟨w1, w2, w3, w4⟩ := hwf
  unfold spec_alloc_ok region_free live_end
  constructor
  · rintro (⟨h1, h2⟩ | ⟨h1, h2, h3⟩ | ⟨⟨h1, h2, h3⟩, h4⟩)
    · omega
    · by_cases hn : n + b.len ≤ b.max_len
      · refine ⟨hn, ?_⟩
        split_ifs at h1 h2 h3 <;> omega
      · exfalso
        split_ifs at h1 h2 h3 with hw
        · have := h3 (b.max_len - b.len) (by omega)
          apply this
          unfold ring_live ring_off
          split_ifs <;> omega
        · omega
    · by_cases hn : n + b.len ≤ b.max_len
      · refine ⟨hn, ?_⟩
        omega
      · exfalso
        have := h3 0 (by omega)
        apply this
        unfold ring_live ring_off
        split_ifs <;> omega
  · rintro ⟨h1, h2⟩
    by_cases hl : b.len = 0
    · left; omega
    · right
      by_cases hw : b.start + b.len ≥ b.buf + b.max_len
      · left
        rw [if_pos hw]
        refine ⟨by omega, by omega, ?_⟩
        intro i hi
        unfold ring_live ring_off
        split_ifs <;> omega
      · rw [if_neg hw]
        rcases h2 with h2 | h2 | h2 | h2
        · omega
        · omega
        · left
          refine ⟨by omega, by omega, ?_⟩
          intro i hi
          unfold ring_live ring_off
          split_ifs <;> omega
        · right
          refine ⟨⟨by omega, by omega, ?_⟩, h2⟩
          intro i hi
          unfold ring_live ring_off
          split_ifs <;> omega

/-- A failing `alloc_send_data` returns the socket it was given. -/
theorem alloc_send_data_none (s : pj_ssl_sock_t) (n : Nat)
    (h : (alloc_send_data s n).1 = none) : (alloc_send_data s n).2 = s := by
  unfold alloc_send_data at h ⊢
  simp only at h ⊢
  split_ifs at h ⊢ <;> rfl

/-- C4: on a well-formed ring, `alloc_send_data(n)` succeeds if and only if the ring
is empty and `n <= max_len`, or `n` bytes are free in one contiguous region
outside the recorded live range: after the live range, or at the buffer start
before `start`.  When it fails it returns NULL and leaves the socket (so
`start`, `len` and the send-pending list) unchanged. -/
theorem alloc_send_data_iff_room (s : pj_ssl_sock_t) (n : Nat) (hwf : ring_wf s.send_buf) :
    ((alloc_send_data s n).1.isSome ↔ spec_alloc_ok s.send_buf n) ∧
    ((alloc_send_data s n).1 = none → (alloc_send_data s n).2 = s) :=
  ⟨(alloc_send_data_isSome s n hwf).trans (spec_alloc_ok_iff s.send_buf n hwf).symm,
   alloc_send_data_none s n⟩

/-- C4, at a concrete input: with 600 bytes live at the start of the ring of 8192
bytes, a request of 300 bytes is granted exactly when the specification's
condition holds. -/
theorem alloc_send_data_iff_room_witness :
    ((alloc_send_data (ring_run sock_ring [.alloc 400, .alloc 200]) 300).1.isSome ↔
      spec_alloc_ok (ring_run sock_ring [.alloc 400, .alloc 200]).send_buf 300) ∧
    ((alloc_send_data (ring_run sock_ring [.alloc 400, .alloc 200]) 300).1 = none →
      (alloc_send_data (ring_run sock_ring [.alloc 400, .alloc 200]) 300).2
        = ring_run sock_ring [.alloc 400, .alloc 200]) :=
  alloc_send_data_iff_room (ring_run sock_ring [.alloc 400, .alloc 200]) 300
    ⟨by decide, by decide, by decide, Or.inl (by decide)⟩

/-- C6, the code at a failing input: with a record of 400 bytes at 4096 followed by
one of 200 bytes at 4496 (`len` is 600), releasing the head moves `start` to
4496 and leaves `len` at 600: the bytes between the old and the new start are
not taken off the length. -/
theorem free_send_data_head_keeps_len :
    (ring_run sock_ring [.alloc 400, .alloc 200]).send_buf
      = { buf := 4096, max_len := 8192, start := 4096, len := 600 } ∧
    (ring_run sock_ring [.alloc 400, .alloc 200]).send_pending.map
        (fun w => (w.self, w.record_len)) = [(4096, 400), (4496, 200)] ∧
    (free_send_data (ring_run sock_ring [.alloc 400, .alloc 200]) 4096).send_buf
      = { buf := 4096, max_len := 8192, start := 4496, len := 600 } := by
  decide

/-- Subtraction of sizes that does not wrap. -/
theorem size_sub_eq (a b : Nat) (h : b ≤ a) (ha : a < SIZE_T_MOD) : size_sub a b = a - b := by
  unfold size_sub SIZE_T_MOD at *
  omega

/-- Addition of sizes that does not wrap. -/
theorem size_add_eq (a b : Nat) (h : a + b < SIZE_T_MOD) : size_add a b = a + b := by
  unfold size_add SIZE_T_MOD at *
  omega

/-- Unlinking the last node of a list whose other nodes have different addresses. -/
theorem pj_list_erase_last (l : List write_data_t) (x : write_data_t)
    (h : ∀ w ∈ l, w.self ≠ x.self) : pj_list_erase (l ++ [x]) x.self = l := by
  induction l with
  | nil => simp [pj_list_erase]
  | cons w ws ih =>
    have hw : w.self ≠ x.self := h w (List.mem_cons_self _ _)
    have ih2 := ih (fun v hv => h v (List.mem_cons_of_mem _ hv))
    simp only [List.cons_append, pj_list_erase, hw, if_false]
    exact congrArg (List.cons w) ih2

/-- The tail branch of `free_send_data`: the record released is the last of at
least two, and the other records have different addresses. -/
theorem free_send_data_last (s : pj_ssl_sock_t) (init : List write_data_t)
    (prev last : write_data_t) (hq : s.send_pending = init ++ [prev, last])
    (hd : ∀ w ∈ init ++ [prev], w.self ≠ last.self) :
    free_send_data s last.self =
      { s with
        send_buf :=
          if prev.self < last.self then
            { s.send_buf with
              len := size_sub s.send_buf.len
                (size_add last.record_len
                  (size_sub last.self (prev.self + prev.record_len))) }
          else
            { s.send_buf with
              len := size_sub s.send_buf.len
                (size_add
                  (size_sub (s.send_buf.buf + s.send_buf.max_len)
                    (prev.self + prev.record_len))
                  (size_sub (last.self + last.record_len) s.send_buf.buf)) }
        send_pending := init ++ [prev] } := by
  have hfirst : ((s.send_pending.head?.map (·.self)) == some last.self) = false := by
    rw [hq]
    cases init with
    | nil => simpa using hd prev (by simp)
    | cons w ws => simpa using hd w (by simp)
  have hlastq : ((s.send_pending.getLast?.map (·.self)) == some last.self) = true := by
    rw [hq]; simp
  have hrev : s.send_pending.reverse = last :: prev :: init.reverse := by
    rw [hq]; simp
  have herase : pj_list_erase s.send_pending last.self = init ++ [prev] := by
    rw [hq]
    have : init ++ [prev, last] = (init ++ [prev]) ++ [last] := by simp
    rw [this]
    exact pj_list_erase_last _ _ hd
  unfold free_send_data
  simp only [hfirst, hlastq, hrev, herase, Bool.false_and, Bool.false_eq_true, if_false, if_true]
/-- Two addresses of the buffer in ring order, the second at a higher address: the
ring does not wrap between them. -/
theorem ring_off_up (b : send_buf_t) (ps prl ls : Nat)
    (hs : b.buf ≤ b.start ∧ b.start < b.buf + b.max_len)
    (hp : b.buf ≤ ps ∧ ps + prl ≤ b.buf + b.max_len)
    (hl : b.buf ≤ ls ∧ ls < b.buf + b.max_len) (hlt : ps < ls)
    (hord : ring_off b ps + prl ≤ ring_off b ls) :
    ps + prl ≤ ls ∧ ring_off b ls = ring_off b ps + (ls - ps) := by
  unfold ring_off at hord ⊢
  by_cases c1 : b.start ≤ ps <;> by_cases c2 : b.start ≤ ls <;>
    simp only [c1, c2, if_true, if_false] at hord ⊢ <;> omega

/-- Two addresses of the buffer in ring order, the second at a lower address: the
ring wraps between them. -/
theorem ring_off_down (b : send_buf_t) (ps prl ls : Nat)
    (hs : b.buf ≤ b.start ∧ b.start < b.buf + b.max_len)
    (hp : b.buf ≤ ps ∧ ps + prl ≤ b.buf + b.max_len)
    (hl : b.buf ≤ ls ∧ ls < b.buf + b.max_len) (hlt : ls < ps)
    (hord : ring_off b ps + prl ≤ ring_off b ls) :
    ring_off b ls + ps = ring_off b ps + (ls + b.max_len) := by
  unfold ring_off at hord ⊢
  by_cases c1 : b.start ≤ ps <;> by_cases c2 : b.start ≤ ls <;>
    simp only [c1, c2, if_true, if_false] at hord ⊢ <;> omega

/-- The span to an address of the buffer is less than the capacity. -/
theorem ring_off_lt (b : send_buf_t) (a : Nat)
    (hs : b.buf ≤ b.start ∧ b.start < b.buf + b.max_len)
    (ha : b.buf ≤ a ∧ a < b.buf + b.max_len) : ring_off b a < b.max_len := by
  unfold ring_off
  by_cases c1 : b.start ≤ a <;> simp only [c1, if_true, if_false] <;> omega

/-- The length the tail branch of `free_send_data` leaves, in both of its cases:
the old length less the span from the end of the preceding record to the end
of the released one. -/
theorem ring_tail_len (b : send_buf_t) (ps prl ls lrl : Nat)
    (h1 : b.buf + b.max_len < SIZE_T_MOD) (h2 : b.len ≤ b.max_len)
    (hs : b.buf ≤ b.start ∧ b.start < b.buf + b.max_len)
    (hp : b.buf ≤ ps ∧ ps + prl ≤ b.buf + b.max_len)
    (hl : b.buf ≤ ls ∧ ls + lrl ≤ b.buf + b.max_len) (hll : ls < b.buf + b.max_len)
    (hne : ps ≠ ls)
    (hord : ring_off b ps + prl ≤ ring_off b ls) (hcap : ring_off b ls + lrl ≤ b.len) :
    (if ps < ls then
        size_sub b.len (size_add lrl (size_sub ls (ps + prl)))
      else
        size_sub b.len
          (size_add (size_sub (b.buf + b.max_len) (ps + prl)) (size_sub (ls + lrl) b.buf)))
      + (ring_off b ls + lrl) = b.len + (ring_off b ps + prl) := by
  have hM : SIZE_T_MOD = 18446744073709551616 := rfl
  by_cases c3 : ps < ls
  · obtain ⟨u1, u2⟩ := ring_off_up b ps prl ls hs hp ⟨hl.1, hll⟩ c3 hord
    rw [if_pos c3, size_sub_eq ls (ps + prl) u1 (by omega),
      size_add_eq lrl _ (by omega), size_sub_eq b.len _ (by omega) (by omega)]
    omega
  · have c4 : ls < ps := by omega
    have d1 := ring_off_down b ps prl ls hs hp ⟨hl.1, hll⟩ c4 hord
    rw [if_neg c3, size_sub_eq (b.buf + b.max_len) (ps + prl) hp.2 h1,
      size_sub_eq (ls + lrl) b.buf (by omega) (by omega),
      size_add_eq _ _ (by omega), size_sub_eq b.len _ (by omega) (by omega)]
    omega
/-- C7: `free_send_data` applied to the last record of `send_pending` while other
records remain, in a ring whose `len` is the span from `start` to the end of
that record: `start` is unchanged, the record leaves the list, `len`
decreases by the record's `record_len` plus the gap to the end of the
preceding record (in the wrapped case the bytes from the end of the preceding
record to the buffer end plus the bytes from the buffer start to this
record), and afterwards the live range ends at the end of the preceding
record. -/
theorem free_send_data_tail (s : pj_ssl_sock_t) (init : List write_data_t)
    (prev last : write_data_t)
    (hq : s.send_pending = init ++ [prev, last])
    (hd : ∀ w ∈ init ++ [prev], w.self ≠ last.self)
    (hwf : ring_wf s.send_buf)
    (hprev : s.send_buf.buf ≤ prev.self ∧
      prev.self + prev.record_len ≤ s.send_buf.buf + s.send_buf.max_len)
    (hlast : s.send_buf.buf ≤ last.self ∧ last.self < s.send_buf.buf + s.send_buf.max_len ∧
      last.self + last.record_len ≤ s.send_buf.buf + s.send_buf.max_len)
    (hord : ring_off s.send_buf prev.self + prev.record_len ≤ ring_off s.send_buf last.self)
    (hlen : s.send_buf.len = ring_off s.send_buf last.self + last.record_len) :
    (free_send_data s last.self).send_buf.start = s.send_buf.start ∧
    (free_send_data s last.self).send_pending = init ++ [prev] ∧
    (free_send_data s last.self).send_buf.len
        + (last.record_len +
            (if prev.self < last.self then last.self - (prev.self + prev.record_len)
             else (s.send_buf.buf + s.send_buf.max_len - (prev.self + prev.record_len))
                    + (last.self - s.send_buf.buf)))
      = s.send_buf.len ∧
    (free_send_data s last.self).send_buf.len
      = ring_off s.send_buf prev.self + prev.record_len := by
  obtain ⟨w1, w2, w3, w4⟩ := hwf
  obtain ⟨l1, l2, l3⟩ := hlast
  have hs : s.send_buf.buf ≤ s.send_buf.start ∧
      s.send_buf.start < s.send_buf.buf + s.send_buf.max_len := by omega
  have hne : prev.self ≠ last.self := hd prev (by simp)
  have key := ring_tail_len s.send_buf prev.self prev.record_len last.self last.record_len
    w1 w2 hs hprev ⟨l1, l3⟩ l2 hne hord (by omega)
  rw [free_send_data_last s init prev last hq hd]
  by_cases c3 : prev.self < last.self
  · obtain ⟨u1, u2⟩ := ring_off_up s.send_buf prev.self prev.record_len last.self hs hprev
      ⟨l1, l2⟩ c3 hord
    simp only [if_pos c3] at key ⊢
    refine ⟨trivial, trivial, ?_, ?_⟩ <;> omega
  · have c4 : last.self < prev.self := by omega
    have d1 := ring_off_down s.send_buf prev.self prev.record_len last.self hs hprev
      ⟨l1, l2⟩ c4 hord
    simp only [if_neg c3] at key ⊢
    refine ⟨trivial, trivial, ?_, ?_⟩ <;> omega

/-- C7, at a concrete input: with records of 400 bytes at 4096 and 200 bytes at
4496, releasing the second leaves `start` at 4096, the first record pending
and `len` at 400. -/
theorem free_send_data_tail_witness :
    (free_send_data (ring_run sock_ring [.alloc 400, .alloc 200]) 4496).send_buf.start = 4096 ∧
    (free_send_data (ring_run sock_ring [.alloc 400, .alloc 200]) 4496).send_pending
      = [{ write_data_t.zero 4096 with record_len := 400 }] ∧
    (free_send_data (ring_run sock_ring [.alloc 400, .alloc 200]) 4496).send_buf.len
        + (200 + 0) = 600 ∧
    (free_send_data (ring_run sock_ring [.alloc 400, .alloc 200]) 4496).send_buf.len = 400 :=
  free_send_data_tail (ring_run sock_ring [.alloc 400, .alloc 200]) []
    { write_data_t.zero 4096 with record_len := 400 }
    { write_data_t.zero 4496 with record_len := 200 }
    (by decide) (by decide)
    ⟨by decide, by decide, by decide, Or.inl (by decide)⟩
    ⟨by decide, by decide⟩ ⟨by decide, by decide, by decide⟩ (by decide) (by decide)

/-- The span to an address does not depend on the recorded length. -/
theorem ring_off_len (b : send_buf_t) (x a : Nat) :
    ring_off { b with len := x } a = ring_off b a := rfl

/-- The function `alloc_send_data` on a ring whose length is within the capacity and
whose `start` lies in the buffer, with the size arithmetic carried out. -/
theorem alloc_send_data_eq (s : pj_ssl_sock_t) (n : Nat)
    (h1 : s.send_buf.buf + s.send_buf.max_len < SIZE_T_MOD)
    (h2 : s.send_buf.len ≤ s.send_buf.max_len)
    (h3 : s.send_buf.len ≠ 0 →
      s.send_buf.buf ≤ s.send_buf.start ∧ s.send_buf.start < s.send_buf.buf + s.send_buf.max_len) :
    alloc_send_data s n =
      if s.send_buf.max_len - s.send_buf.len < n then (none, s)
      else if s.send_buf.len = 0 then
        (some s.send_buf.buf,
          init_send_data
            { s with send_buf := { s.send_buf with start := s.send_buf.buf, len := n } }
            s.send_buf.buf)
      else if s.send_buf.buf + s.send_buf.max_len ≤ s.send_buf.start + s.send_buf.len then
        (some (s.send_buf.start + s.send_buf.len - s.send_buf.max_len),
          init_send_data
            { s with send_buf := { s.send_buf with len := s.send_buf.len + n } }
            (s.send_buf.start + s.send_buf.len - s.send_buf.max_len))
      else if n ≤ s.send_buf.buf + s.send_buf.max_len - (s.send_buf.start + s.send_buf.len) then
        (some (s.send_buf.start + s.send_buf.len),
          init_send_data
            { s with send_buf := { s.send_buf with len := s.send_buf.len + n } }
            (s.send_buf.start + s.send_buf.len))
      else if n ≤ s.send_buf.start - s.send_buf.buf then
        (some s.send_buf.buf,
          init_send_data
            { s with
              send_buf :=
                { s.send_buf with
                  len := s.send_buf.len +
                    (n + (s.send_buf.buf + s.send_buf.max_len
                      - (s.send_buf.start + s.send_buf.len))) } }
            s.send_buf.buf)
      else (none, s) := by
  have hM : SIZE_T_MOD = 18446744073709551616 := rfl
  have e0 : size_sub s.send_buf.max_len s.send_buf.len = s.send_buf.max_len - s.send_buf.len :=
    size_sub_eq _ _ h2 (by omega)
  unfold alloc_send_data
  simp only [e0]
  by_cases c0 : s.send_buf.max_len - s.send_buf.len < n
  · simp only [c0, if_true]
  · simp only [c0, if_false]
    by_cases c1 : s.send_buf.len = 0
    · simp only [c1, if_true]
    · simp only [c1, if_false]
      obtain ⟨b1, b2⟩ := h3 c1
      by_cases c2 : s.send_buf.buf + s.send_buf.max_len ≤ s.send_buf.start + s.send_buf.len
      · have d1 : ¬ (s.send_buf.start + s.send_buf.len - s.send_buf.max_len
            + (s.send_buf.max_len - s.send_buf.len) > s.send_buf.buf + s.send_buf.max_len) := by
          omega
        have d2 : ¬ (max (s.send_buf.max_len - s.send_buf.len) 0 < n) := by
          simp only [Nat.max_def]; split_ifs <;> omega
        have d3 : s.send_buf.max_len - s.send_buf.len ≥ n := by omega
        have d4 : size_add s.send_buf.len (size_add n 0) = s.send_buf.len + n := by
          rw [size_add_eq n 0 (by omega), size_add_eq _ _ (by omega)]; rfl
        simp only [ge_iff_le, c2, if_true, d1, decide_False, Bool.false_eq_true, if_false, d2, d3,
          d4]
      · have c2' : ¬ (s.send_buf.start + s.send_buf.len ≥ s.send_buf.buf + s.send_buf.max_len) := by
          omega
        simp only [c2, c2', if_false]
        by_cases c3 : s.send_buf.start + s.send_buf.len
            + (s.send_buf.max_len - s.send_buf.len) > s.send_buf.buf + s.send_buf.max_len
        · have r1 : size_sub (s.send_buf.buf + s.send_buf.max_len)
              (s.send_buf.start + s.send_buf.len)
              = s.send_buf.buf + s.send_buf.max_len - (s.send_buf.start + s.send_buf.len) :=
            size_sub_eq _ _ (by omega) (by omega)
          have r2 : size_sub s.send_buf.start s.send_buf.buf
              = s.send_buf.start - s.send_buf.buf := size_sub_eq _ _ b1 (by omega)
          simp only [c3, decide_True, if_true, r1, r2]
          by_cases c4 : n ≤ s.send_buf.buf + s.send_buf.max_len
              - (s.send_buf.start + s.send_buf.len)
          · have d2 : ¬ (max (s.send_buf.buf + s.send_buf.max_len
                - (s.send_buf.start + s.send_buf.len))
                (s.send_buf.start - s.send_buf.buf) < n) := by
              simp only [Nat.max_def]; split_ifs <;> omega
            have d4 : size_add s.send_buf.len (size_add n 0) = s.send_buf.len + n := by
              rw [size_add_eq n 0 (by omega), size_add_eq _ _ (by omega)]; rfl
            simp only [ge_iff_le, c4, if_true, d2, if_false, d4]
          · by_cases c5 : n ≤ s.send_buf.start - s.send_buf.buf
            · have d2 : ¬ (max (s.send_buf.buf + s.send_buf.max_len
                  - (s.send_buf.start + s.send_buf.len))
                  (s.send_buf.start - s.send_buf.buf) < n) := by
                simp only [Nat.max_def]; split_ifs <;> omega
              have d4 : size_add s.send_buf.len
                  (size_add n (s.send_buf.buf + s.send_buf.max_len
                    - (s.send_buf.start + s.send_buf.len)))
                  = s.send_buf.len + (n + (s.send_buf.buf + s.send_buf.max_len
                    - (s.send_buf.start + s.send_buf.len))) := by
                rw [size_add_eq n _ (by omega), size_add_eq _ _ (by omega)]
              simp only [ge_iff_le, c4, c5, if_true, d2, if_false, d4]
            · have d2 : max (s.send_buf.buf + s.send_buf.max_len
                  - (s.send_buf.start + s.send_buf.len))
                  (s.send_buf.start - s.send_buf.buf) < n := by
                simp only [Nat.max_def]; split_ifs <;> omega
              simp only [c4, c5, d2, if_true, if_false]
        · have c4 : n ≤ s.send_buf.buf + s.send_buf.max_len
              - (s.send_buf.start + s.send_buf.len) := by omega
          have d2 : ¬ (max (s.send_buf.max_len - s.send_buf.len) 0 < n) := by
            simp only [Nat.max_def]; split_ifs <;> omega
          have d3 : s.send_buf.max_len - s.send_buf.len ≥ n := by omega
          have d4 : size_add s.send_buf.len (size_add n 0) = s.send_buf.len + n := by
            rw [size_add_eq n 0 (by omega), size_add_eq _ _ (by omega)]; rfl
          simp only [ge_iff_le, c3, decide_False, Bool.false_eq_true, if_false, d2, d3, if_true,
            d4, c4]

/-- The result of a successful `alloc_send_data` on a ring whose `start` lies in
the buffer: the new record is appended, and either the ring was empty and
restarts at the buffer start, or `start` stays and the new slot begins at or
after the end of the recorded live range. -/
theorem alloc_send_data_shape (s : pj_ssl_sock_t) (n p : Nat) (s1 : pj_ssl_sock_t)
    (h : alloc_send_data s n = (some p, s1)) (hn : 0 < n)
    (h1 : s.send_buf.buf + s.send_buf.max_len < SIZE_T_MOD)
    (h2 : s.send_buf.len ≤ s.send_buf.max_len)
    (h3 : s.send_buf.len ≠ 0 →
      s.send_buf.buf ≤ s.send_buf.start ∧ s.send_buf.start < s.send_buf.buf + s.send_buf.max_len) :
    ∃ st len2,
      s1 = init_send_data { s with send_buf := { s.send_buf with start := st, len := len2 } } p ∧
      s.send_buf.buf ≤ p ∧ p + n ≤ s.send_buf.buf + s.send_buf.max_len ∧ len2 ≤ s.send_buf.max_len ∧
      (s.send_buf.len = 0 → st = s.send_buf.buf ∧ p = s.send_buf.buf ∧ len2 = n) ∧
      (s.send_buf.len ≠ 0 → st = s.send_buf.start ∧ s.send_buf.len ≤ ring_off s.send_buf p ∧
        len2 = ring_off s.send_buf p + n) := by
  rw [alloc_send_data_eq s n h1 h2 h3] at h
  split_ifs at h with c0 c1 c2 c3 c4 <;>
    simp only [Prod.mk.injEq, Option.some.injEq, reduceCtorEq, false_and] at h
  · obtain ⟨hp, hs⟩ := h
    subst hp; subst hs
    refine ⟨_, _, rfl, ?_⟩
    omega
  · obtain ⟨b1, b2⟩ := h3 c1
    obtain ⟨hp, hs⟩ := h
    subst hp; subst hs
    refine ⟨_, _, rfl, ?_⟩
    unfold ring_off
    split_ifs <;> omega
  · obtain ⟨b1, b2⟩ := h3 c1
    obtain ⟨hp, hs⟩ := h
    subst hp; subst hs
    refine ⟨_, _, rfl, ?_⟩
    unfold ring_off
    split_ifs <;> omega
  · obtain ⟨b1, b2⟩ := h3 c1
    obtain ⟨hp, hs⟩ := h
    subst hp; subst hs
    refine ⟨_, _, rfl, ?_⟩
    unfold ring_off
    split_ifs <;> omega

/-- Storing the size in the record just allocated at `p`, a fresh address. -/
theorem set_record_len_new (s : pj_ssl_sock_t) (p n : Nat)
    (hfresh : ∀ w ∈ s.send_pending, w.self ≠ p) :
    (set_record_len (init_send_data s p) p n).send_pending
      = s.send_pending ++ [{ write_data_t.zero p with record_len := n }] := by
  have hmap : ∀ l : List write_data_t, (∀ w ∈ l, w.self ≠ p) →
      l.map (fun w => if w.self = p then { w with record_len := n } else w) = l := by
    intro l hl
    induction l with
    | nil => rfl
    | cons w ws ih =>
      have hw : w.self ≠ p := hl w (List.mem_cons_self _ _)
      simp only [List.map_cons, hw, if_false]
      rw [ih (fun v hv => hl v (List.mem_cons_of_mem _ hv))]
  simp only [set_record_len, init_send_data, List.map_append, List.map_cons, List.map_nil]
  rw [hmap _ hfresh]
  simp [write_data_t.zero]

/-- In a ring that satisfies the invariant, a non-zero length means a record is
pending. -/
theorem ring_inv_len_pos (s : pj_ssl_sock_t) (h : ring_inv s) (hl : s.send_buf.len ≠ 0) :
    s.send_pending ≠ [] := by
  intro he
  exact hl (h.2.2.1 he)

/-- In a ring that satisfies the invariant, a zero length means no record is
pending. -/
theorem ring_inv_len_zero (s : pj_ssl_sock_t) (h : ring_inv s) (hl : s.send_buf.len = 0) :
    s.send_pending = [] := by
  obtain ⟨_, _, _, _, h5, _⟩ := h
  cases hq : s.send_pending with
  | nil => rfl
  | cons w ws =>
    have := h5 w (by rw [hq]; exact List.mem_cons_self _ _)
    omega

/-- In a ring that satisfies the invariant with a record pending, `start` lies in
the buffer. -/
theorem ring_inv_start (s : pj_ssl_sock_t) (h : ring_inv s) (hl : s.send_buf.len ≠ 0) :
    s.send_buf.buf ≤ s.send_buf.start ∧
      s.send_buf.start < s.send_buf.buf + s.send_buf.max_len := by
  have hne := ring_inv_len_pos s h hl
  obtain ⟨_, _, _, h4, h5, _⟩ := h
  cases hq : s.send_pending with
  | nil => exact absurd hq hne
  | cons w ws =>
    have e := h4 w (by rw [hq]; rfl)
    have := h5 w (by rw [hq]; exact List.mem_cons_self _ _)
    omega

/-- A successful allocation of at least one byte, whose size the caller stores in
the record, keeps the invariant; the slot lies in the buffer and shares no
byte with a record that is pending. -/
theorem ring_inv_alloc (s : pj_ssl_sock_t) (n p : Nat) (s1 : pj_ssl_sock_t)
    (hinv : ring_inv s) (hn : 0 < n) (h : alloc_send_data s n = (some p, s1)) :
    ring_inv (set_record_len s1 p n) ∧
    s.send_buf.buf ≤ p ∧ p + n ≤ s.send_buf.buf + s.send_buf.max_len ∧
    ∀ w ∈ s.send_pending, p + n ≤ w.self ∨ w.self + w.record_len ≤ p := by
  obtain ⟨st, len2, hs1, hp1, hp2, hcap, hz, hnz⟩ :=
    alloc_send_data_shape s n p s1 h hn hinv.1 hinv.2.1 (ring_inv_start s hinv)
  have hstart := ring_inv_start s hinv
  have hzero := ring_inv_len_zero s hinv
  obtain ⟨i1, i2, i3, i4, i5, i6⟩ := hinv
  have hdis : ∀ w ∈ s.send_pending, p + n ≤ w.self ∨ w.self + w.record_len ≤ p := by
    intro w hw
    have hl : s.send_buf.len ≠ 0 := by
      intro hl
      rw [hzero hl] at hw
      exact absurd hw (List.not_mem_nil _)
    obtain ⟨a1, a2, a3, a4⟩ := i5 w hw
    obtain ⟨b1, b2, b3⟩ := hnz hl
    obtain ⟨c1, c2⟩ := hstart hl
    unfold ring_off at a4 b2 b3
    split_ifs at a4 b2 b3 <;> omega
  have hfresh : ∀ w ∈ s.send_pending, w.self ≠ p := by
    intro w hw
    have := hdis w hw
    have := (i5 w hw).2.2.1
    omega
  refine ⟨?_, hp1, hp2, hdis⟩
  have hbuf : (set_record_len s1 p n).send_buf
      = { s.send_buf with start := st, len := len2 } := by
    rw [hs1]; rfl
  have hpend : (set_record_len s1 p n).send_pending
      = s.send_pending ++ [{ write_data_t.zero p with record_len := n }] := by
    rw [hs1]
    exact set_record_len_new
      { s with send_buf := { s.send_buf with start := st, len := len2 } } p n hfresh
  unfold ring_inv
  rw [hbuf, hpend]
  by_cases hl : s.send_buf.len = 0
  · obtain ⟨z1, z2, z3⟩ := hz hl
    subst z1; subst z3
    rw [hzero hl]
    refine ⟨i1, hcap, by simp, ?_, ?_, by simp⟩
    · intro w hw
      simp only [List.nil_append, List.head?_cons, Option.some.injEq] at hw
      subst hw
      exact z2.symm
    · intro w hw
      simp only [List.nil_append, List.mem_singleton] at hw
      subst hw
      refine ⟨hp1, hp2, hn, ?_⟩
      simp only [ring_off, write_data_t.zero, z2]
      simp
  · obtain ⟨z1, z2, z3⟩ := hnz hl
    subst z1
    have hoff : ∀ a, ring_off { s.send_buf with start := s.send_buf.start, len := len2 } a
        = ring_off s.send_buf a := fun a => rfl
    simp only [hoff]
    refine ⟨i1, hcap, by simp, ?_, ?_, ?_⟩
    · intro w hw
      cases hq : s.send_pending with
      | nil => exact absurd (i3 hq) hl
      | cons v vs =>
        rw [hq] at hw
        simp only [List.cons_append, List.head?_cons, Option.some.injEq] at hw
        subst hw
        exact i4 v (by rw [hq]; rfl)
    · intro w hw
      rw [List.mem_append, List.mem_singleton] at hw
      rcases hw with hw | hw
      · obtain ⟨a1, a2, a3, a4⟩ := i5 w hw
        exact ⟨a1, a2, a3, by omega⟩
      · subst hw
        exact ⟨hp1, hp2, hn, by simp only [write_data_t.zero]; omega⟩
    · rw [List.pairwise_append]
      refine ⟨i6, List.pairwise_singleton _ _, ?_⟩
      intro w hw x hx
      rw [List.mem_singleton] at hx
      subst hx
      obtain ⟨a1, a2, a3, a4⟩ := i5 w hw
      simp only [write_data_t.zero]
      omega

/-- Unlinking a node yields a sublist. -/
theorem pj_list_erase_sublist (l : List write_data_t) (p : Nat) :
    (pj_list_erase l p).Sublist l := by
  induction l with
  | nil => exact List.Sublist.slnil
  | cons w ws ih =>
    by_cases h : w.self = p
    · simp only [pj_list_erase, h, if_true]
      exact List.sublist_cons_self _ _
    · simp only [pj_list_erase, h, if_false]
      exact List.Sublist.cons₂ _ ih

/-- A list of at least two nodes ends in a node before the last and the last. -/
theorem two_nodes_end (w1 w2 : write_data_t) (rest : List write_data_t) :
    ∃ init prev last l, w1 :: w2 :: rest = init ++ [prev, last] ∧ w2 :: rest = l ++ [last] := by
  rcases List.eq_nil_or_concat (w2 :: rest) with h | ⟨l, x, h⟩
  · simp at h
  · rw [List.concat_eq_append] at h
    rcases List.eq_nil_or_concat (w1 :: l) with h2 | ⟨l2, y, h2⟩
    · simp at h2
    · rw [List.concat_eq_append] at h2
      refine ⟨l2, y, x, l, ?_, h⟩
      rw [h, ← List.cons_append, h2]
      simp

/-- The records pending in a ring that satisfies the invariant have distinct
addresses. -/
theorem ring_inv_distinct (s : pj_ssl_sock_t) (h : ring_inv s) :
    s.send_pending.Pairwise (fun a c => a.self ≠ c.self) := by
  obtain ⟨_, _, _, _, h5, h6⟩ := h
  refine List.Pairwise.imp_of_mem ?_ h6
  intro a c ha _ hac he
  have := (h5 a ha).2.2.1
  rw [he] at hac
  omega

/-- The head branch of `free_send_data`: the record released is the first of at
least two, and not also the last. -/
theorem free_send_data_head (s : pj_ssl_sock_t) (w1 w2 : write_data_t)
    (rest : List write_data_t) (hq : s.send_pending = w1 :: w2 :: rest)
    (hd : ∀ w ∈ w2 :: rest, w.self ≠ w1.self) :
    free_send_data s w1.self =
      { s with
        send_buf :=
          if w2.self > w1.self then
            { s.send_buf with start := w2.self
                              len := size_sub s.send_buf.len (size_sub w2.self w2.self) }
          else
            { s.send_buf with
              start := w2.self
              len := size_sub s.send_buf.len
                (size_add (size_sub (s.send_buf.buf + s.send_buf.max_len) w1.self)
                  (size_sub w2.self s.send_buf.buf)) }
        send_pending := w2 :: rest } := by
  have hlast : (((w1 :: w2 :: rest).getLast?.map (·.self)) == some w1.self) = false := by
    rw [List.getLast?_cons_cons]
    have hne : (w2 :: rest) ≠ [] := List.cons_ne_nil _ _
    rw [List.getLast?_eq_getLast _ hne]
    simpa using hd _ (List.getLast_mem hne)
  unfold free_send_data
  simp only [hq, hlast, List.head?_cons, Option.map_some', beq_self_eq_true, Bool.and_false,
    Bool.false_eq_true, if_false, if_true, pj_list_erase]

/-- The middle branch of `free_send_data`: the record released is neither the first
nor the last; the buffer descriptor is left alone. -/
theorem free_send_data_middle (s : pj_ssl_sock_t) (p : Nat) (w1 : write_data_t)
    (l : List write_data_t) (last : write_data_t)
    (hq : s.send_pending = w1 :: (l ++ [last])) (h1 : w1.self ≠ p) (h2 : last.self ≠ p) :
    free_send_data s p = { s with send_pending := pj_list_erase s.send_pending p } := by
  have hfirst : ((s.send_pending.head?.map (·.self)) == some p) = false := by
    rw [hq]; simpa using h1
  have hlast : ((s.send_pending.getLast?.map (·.self)) == some p) = false := by
    rw [hq, ← List.cons_append, List.getLast?_concat]; simpa using h2
  unfold free_send_data
  simp only [hfirst, hlast, Bool.false_and, Bool.false_eq_true, if_false]

/-- The span to an address `c` after `start` has moved to an address `a` that lies
before `c` on the ring. -/
theorem ring_off_shift (b : send_buf_t) (a c x : Nat)
    (hs : b.buf ≤ b.start ∧ b.start < b.buf + b.max_len)
    (ha : b.buf ≤ a ∧ a < b.buf + b.max_len) (hc : b.buf ≤ c ∧ c < b.buf + b.max_len)
    (hac : ring_off b a ≤ ring_off b c) :
    ring_off { b with start := a, len := x } c = ring_off b c - ring_off b a := by
  unfold ring_off at *
  simp only
  split_ifs at * <;> omega

/-- Releasing the only pending record keeps the invariant. -/
theorem ring_inv_free_only (s : pj_ssl_sock_t) (w : write_data_t) (hinv : ring_inv s)
    (hq : s.send_pending = [w]) : ring_inv (free_send_data s w.self) := by
  obtain ⟨a, b, c⟩ := free_send_data_only s w hq
  obtain ⟨d, e⟩ := free_send_data_buf s w.self
  unfold ring_inv
  rw [c, b, d, e]
  exact ⟨hinv.1, Nat.zero_le _, fun _ => rfl, by simp, by simp, List.Pairwise.nil⟩

/-- Releasing the first of several pending records keeps the invariant. -/
theorem ring_inv_free_head (s : pj_ssl_sock_t) (w1 w2 : write_data_t)
    (rest : List write_data_t) (hinv : ring_inv s) (hq : s.send_pending = w1 :: w2 :: rest) :
    ring_inv (free_send_data s w1.self) := by
  have hdist := ring_inv_distinct s hinv
  obtain ⟨i1, i2, i3, i4, i5, i6⟩ := hinv
  rw [hq] at hdist i5 i6
  have hd : ∀ w ∈ w2 :: rest, w.self ≠ w1.self := fun w hw =>
    Ne.symm ((List.pairwise_cons.mp hdist).1 w hw)
  have hst : s.send_buf.start = w1.self := i4 w1 (by rw [hq]; rfl)
  obtain ⟨a1, a2, a3, a4⟩ := i5 w1 (List.mem_cons_self _ _)
  obtain ⟨b1, b2, b3, b4⟩ := i5 w2 (List.mem_cons_of_mem _ (List.mem_cons_self _ _))
  have h12 := (List.pairwise_cons.mp i6).1 w2 (List.mem_cons_self _ _)
  have htail := (List.pairwise_cons.mp i6).2
  have hge : ∀ v ∈ w2 :: rest, ring_off s.send_buf w2.self ≤ ring_off s.send_buf v.self := by
    intro v hv
    rcases List.mem_cons.mp hv with hv | hv
    · rw [hv]
    · have := (List.pairwise_cons.mp htail).1 v hv
      omega
  have hs : s.send_buf.buf ≤ s.send_buf.start ∧
      s.send_buf.start < s.send_buf.buf + s.send_buf.max_len := by omega
  obtain ⟨len2, hbuf, hlo, hhi⟩ : ∃ len2,
      (if w2.self > w1.self then
          { s.send_buf with start := w2.self
                            len := size_sub s.send_buf.len (size_sub w2.self w2.self) }
        else
          { s.send_buf with
            start := w2.self
            len := size_sub s.send_buf.len
              (size_add (size_sub (s.send_buf.buf + s.send_buf.max_len) w1.self)
                (size_sub w2.self s.send_buf.buf)) })
        = { s.send_buf with start := w2.self, len := len2 } ∧
      s.send_buf.len ≤ len2 + ring_off s.send_buf w2.self ∧ len2 ≤ s.send_buf.len := by
    have hM : SIZE_T_MOD = 18446744073709551616 := rfl
    by_cases hc : w2.self > w1.self
    · refine ⟨_, by rw [if_pos hc], ?_, ?_⟩ <;>
        rw [size_sub_eq w2.self w2.self (Nat.le_refl _) (by omega), Nat.sub_self,
          size_sub_eq _ 0 (Nat.zero_le _) (by omega)] <;> omega
    · have hlt : w2.self < w1.self := by
        have := hd w2 (List.mem_cons_self _ _)
        omega
      have ho : ring_off s.send_buf w2.self
          = (s.send_buf.buf + s.send_buf.max_len - w1.self) + (w2.self - s.send_buf.buf) := by
        unfold ring_off
        rw [if_neg (by omega)]
        omega
      refine ⟨_, by rw [if_neg hc], ?_, ?_⟩ <;>
        rw [size_sub_eq (s.send_buf.buf + s.send_buf.max_len) w1.self (by omega) (by omega),
          size_sub_eq w2.self s.send_buf.buf b1 (by omega), size_add_eq _ _ (by omega),
          size_sub_eq s.send_buf.len _ (by omega) (by omega)] <;> omega
  rw [free_send_data_head s w1 w2 rest hq hd, hbuf]
  have hoff : ∀ v ∈ w2 :: rest,
      ring_off { s.send_buf with start := w2.self, len := len2 } v.self
        = ring_off s.send_buf v.self - ring_off s.send_buf w2.self := by
    intro v hv
    obtain ⟨c1, c2, c3, c4⟩ := i5 v (List.mem_cons_of_mem _ hv)
    exact ring_off_shift s.send_buf w2.self v.self len2 hs (by omega) (by omega) (hge v hv)
  unfold ring_inv
  simp only
  refine ⟨i1, by omega, by simp, by simp, ?_, ?_⟩
  · intro v hv
    obtain ⟨c1, c2, c3, c4⟩ := i5 v (List.mem_cons_of_mem _ hv)
    refine ⟨c1, c2, c3, ?_⟩
    rw [hoff v hv]
    have := hge v hv
    omega
  · refine List.Pairwise.imp_of_mem ?_ htail
    intro a c ha hc hac
    rw [hoff a ha, hoff c hc]
    have := hge a ha
    have := hge c hc
    omega

/-- Releasing a record that is neither first nor last keeps the invariant. -/
theorem ring_inv_free_middle (s : pj_ssl_sock_t) (p : Nat) (w1 : write_data_t)
    (l : List write_data_t) (last : write_data_t) (hinv : ring_inv s)
    (hq : s.send_pending = w1 :: (l ++ [last])) (h1 : w1.self ≠ p) (h2 : last.self ≠ p) :
    ring_inv (free_send_data s p) := by
  obtain ⟨i1, i2, i3, i4, i5, i6⟩ := hinv
  rw [free_send_data_middle s p w1 l last hq h1 h2]
  have hsub := pj_list_erase_sublist s.send_pending p
  have hhead : pj_list_erase s.send_pending p = w1 :: pj_list_erase (l ++ [last]) p := by
    rw [hq]; simp [pj_list_erase, h1]
  unfold ring_inv
  simp only
  refine ⟨i1, i2, ?_, ?_, ?_, List.Pairwise.sublist hsub i6⟩
  · intro he
    rw [hhead] at he
    exact absurd he (List.cons_ne_nil _ _)
  · intro w hw
    rw [hhead] at hw
    simp only [List.head?_cons, Option.some.injEq] at hw
    subst hw
    exact i4 w1 (by rw [hq]; rfl)
  · intro w hw
    exact i5 w (hsub.subset hw)

/-- Releasing the last of several pending records keeps the invariant. -/
theorem ring_inv_free_last (s : pj_ssl_sock_t) (init : List write_data_t)
    (prev last : write_data_t) (hinv : ring_inv s)
    (hq : s.send_pending = init ++ [prev, last]) :
    ring_inv (free_send_data s last.self) := by
  have hdist := ring_inv_distinct s hinv
  have hstart := ring_inv_start s hinv
  obtain ⟨i1, i2, i3, i4, i5, i6⟩ := hinv
  have hqq : s.send_pending = (init ++ [prev]) ++ [last] := by rw [hq]; simp
  rw [hqq] at hdist i5 i6
  have hd : ∀ w ∈ init ++ [prev], w.self ≠ last.self := fun w hw =>
    (List.pairwise_append.mp hdist).2.2 w hw last (List.mem_singleton_self _)
  obtain ⟨a1, a2, a3, a4⟩ := i5 last (by simp)
  obtain ⟨b1, b2, b3, b4⟩ := i5 prev (by simp)
  have hpl := (List.pairwise_append.mp i6).2.2 prev (by simp) last (List.mem_singleton_self _)
  have hinit := (List.pairwise_append.mp i6).1
  obtain ⟨c1, c2⟩ := hstart (by omega)
  obtain ⟨len2, hbuf, hlen⟩ : ∃ len2,
      (if prev.self < last.self then
          { s.send_buf with
            len := size_sub s.send_buf.len
              (size_add last.record_len
                (size_sub last.self (prev.self + prev.record_len))) }
        else
          { s.send_buf with
            len := size_sub s.send_buf.len
              (size_add
                (size_sub (s.send_buf.buf + s.send_buf.max_len)
                  (prev.self + prev.record_len))
                (size_sub (last.self + last.record_len) s.send_buf.buf)) })
        = { s.send_buf with len := len2 } ∧
      len2 + (ring_off s.send_buf last.self + last.record_len)
        = s.send_buf.len + (ring_off s.send_buf prev.self + prev.record_len) := by
    have hne : prev.self ≠ last.self := hd prev (by simp)
    have key := ring_tail_len s.send_buf prev.self prev.record_len last.self last.record_len
      i1 i2 ⟨c1, c2⟩ ⟨b1, b2⟩ ⟨a1, a2⟩ (by omega) hne hpl a4
    by_cases hc : prev.self < last.self
    · rw [if_pos hc] at key
      exact ⟨_, by rw [if_pos hc], key⟩
    · rw [if_neg hc] at key
      exact ⟨_, by rw [if_neg hc], key⟩
  rw [free_send_data_last s init prev last hq hd, hbuf]
  unfold ring_inv
  simp only
  refine ⟨i1, by omega, by simp, ?_, ?_, ?_⟩
  · intro w hw
    apply i4 w
    rw [hq]
    cases init with
    | nil => simpa using hw
    | cons v vs => simpa using hw
  · intro w hw
    obtain ⟨d1, d2, d3, d4⟩ := i5 w (List.mem_append_left _ hw)
    refine ⟨d1, d2, d3, ?_⟩
    show ring_off s.send_buf w.self + w.record_len ≤ len2
    rcases List.mem_append.mp hw with hw | hw
    · have := (List.pairwise_append.mp hinit).2.2 w hw prev (List.mem_singleton_self _)
      omega
    · rw [List.mem_singleton] at hw
      subst hw
      omega
  · exact hinit

/-- Releasing a pending record keeps the invariant. -/
theorem ring_inv_free (s : pj_ssl_sock_t) (p : Nat) (hinv : ring_inv s)
    (hmem : ∃ w ∈ s.send_pending, w.self = p) : ring_inv (free_send_data s p) := by
  obtain ⟨w, hw, hp⟩ := hmem
  cases hq : s.send_pending with
  | nil => rw [hq] at hw; cases hw
  | cons w1 t =>
    cases t with
    | nil =>
      rw [hq, List.mem_singleton] at hw
      subst hw
      rw [← hp]
      exact ring_inv_free_only s w hinv hq
    | cons w2 rest =>
      obtain ⟨init, prev, last, l, hend, hl⟩ := two_nodes_end w1 w2 rest
      by_cases h1 : w1.self = p
      · rw [← h1]
        exact ring_inv_free_head s w1 w2 rest hinv hq
      · by_cases h2 : last.self = p
        · rw [← h2]
          exact ring_inv_free_last s init prev last hinv (hq.trans hend)
        · exact ring_inv_free_middle s p w1 l last hinv (by rw [hq, hl]) h1 h2

/-- An empty ring whose buffer lies in the address space satisfies the invariant. -/
theorem ring_inv_empty (s : pj_ssl_sock_t) (h0 : ring_empty s)
    (hb : s.send_buf.buf + s.send_buf.max_len < SIZE_T_MOD) : ring_inv s := by
  obtain ⟨_, hlen, hpend⟩ := h0
  unfold ring_inv
  rw [hpend, hlen]
  exact ⟨hb, Nat.zero_le _, fun _ => rfl, by simp, by simp, List.Pairwise.nil⟩

/-- One ring operation of a valid sequence keeps the invariant and the buffer. -/
theorem ring_inv_step (s : pj_ssl_sock_t) (op : ring_op) (hinv : ring_inv s)
    (hok : ring_ops_ok s [op]) :
    ring_inv (ring_step s op) ∧ (ring_step s op).send_buf.buf = s.send_buf.buf ∧
      (ring_step s op).send_buf.max_len = s.send_buf.max_len := by
  cases op with
  | alloc n =>
    have hn : 0 < n := hok.1
    cases h : alloc_send_data s n with
    | mk o s1 =>
      cases o with
      | none =>
        have := alloc_send_data_none s n (by rw [h])
        rw [h] at this
        simp only at this
        subst this
        simp only [ring_step, h]
        exact ⟨hinv, trivial, trivial⟩
      | some p =>
        simp only [ring_step, h]
        obtain ⟨_, a2, a3⟩ := alloc_send_data_pending s n p s1 h
        exact ⟨(ring_inv_alloc s n p s1 hinv hn h).1, a2, a3⟩
  | free p =>
    simp only [ring_step]
    exact ⟨ring_inv_free s p hinv hok.1, free_send_data_buf s p⟩

/-- A valid sequence of ring operations keeps the invariant and the buffer. -/
theorem ring_inv_run (ops : List ring_op) :
    ∀ s : pj_ssl_sock_t, ring_inv s → ring_ops_ok s ops →
      ring_inv (ring_run s ops) ∧ (ring_run s ops).send_buf.buf = s.send_buf.buf ∧
        (ring_run s ops).send_buf.max_len = s.send_buf.max_len := by
  induction ops with
  | nil => intro s h _; exact ⟨h, rfl, rfl⟩
  | cons op ops ih =>
    intro s hinv hok
    have hstep : ring_ops_ok s [op] ∧ ring_ops_ok (ring_step s op) ops := by
      cases op with
      | alloc n => exact ⟨⟨hok.1, trivial⟩, hok.2⟩
      | free p => exact ⟨⟨hok.1, trivial⟩, hok.2⟩
    obtain ⟨a1, a2, a3⟩ := ring_inv_step s op hinv hstep.1
    obtain ⟨b1, b2, b3⟩ := ih (ring_step s op) a1 hstep.2
    exact ⟨b1, by rw [← a2, ← b2]; rfl, by rw [← a3, ← b3]; rfl⟩

/-- C3, as stated, fails: `alloc_send_data` zeroes the record, and without the
caller storing the size in `record_len` the release of the last record takes
too much off `len`.  Allocating 400 and 200 bytes in the empty ring at 4096
gives slots at 4096 and 4496; after releasing the second, an allocation of 200
bytes returns 4296, inside the first slot, which is still pending. -/
theorem alloc_overlaps_without_record_len :
    (alloc_send_data sock_ring 400).1 = some 4096 ∧
    (alloc_send_data (alloc_send_data sock_ring 400).2 200).1 = some 4496 ∧
    (free_send_data (alloc_send_data (alloc_send_data sock_ring 400).2 200).2 4496).send_pending.map
        (·.self) = [4096] ∧
    (alloc_send_data
        (free_send_data (alloc_send_data (alloc_send_data sock_ring 400).2 200).2 4496) 200).1
      = some 4296 ∧
    4096 ≤ 4296 ∧ 4296 < 4096 + 400 := by
  decide

/-- C3, amended: starting from an empty ring, after any sequence of allocations of
at least one byte whose size the caller stores in the record's `record_len`
and of releases of records that are pending at that moment, every successful
allocation of `n` bytes returns a slot `[p, p+n)` inside
`[buf, buf+max_len)` that shares no byte with a pending record. -/
theorem alloc_send_data_no_overlap (s0 : pj_ssl_sock_t) (ops : List ring_op) (n p : Nat)
    (s1 : pj_ssl_sock_t) (h0 : ring_empty s0)
    (hb : s0.send_buf.buf + s0.send_buf.max_len < SIZE_T_MOD)
    (hok : ring_ops_ok s0 ops) (hn : 0 < n)
    (ha : alloc_send_data (ring_run s0 ops) n = (some p, s1)) :
    s0.send_buf.buf ≤ p ∧ p + n ≤ s0.send_buf.buf + s0.send_buf.max_len ∧
    ∀ w ∈ (ring_run s0 ops).send_pending, p + n ≤ w.self ∨ w.self + w.record_len ≤ p := by
  obtain ⟨hinv, e1, e2⟩ := ring_inv_run ops s0 (ring_inv_empty s0 h0 hb) hok
  obtain ⟨_, a1, a2, a3⟩ := ring_inv_alloc (ring_run s0 ops) n p s1 hinv hn ha
  rw [e1] at a1 a2
  rw [e2] at a2
  exact ⟨a1, a2, a3⟩

/-- C3 amended, at a concrete input: after records of 400 and 200 bytes and the
release of the first, an allocation of 300 bytes returns 5096; the slot lies in
the buffer and clear of the record pending at 4496. -/
theorem alloc_send_data_no_overlap_witness :
    (alloc_send_data (ring_run sock_ring [.alloc 400, .alloc 200, .free 4096]) 300).1
      = some 5096 ∧
    4096 ≤ 5096 ∧ 5096 + 300 ≤ 4096 + 8192 ∧
    ∀ w ∈ (ring_run sock_ring [.alloc 400, .alloc 200, .free 4096]).send_pending,
      5096 + 300 ≤ w.self ∨ w.self + w.record_len ≤ 5096 :=
  ⟨by decide,
   alloc_send_data_no_overlap sock_ring [.alloc 400, .alloc 200, .free 4096] 300 5096
     (alloc_send_data (ring_run sock_ring [.alloc 400, .alloc 200, .free 4096]) 300).2
     ⟨rfl, rfl, rfl⟩ (by decide)
     ⟨by decide, by decide, ⟨{ write_data_t.zero 4096 with record_len := 400 }, by decide, rfl⟩,
       trivial⟩
     (by decide) (by decide)⟩

/-! ### `pj_ssl_sock_send` -/

/-- The engine write returns success, busy or out-of-memory, nothing else. -/
theorem ssl_write_status (s : pj_ssl_sock_t) (k d n f : Nat) (w : Int) :
    (ssl_write s k d n f w).1 = PJ_SUCCESS ∨ (ssl_write s k d n f w).1 = PJ_EBUSY ∨
      (ssl_write s k d n f w).1 = PJ_ENOMEM := by
  unfold ssl_write
  split_ifs <;> simp

/-- The engine write leaves the queue of delayed writes alone. -/
theorem ssl_write_pending (s : pj_ssl_sock_t) (k d n f : Nat) (w : Int) :
    (ssl_write s k d n f w).2.write_pending = s.write_pending := by
  unfold ssl_write
  split_ifs <;> rfl

/-- The flush loop returns success, busy or out-of-memory, nothing else. -/
theorem flush_loop_status (pend : List write_data_t) :
    ∀ (s : pj_ssl_sock_t) (rs : Nat → Int),
      (flush_loop s pend rs).1 = PJ_SUCCESS ∨ (flush_loop s pend rs).1 = PJ_EBUSY ∨
        (flush_loop s pend rs).1 = PJ_ENOMEM := by
  induction pend with
  | nil => intro s rs; left; rfl
  | cons wp rest ih =>
    intro s rs
    simp only [flush_loop]
    split_ifs with h
    · exact ssl_write_status _ _ _ _ _ _
    · exact ih _ _

/-- The flush returns success, busy or out-of-memory, nothing else. -/
theorem flush_delayed_send_status (s : pj_ssl_sock_t) (e : env) :
    (flush_delayed_send s e).1 = PJ_SUCCESS ∨ (flush_delayed_send s e).1 = PJ_EBUSY ∨
      (flush_delayed_send s e).1 = PJ_ENOMEM := by
  unfold flush_delayed_send
  split_ifs
  · right; left; rfl
  · exact flush_loop_status _ _ _

/-- The entry `delay_send` appends at the tail of `write_pending`. -/
theorem delay_send_appends (s : pj_ssl_sock_t) (k d n f : Nat) (e : env) :
    ∃ wp : write_data_t, (delay_send s k d n f e).2.write_pending = s.write_pending ++ [wp] ∧
      wp.app_key = k ∧ wp.data_ptr = d ∧ wp.plain_data_len = n ∧ wp.flags = f :=
  ⟨_, rfl, rfl, rfl, rfl, rfl⟩

/-- Claim C11.  On an established socket with a non-null data pointer and a positive
size, `pj_ssl_sock_send` returns `PJ_EPENDING` exactly when the flush that
precedes the write, or the engine write itself, reports `PJ_EBUSY`; in that case
exactly one entry with the caller's key, data pointer, length and flags is
appended at the tail of `write_pending` (as the flush and the write left it);
in every other case no entry is added; and `PJ_EBUSY` is never returned. -/
theorem pj_ssl_sock_send_pending_iff_queued (s : pj_ssl_sock_t) (key data flags : Nat)
    (size : Int) (e : env)
    (hst : s.ssl_state = ssl_state.SSL_STATE_ESTABLISHED) (hd : data ≠ 0) (hsz : size > 0) :
    let f := flush_delayed_send s e
    let busy : Prop := f.1 = PJ_EBUSY ∨
      (f.1 = PJ_SUCCESS ∧ (ssl_write f.2 key data size.toNat flags e.send_nwritten).1 = PJ_EBUSY)
    let r := pj_ssl_sock_send s key data size flags e
    (r.1 = PJ_EPENDING ↔ busy) ∧
    (busy → ∃ wp : write_data_t, r.2.write_pending = f.2.write_pending ++ [wp] ∧
      wp.app_key = key ∧ wp.data_ptr = data ∧ (wp.plain_data_len : Int) = size ∧
      wp.flags = flags) ∧
    (¬ busy → r.2.write_pending = f.2.write_pending) ∧
    r.1 ≠ PJ_EBUSY := by
  intro f busy r
  have hsize : ((size.toNat : Nat) : Int) = size := Int.toNat_of_nonneg (le_of_lt hsz)
  have hr : r = (if f.1 = PJ_EBUSY then delay_send f.2 key data size.toNat flags e
      else if f.1 ≠ PJ_SUCCESS then f
      else if (ssl_write f.2 key data size.toNat flags e.send_nwritten).1 = PJ_EBUSY then
        delay_send (ssl_write f.2 key data size.toNat flags e.send_nwritten).2 key data
          size.toNat flags e
      else ssl_write f.2 key data size.toNat flags e.send_nwritten) := by
    show pj_ssl_sock_send s key data size flags e = _
    unfold pj_ssl_sock_send
    rw [if_neg (by push_neg; exact ⟨hd, hsz⟩), if_neg (by simp [hst])]
  have hne : PJ_EBUSY ≠ PJ_SUCCESS := by decide
  have hne2 : PJ_EPENDING ≠ PJ_EBUSY := by decide
  by_cases h1 : f.1 = PJ_EBUSY
  · have hb : busy := Or.inl h1
    rw [if_pos h1] at hr
    refine ⟨⟨fun _ => hb, fun _ => by rw [hr]; rfl⟩, fun _ => ?_, fun h => absurd hb h, ?_⟩
    · rw [hr]
      obtain ⟨wp, h5, h6, h7, h8, h9⟩ := delay_send_appends f.2 key data size.toNat flags e
      exact ⟨wp, h5, h6, h7, by rw [h8]; exact hsize, h9⟩
    · rw [hr]; exact hne2
  · rw [if_neg h1] at hr
    by_cases h2 : f.1 = PJ_SUCCESS
    · rw [if_neg (not_not.mpr h2)] at hr
      by_cases h3 : (ssl_write f.2 key data size.toNat flags e.send_nwritten).1 = PJ_EBUSY
      · have hb : busy := Or.inr ⟨h2, h3⟩
        rw [if_pos h3] at hr
        refine ⟨⟨fun _ => hb, fun _ => by rw [hr]; rfl⟩, fun _ => ?_, fun h => absurd hb h, ?_⟩
        · rw [hr]
          obtain ⟨wp, h5, h6, h7, h8, h9⟩ := delay_send_appends
            (ssl_write f.2 key data size.toNat flags e.send_nwritten).2 key data size.toNat flags e
          rw [ssl_write_pending] at h5
          exact ⟨wp, h5, h6, h7, by rw [h8]; exact hsize, h9⟩
        · rw [hr]; exact hne2
      · have hb : ¬ busy := fun h => h.elim h1 (fun h => h3 h.2)
        rw [if_neg h3] at hr
        refine ⟨⟨fun h => ?_, fun h => absurd h hb⟩, fun h => absurd h hb, fun _ => ?_, ?_⟩
        · rw [hr] at h
          rcases ssl_write_status f.2 key data size.toNat flags e.send_nwritten with h4 | h4 | h4 <;>
            rw [h4] at h <;> exact absurd h (by decide)
        · rw [hr]; exact ssl_write_pending _ _ _ _ _ _
        · rw [hr]; exact h3
    · have hb : ¬ busy := fun h => h.elim h1 (fun h => h2 h.1)
      rw [if_pos h2] at hr
      refine ⟨⟨fun h => ?_, fun h => absurd h hb⟩, fun h => absurd h hb, fun _ => by rw [hr], ?_⟩
      · rw [hr] at h
        rcases flush_delayed_send_status s e with h4 | h4 | h4
        · exact absurd h4 h2
        · exact absurd h4 h1
        · change f.1 = PJ_ENOMEM at h4; rw [h4] at h; exact absurd h (by decide)
      · rw [hr]; exact h1

/-- C11 at a concrete input: on the established socket `sock_est` a send of 10
bytes while the engine would block returns `PJ_EPENDING`, and never `PJ_EBUSY`. -/
theorem pj_ssl_sock_send_pending_iff_queued_witness :
    (pj_ssl_sock_send sock_est 1 100 10 0 env_again).1 = PJ_EPENDING ∧
    (pj_ssl_sock_send sock_est 1 100 10 0 env_again).1 ≠ PJ_EBUSY :=
  ⟨(pj_ssl_sock_send_pending_iff_queued sock_est 1 100 0 10 env_again rfl (by decide)
      (by decide)).1.mpr (Or.inr ⟨by decide, by decide⟩),
   (pj_ssl_sock_send_pending_iff_queued sock_est 1 100 0 10 env_again rfl (by decide)
      (by decide)).2.2.2⟩

/-! ### Error mapper -/

/-- The library identifier of a code is at least zero and below 256. -/
theorem ERR_GET_LIB_range (err : Nat) : 0 ≤ ERR_GET_LIB err ∧ ERR_GET_LIB err < 256 := by
  unfold ERR_GET_LIB
  have := Nat.mod_lt (err / 2 ^ 24) (show 0 < 256 by decide)
  omega

/-- The reason of a code is at least zero and below 4096. -/
theorem ERR_GET_REASON_range (err : Nat) :
    0 ≤ ERR_GET_REASON err ∧ ERR_GET_REASON err < 4096 := by
  unfold ERR_GET_REASON
  have := Nat.mod_lt err (show 0 < 4096 by decide)
  omega

/-- The status `STATUS_FROM_SSL_ERR` returns, in terms of the code it works on. -/
theorem STATUS_FROM_SSL_ERR_fst (s : pj_ssl_sock_t) (err queued : Nat) :
    (STATUS_FROM_SSL_ERR s err queued).1 =
      (if ERR_GET_LIB (effective_err err queued) * MAX_OSSL_ERR_REASON +
            ERR_GET_REASON (effective_err err queued) > PJ_SSL_ERRNO_SPACE_SIZE
        then ERR_GET_REASON (effective_err err queued)
        else ERR_GET_LIB (effective_err err queued) * MAX_OSSL_ERR_REASON +
            ERR_GET_REASON (effective_err err queued)) + PJ_SSL_ERRNO_START := rfl

/-- The status of the error mapper lies from `PJ_SSL_ERRNO_START` up to and
including `PJ_SSL_ERRNO_START + PJ_SSL_ERRNO_SPACE_SIZE`. -/
theorem STATUS_FROM_SSL_ERR_range (s : pj_ssl_sock_t) (err queued : Nat) :
    PJ_SSL_ERRNO_START ≤ (STATUS_FROM_SSL_ERR s err queued).1 ∧
    (STATUS_FROM_SSL_ERR s err queued).1 ≤ PJ_SSL_ERRNO_START + PJ_SSL_ERRNO_SPACE_SIZE := by
  rw [STATUS_FROM_SSL_ERR_fst]
  obtain ⟨h1, h2⟩ := ERR_GET_LIB_range (effective_err err queued)
  obtain ⟨h3, h4⟩ := ERR_GET_REASON_range (effective_err err queued)
  simp only [MAX_OSSL_ERR_REASON, PJ_SSL_ERRNO_SPACE_SIZE, PJ_SSL_ERRNO_START]
  split_ifs <;> omega

/-- Claim C12, at the input where it fails: for the native code with library
identifier 41 and reason 800 (`41 * 2^24 + 800`) the packed value is exactly
`PJ_SSL_ERRNO_SPACE_SIZE`, the test `status > PJ_SSL_ERRNO_SPACE_SIZE` lets it
pass, and `STATUS_FROM_SSL_ERR` returns `PJ_SSL_ERRNO_START +
PJ_SSL_ERRNO_SPACE_SIZE`, the first status after the reserved range. -/
theorem STATUS_FROM_SSL_ERR_leaves_range :
    ERR_GET_LIB 687866656 = 41 ∧ ERR_GET_REASON 687866656 = 800 ∧
    (STATUS_FROM_SSL_ERR sock0 687866656 0).1 = PJ_SSL_ERRNO_START + PJ_SSL_ERRNO_SPACE_SIZE ∧
    ¬ ((STATUS_FROM_SSL_ERR sock0 687866656 0).1 < PJ_SSL_ERRNO_START + PJ_SSL_ERRNO_SPACE_SIZE) := by
  decide

/-- Claim C13, counterexample: given the general code `SSL_ERROR_SSL` while the
error queue holds `336151568`, `STATUS_FROM_SSL_ERR` leaves the queued code in
`last_err`, not the code it was given. -/
theorem STATUS_FROM_SSL_ERR_stores_queued_code :
    (STATUS_FROM_SSL_ERR sock0 SSL_ERROR_SSL 336151568).2.last_err = 336151568 ∧
    (STATUS_FROM_SSL_ERR sock0 SSL_ERROR_SSL 336151568).2.last_err ≠ SSL_ERROR_SSL ∧
    (pj_ssl_sock_get_info (STATUS_FROM_SSL_ERR sock0 SSL_ERROR_SSL 336151568).2 env_ok).2.1.last_native_err
      ≠ SSL_ERROR_SSL := by
  decide

/-- C13, amended: in both mapping branches `STATUS_FROM_SSL_ERR` changes the socket
in `last_err` only, which becomes the code the mapping worked on: the code it
was given, or the code from the error queue when that is `SSL_ERROR_SSL`; and
`pj_ssl_sock_get_info` reports that value as `last_native_err`. -/
theorem STATUS_FROM_SSL_ERR_last_err (s : pj_ssl_sock_t) (err queued : Nat) (e : env) :
    (STATUS_FROM_SSL_ERR s err queued).2 = { s with last_err := effective_err err queued } ∧
    (err ≠ SSL_ERROR_SSL → (STATUS_FROM_SSL_ERR s err queued).2.last_err = err) ∧
    (err = SSL_ERROR_SSL → (STATUS_FROM_SSL_ERR s err queued).2.last_err = queued) ∧
    (pj_ssl_sock_get_info (STATUS_FROM_SSL_ERR s err queued).2 e).2.1.last_native_err
      = effective_err err queued := by
  refine ⟨rfl, fun h => ?_, fun h => ?_, rfl⟩
  · show effective_err err queued = err
    simp [effective_err, h]
  · show effective_err err queued = queued
    simp [effective_err, h]

/-- C13 amended, at concrete inputs: the code `336151568` is kept as it is, and
for `SSL_ERROR_SSL` the queued code `336151568` is kept. -/
theorem STATUS_FROM_SSL_ERR_last_err_witness :
    (STATUS_FROM_SSL_ERR sock0 336151568 0).2.last_err = 336151568 ∧
    (STATUS_FROM_SSL_ERR sock0 SSL_ERROR_SSL 336151568).2.last_err = 336151568 :=
  ⟨(STATUS_FROM_SSL_ERR_last_err sock0 336151568 0 env_ok).2.1 (by decide),
   (STATUS_FROM_SSL_ERR_last_err sock0 SSL_ERROR_SSL 336151568 env_ok).2.2.1 rfl⟩

/-- Claim C14, counterexample: the code with library identifier 20 and reason 1500
maps to a status that `ssl_strerror` decodes as library 21 and reason 300; and
the code with library identifier 100 and reason 5, whose packed value exceeds
the space so that the reason alone is kept, decodes as library 0 and reason 5. -/
theorem ssl_strerror_decode_loses_code :
    ERR_GET_LIB 335545820 = 20 ∧ ERR_GET_REASON 335545820 = 1500 ∧
    ssl_strerror_decode (STATUS_FROM_SSL_ERR sock0 335545820 0).1 = (21, 300) ∧
    ERR_GET_LIB 1677721605 = 100 ∧ ERR_GET_REASON 1677721605 = 5 ∧
    ssl_strerror_decode (STATUS_FROM_SSL_ERR sock0 1677721605 0).1 = (0, 5) := by
  decide

/-- C14, amended: when the reason of the code the mapping works on is below
`MAX_OSSL_ERR_REASON` and the packed value `lib * MAX_OSSL_ERR_REASON + reason`
does not exceed `PJ_SSL_ERRNO_SPACE_SIZE`, decoding the status the way
`ssl_strerror` does gives back the library identifier and the reason. -/
theorem ssl_strerror_decode_packed (s : pj_ssl_sock_t) (err queued : Nat)
    (hr : ERR_GET_REASON (effective_err err queued) < MAX_OSSL_ERR_REASON)
    (hp : ERR_GET_LIB (effective_err err queued) * MAX_OSSL_ERR_REASON +
      ERR_GET_REASON (effective_err err queued) ≤ PJ_SSL_ERRNO_SPACE_SIZE) :
    ssl_strerror_decode (STATUS_FROM_SSL_ERR s err queued).1 =
      (ERR_GET_LIB (effective_err err queued), ERR_GET_REASON (effective_err err queued)) := by
  obtain ⟨h1, h2⟩ := ERR_GET_LIB_range (effective_err err queued)
  obtain ⟨h3, h4⟩ := ERR_GET_REASON_range (effective_err err queued)
  rw [STATUS_FROM_SSL_ERR_fst, if_neg (not_lt.mpr hp)]
  generalize ERR_GET_LIB (effective_err err queued) = l at *
  generalize ERR_GET_REASON (effective_err err queued) = r at *
  simp only [MAX_OSSL_ERR_REASON, PJ_SSL_ERRNO_SPACE_SIZE] at hr hp
  simp only [ssl_strerror_decode, MAX_OSSL_ERR_REASON, PJ_SSL_ERRNO_START]
  rw [if_pos (by omega)]
  refine Prod.ext ?_ ?_ <;> simp only <;> omega

/-- C14 amended, at a concrete input: the code with library identifier 20 and
reason 100 is recovered from its status. -/
theorem ssl_strerror_decode_packed_witness :
    ssl_strerror_decode (STATUS_FROM_SSL_ERR sock0 335544420 0).1 = (20, 100) :=
  ssl_strerror_decode_packed sock0 335544420 0 (by decide) (by decide)

/-! ### Renegotiation, close and handshake completion -/

/-- Claim C17.  `pj_ssl_sock_renegotiate` returns `PJ_EINVALIDOP` and changes nothing
when `ssl_state` is not `SSL_STATE_ESTABLISHED`; on an established socket with a
renegotiation pending it returns `PJ_EPENDING` (a status other than
`PJ_EINVALIDOP`) and changes nothing, so the trigger `SSL_renegotiate` is not
called; otherwise it calls the trigger once, and when the trigger succeeds the
result is that of `do_handshake`, when it fails that of `GET_SSL_STATUS`. -/
theorem pj_ssl_sock_renegotiate_cases (s : pj_ssl_sock_t) (e : env) :
    (s.ssl_state ≠ ssl_state.SSL_STATE_ESTABLISHED →
      pj_ssl_sock_renegotiate s e = (PJ_EINVALIDOP, s)) ∧
    (s.ssl_state = ssl_state.SSL_STATE_ESTABLISHED → e.renegotiate_pending = true →
      pj_ssl_sock_renegotiate s e = (PJ_EPENDING, s) ∧ PJ_EPENDING ≠ PJ_EINVALIDOP) ∧
    (s.ssl_state = ssl_state.SSL_STATE_ESTABLISHED → e.renegotiate_pending = false →
      (pj_ssl_sock_renegotiate s e).2.renegotiate_calls = s.renegotiate_calls + 1 ∧
      (e.renegotiate_r > 0 → pj_ssl_sock_renegotiate s e =
        do_handshake { s with renegotiate_calls := s.renegotiate_calls + 1 } e) ∧
      (e.renegotiate_r ≤ 0 → pj_ssl_sock_renegotiate s e =
        GET_SSL_STATUS { s with renegotiate_calls := s.renegotiate_calls + 1 } e)) := by
  refine ⟨fun h => ?_, fun h hp => ⟨?_, by decide⟩, fun h hp => ⟨?_, fun hr => ?_, fun hr => ?_⟩⟩
  · simp [pj_ssl_sock_renegotiate, h]
  · simp [pj_ssl_sock_renegotiate, h, hp]
  · simp only [pj_ssl_sock_renegotiate, h, hp, ne_eq, not_true_eq_false, if_false,
      Bool.false_eq_true]
    split_ifs
    · rfl
    · simp only [do_handshake, set_ssl_state]
      split_ifs <;> rfl
  · simp [pj_ssl_sock_renegotiate, h, hp, not_le.mpr hr]
  · simp [pj_ssl_sock_renegotiate, h, hp, hr]

/-- C17 at concrete inputs: on the fresh socket `sock0` the call is refused; on the
established socket `sock_est` a pending renegotiation gives `PJ_EPENDING` and
the socket as it was; with none pending the trigger is called once and the
result is that of `do_handshake`. -/
theorem pj_ssl_sock_renegotiate_cases_witness :
    pj_ssl_sock_renegotiate sock0 env_ok = (PJ_EINVALIDOP, sock0) ∧
    pj_ssl_sock_renegotiate sock_est { env_ok with renegotiate_pending := true }
      = (PJ_EPENDING, sock_est) ∧
    (pj_ssl_sock_renegotiate sock_est env_ok).2.renegotiate_calls = 1 ∧
    pj_ssl_sock_renegotiate sock_est env_ok =
      do_handshake { sock_est with renegotiate_calls := sock_est.renegotiate_calls + 1 } env_ok :=
  ⟨(pj_ssl_sock_renegotiate_cases sock0 env_ok).1 (by decide),
   ((pj_ssl_sock_renegotiate_cases sock_est { env_ok with renegotiate_pending := true }).2.1
      rfl rfl).1,
   ((pj_ssl_sock_renegotiate_cases sock_est env_ok).2.2 rfl rfl).1,
   ((pj_ssl_sock_renegotiate_cases sock_est env_ok).2.2 rfl rfl).2.1 (by decide)⟩

/-- What `reset_ssl_sock_state` leaves: state NULL, no session, no credentials, no
active socket, no socket; the timer, the pool, the parameters, the last error
and the callback log are not touched. -/
theorem reset_ssl_sock_state_fields (s : pj_ssl_sock_t) :
    (reset_ssl_sock_state s).ssl_state = ssl_state.SSL_STATE_NULL ∧
    (reset_ssl_sock_state s).session = false ∧
    (reset_ssl_sock_state s).xcred = false ∧
    (reset_ssl_sock_state s).asock = none ∧
    (reset_ssl_sock_state s).sock = none ∧
    (reset_ssl_sock_state s).timer = s.timer ∧
    (reset_ssl_sock_state s).pool = s.pool ∧
    (reset_ssl_sock_state s).param = s.param ∧
    (reset_ssl_sock_state s).last_err = s.last_err ∧
    (reset_ssl_sock_state s).cb_log = s.cb_log ∧
    (reset_ssl_sock_state s).is_server = s.is_server := by
  unfold reset_ssl_sock_state destroy_ssl set_ssl_state
  cases ha : s.asock <;> cases hs : s.sock <;> simp [ha, hs]

/-- The reset leaves the record of the callbacks alone. -/
theorem reset_ssl_sock_state_cb_view (s : pj_ssl_sock_t) :
    (reset_ssl_sock_state s).cb_view = s.cb_view := by
  unfold reset_ssl_sock_state destroy_ssl set_ssl_state
  cases ha : s.asock <;> cases hs : s.sock <;> simp [ha, hs]

/-- The close leaves the record of the callbacks and `last_err` alone. -/
theorem pj_ssl_sock_close_keeps (x : pj_ssl_sock_t) :
    (pj_ssl_sock_close x).2.cb_log = x.cb_log ∧ (pj_ssl_sock_close x).2.cb_view = x.cb_view ∧
    (pj_ssl_sock_close x).2.last_err = x.last_err := by
  unfold pj_ssl_sock_close
  split_ifs
  · exact ⟨rfl, rfl, rfl⟩
  · dsimp only
    obtain ⟨-, -, -, -, -, -, -, -, h9, h10, -⟩ :=
      reset_ssl_sock_state_fields { x with timer := timer_id.TIMER_NONE }
    exact ⟨h10, reset_ssl_sock_state_cb_view _, h9⟩
  · dsimp only
    obtain ⟨-, -, -, -, -, -, -, -, h9, h10, -⟩ := reset_ssl_sock_state_fields x
    exact ⟨h10, reset_ssl_sock_state_cb_view _, h9⟩

/-- What the cancelling of the handshake timer changes: the timer id, which is
not `TIMER_HANDSHAKE_TIMEOUT` afterwards. -/
theorem cancel_handshake_timer_fields (s : pj_ssl_sock_t) :
    (cancel_handshake_timer s).timer ≠ timer_id.TIMER_HANDSHAKE_TIMEOUT ∧
    (cancel_handshake_timer s).is_server = s.is_server ∧
    (cancel_handshake_timer s).param = s.param ∧
    (cancel_handshake_timer s).cb_log = s.cb_log ∧
    (cancel_handshake_timer s).cb_view = s.cb_view ∧
    (cancel_handshake_timer s).last_err = s.last_err := by
  unfold cancel_handshake_timer
  split_ifs with h
  · exact ⟨by simp, rfl, rfl, rfl, rfl, rfl⟩
  · exact ⟨h, rfl, rfl, rfl, rfl, rfl⟩

/-- The status and the socket `client_failure` gives: the status is not
`PJ_SUCCESS` when the one passed in is not, and only `last_err` may differ from
the socket with the timer cancelled. -/
theorem client_failure_fields (s : pj_ssl_sock_t) (status : Int) (e : env)
    (hs : status ≠ PJ_SUCCESS) :
    (client_failure s status e).1 ≠ PJ_SUCCESS ∧
    (client_failure s status e).2.timer = (cancel_handshake_timer s).timer ∧
    (client_failure s status e).2.param = (cancel_handshake_timer s).param ∧
    (client_failure s status e).2.cb_log = (cancel_handshake_timer s).cb_log ∧
    (client_failure s status e).2.cb_view = (cancel_handshake_timer s).cb_view ∧
    (status ≠ PJ_EEOF → client_failure s status e = (status, cancel_handshake_timer s)) := by
  unfold client_failure
  split_ifs with h1 h2
  · refine ⟨?_, rfl, rfl, rfl, rfl, fun h => absurd h1 h⟩
    have := (STATUS_FROM_SSL_ERR_range (cancel_handshake_timer s) e.err_get_error
      e.err_queue_next).1
    intro h; rw [h] at this; revert this; decide
  · exact ⟨hs, rfl, rfl, rfl, rfl, fun _ => rfl⟩
  · exact ⟨hs, rfl, rfl, rfl, rfl, fun _ => rfl⟩

/-- On the client path with a status other than `PJ_SUCCESS`,
`on_handshake_complete` cancels the handshake timer, fixes the status, resets
the socket and then, when `on_connect_complete` is registered, invokes it. -/
theorem on_handshake_complete_client_eq (s : pj_ssl_sock_t) (status : Int) (e : env)
    (hc : s.is_server = false) (hs : status ≠ PJ_SUCCESS) :
    (on_handshake_complete s status e).2 =
      if s.param.cb.on_connect_complete = true then
        notify (reset_ssl_sock_state (client_failure s status e).2)
          (cb_event.connect_complete (client_failure s status e).1)
      else reset_ssl_sock_state (client_failure s status e).2 := by
  obtain ⟨-, hsv, hpa, -, -, -⟩ := cancel_handshake_timer_fields s
  obtain ⟨-, -, h3, -, -, -⟩ := client_failure_fields s status e hs
  obtain ⟨-, -, -, -, -, -, -, h8, -, -, -⟩ :=
    reset_ssl_sock_state_fields (client_failure s status e).2
  have hp : (reset_ssl_sock_state (client_failure s status e).2).param.cb.on_connect_complete
      = s.param.cb.on_connect_complete := by rw [h8, h3, hpa]
  have hs2 : ¬ status = PJ_SUCCESS := hs
  have hsv2 : (cancel_handshake_timer s).is_server = false := hsv.trans hc
  unfold on_handshake_complete
  unfold client_failure cancel_handshake_timer at hp ⊢
  unfold cancel_handshake_timer at hsv2
  simp only [if_neg hs2, hsv2, Bool.false_eq_true, if_false, ne_eq, if_pos hs2]
  simp only [ne_eq] at hp
  by_cases hcbs : s.param.cb.on_connect_complete = true
  · rw [hcbs] at hp
    rw [if_pos hp, if_pos hcbs]
    split_ifs <;> rfl
  · have hp2 := hp
    rw [Bool.not_eq_true _ |>.mp hcbs] at hp2
    rw [if_neg (by rw [hp2]; decide), if_neg hcbs]

/-- On the server path with a status other than `PJ_SUCCESS`,
`on_handshake_complete` invokes no callback and leaves `last_err` alone. -/
theorem on_handshake_complete_server_failure (s : pj_ssl_sock_t) (status : Int) (e : env)
    (hc : s.is_server = true) (hs : status ≠ PJ_SUCCESS) :
    (on_handshake_complete s status e).2.cb_log = s.cb_log ∧
    (on_handshake_complete s status e).2.cb_view = s.cb_view ∧
    (on_handshake_complete s status e).2.last_err = s.last_err := by
  obtain ⟨-, hsv, -, c4, c5, c6⟩ := cancel_handshake_timer_fields s
  have hsv2 : (cancel_handshake_timer s).is_server = true := hsv.trans hc
  have hs2 : ¬ status = PJ_SUCCESS := hs
  have key : (on_handshake_complete s status e).2 =
      if (e.win32 && (cancel_handshake_timer s).param.timer_heap) = true then
        if e.close_timer_status ≠ 0 then
          (pj_ssl_sock_close
            { ({ reset_ssl_sock_state (cancel_handshake_timer s) with
                  timer := timer_id.TIMER_CLOSE } : pj_ssl_sock_t) with
              timer := timer_id.TIMER_NONE }).2
        else { reset_ssl_sock_state (cancel_handshake_timer s) with
                timer := timer_id.TIMER_CLOSE }
      else (pj_ssl_sock_close (cancel_handshake_timer s)).2 := by
    unfold on_handshake_complete
    unfold cancel_handshake_timer at hsv2 ⊢
    simp only [if_neg hs2, hsv2, if_true, ne_eq, if_pos hs2]
    split_ifs <;> rfl
  obtain ⟨-, -, -, -, -, -, -, -, r9, r10, -⟩ :=
    reset_ssl_sock_state_fields (cancel_handshake_timer s)
  have r11 := reset_ssl_sock_state_cb_view (cancel_handshake_timer s)
  rw [key]
  split_ifs
  · obtain ⟨k1, k2, k3⟩ := pj_ssl_sock_close_keeps
      { ({ reset_ssl_sock_state (cancel_handshake_timer s) with
            timer := timer_id.TIMER_CLOSE } : pj_ssl_sock_t) with
        timer := timer_id.TIMER_NONE }
    exact ⟨k1.trans (r10.trans c4), k2.trans (r11.trans c5), k3.trans (r9.trans c6)⟩
  · exact ⟨r10.trans c4, r11.trans c5, r9.trans c6⟩
  · obtain ⟨k1, k2, k3⟩ := pj_ssl_sock_close_keeps (cancel_handshake_timer s)
    exact ⟨k1.trans c4, k2.trans c5, k3.trans c6⟩

/-- Claim C19.  For a client socket and a status other than `PJ_SUCCESS`,
`on_handshake_complete` resets the socket before it notifies: when
`on_connect_complete` is registered it is invoked once, with a status `st` other
than `PJ_SUCCESS`, and the socket `v` it finds has `ssl_state` NULL, session and
credentials destroyed, the active socket and the socket released and a timer
id other than `TIMER_HANDSHAKE_TIMEOUT`; when it is not registered nothing is
invoked.  In both cases the socket the function leaves looks the same as `v`. -/
theorem on_handshake_complete_client_failure (s : pj_ssl_sock_t) (status : Int) (e : env)
    (hc : s.is_server = false) (hs : status ≠ PJ_SUCCESS) :
    ∃ (st : Int) (v : sock_view),
      st ≠ PJ_SUCCESS ∧
      v.ssl_state = ssl_state.SSL_STATE_NULL ∧ v.session = false ∧ v.xcred = false ∧
      v.asock = none ∧ v.sock = none ∧ v.timer ≠ timer_id.TIMER_HANDSHAKE_TIMEOUT ∧
      (s.param.cb.on_connect_complete = true →
        (on_handshake_complete s status e).2.cb_log
          = s.cb_log ++ [cb_event.connect_complete st] ∧
        (on_handshake_complete s status e).2.cb_view = s.cb_view ++ [v]) ∧
      (s.param.cb.on_connect_complete = false →
        (on_handshake_complete s status e).2.cb_log = s.cb_log ∧
        (on_handshake_complete s status e).2.cb_view = s.cb_view) ∧
      (on_handshake_complete s status e).2.view = v := by
  obtain ⟨c1, -, -, c4, c5, -⟩ := cancel_handshake_timer_fields s
  obtain ⟨f1, f2, -, f4, f5, -⟩ := client_failure_fields s status e hs
  obtain ⟨h1, h2, h3, h4, h5, h6, -, -, -, h10, -⟩ :=
    reset_ssl_sock_state_fields (client_failure s status e).2
  have h11 := reset_ssl_sock_state_cb_view (client_failure s status e).2
  have heq := on_handshake_complete_client_eq s status e hc hs
  refine ⟨(client_failure s status e).1, (reset_ssl_sock_state (client_failure s status e).2).view,
    f1, h1, h2, h3, h4, h5, ?_, fun hcb => ?_, fun hcb => ?_, ?_⟩
  · show (reset_ssl_sock_state (client_failure s status e).2).timer ≠ _
    rw [h6, f2]; exact c1
  · rw [heq, if_pos hcb]
    refine ⟨?_, ?_⟩
    · show (reset_ssl_sock_state (client_failure s status e).2).cb_log ++ _ = _
      rw [h10, f4, c4]
    · show (reset_ssl_sock_state (client_failure s status e).2).cb_view ++ _ = _
      rw [h11, f5, c5]
  · have hcb2 : ¬ s.param.cb.on_connect_complete = true := by rw [hcb]; decide
    rw [heq, if_neg hcb2]
    exact ⟨by rw [h10, f4, c4], by rw [h11, f5, c5]⟩
  · rw [heq]
    split_ifs <;> rfl

/-- C19 at a concrete input: the handshaking client `sock_hs` told of a time-out. -/
theorem on_handshake_complete_client_failure_witness :
    ∃ (st : Int) (v : sock_view),
      st ≠ PJ_SUCCESS ∧
      v.ssl_state = ssl_state.SSL_STATE_NULL ∧ v.session = false ∧ v.xcred = false ∧
      v.asock = none ∧ v.sock = none ∧ v.timer ≠ timer_id.TIMER_HANDSHAKE_TIMEOUT ∧
      (sock_hs.param.cb.on_connect_complete = true →
        (on_handshake_complete sock_hs PJ_ETIMEDOUT env_ok).2.cb_log
          = sock_hs.cb_log ++ [cb_event.connect_complete st] ∧
        (on_handshake_complete sock_hs PJ_ETIMEDOUT env_ok).2.cb_view
          = sock_hs.cb_view ++ [v]) ∧
      (sock_hs.param.cb.on_connect_complete = false →
        (on_handshake_complete sock_hs PJ_ETIMEDOUT env_ok).2.cb_log = sock_hs.cb_log ∧
        (on_handshake_complete sock_hs PJ_ETIMEDOUT env_ok).2.cb_view = sock_hs.cb_view) ∧
      (on_handshake_complete sock_hs PJ_ETIMEDOUT env_ok).2.view = v :=
  on_handshake_complete_client_failure sock_hs PJ_ETIMEDOUT env_ok rfl (by decide)

/-- Claim C20, counterexample: the handshaking client `sock_hs` whose engine reports
the fatal error `-12` on the next handshake step has `on_connect_complete`
invoked with `PJ_ENOTFOUND`, a status below `PJ_SSL_ERRNO_START` and so no
image of the error mapper, and `last_err` stays 0. -/
theorem fatal_handshake_not_mapped :
    env_fatal.handshake_r = -12 ∧ env_fatal.error_is_fatal (-12) = true ∧
    (asock_on_data_read sock_hs true 10 PJ_SUCCESS env_fatal).2.cb_log
      = [cb_event.connect_complete PJ_ENOTFOUND] ∧
    ¬ (PJ_SSL_ERRNO_START ≤ PJ_ENOTFOUND) ∧
    (asock_on_data_read sock_hs true 10 PJ_SUCCESS env_fatal).2.last_err = 0 := by
  decide

/-- C20, amended: when the engine reports a fatal handshake error, `do_handshake`
returns the fixed status `PJ_ENOTFOUND` and leaves the socket alone, so what
every caller computes is `on_handshake_complete` with `PJ_ENOTFOUND`; so do the
read and the write completion of a socket in state HANDSHAKING.  For a client
with `on_connect_complete` registered that callback is invoked once with
`PJ_ENOTFOUND`, on a socket already reset; for a client without it and for a
server no callback is invoked.  `last_err` is left as it was in every case, and
`PJ_ENOTFOUND` is not a status of the error mapper, for any code. -/
theorem fatal_handshake_delivers_enotfound (s : pj_ssl_sock_t) (e : env)
    (hr : e.handshake_r ≠ GNUTLS_E_SUCCESS) (hf : e.error_is_fatal e.handshake_r = true) :
    do_handshake s e = (PJ_ENOTFOUND, s) ∧
    on_handshake_complete (do_handshake s e).2 (do_handshake s e).1 e
      = on_handshake_complete s PJ_ENOTFOUND e ∧
    (s.ssl_state = ssl_state.SSL_STATE_HANDSHAKING →
      (∀ (data : Bool) (size : Nat), asock_on_data_read s data size PJ_SUCCESS e
        = on_handshake_complete s PJ_ENOTFOUND e) ∧
      (∀ (send_key : Option Nat) (sent : Int), asock_on_data_sent s send_key sent e
        = on_handshake_complete s PJ_ENOTFOUND e)) ∧
    (s.is_server = false → s.param.cb.on_connect_complete = true →
      ∃ v : sock_view,
        (on_handshake_complete s PJ_ENOTFOUND e).2.cb_log
          = s.cb_log ++ [cb_event.connect_complete PJ_ENOTFOUND] ∧
        (on_handshake_complete s PJ_ENOTFOUND e).2.cb_view = s.cb_view ++ [v] ∧
        v.ssl_state = ssl_state.SSL_STATE_NULL ∧ v.session = false ∧ v.asock = none ∧
        v.sock = none) ∧
    (s.is_server = false → s.param.cb.on_connect_complete = false →
      (on_handshake_complete s PJ_ENOTFOUND e).2.cb_log = s.cb_log) ∧
    (s.is_server = true → (on_handshake_complete s PJ_ENOTFOUND e).2.cb_log = s.cb_log) ∧
    (on_handshake_complete s PJ_ENOTFOUND e).2.last_err = s.last_err ∧
    (∀ (s2 : pj_ssl_sock_t) (err queued : Nat),
      (STATUS_FROM_SSL_ERR s2 err queued).1 ≠ PJ_ENOTFOUND) := by
  have hd : do_handshake s e = (PJ_ENOTFOUND, s) := by
    simp [do_handshake, hr, hf]
  have hne : PJ_ENOTFOUND ≠ PJ_SUCCESS := by decide
  have hne2 : PJ_ENOTFOUND ≠ PJ_EEOF := by decide
  have hne3 : ¬ PJ_ENOTFOUND = PJ_EPENDING := by decide
  obtain ⟨-, -, -, c4, c5, c6⟩ := cancel_handshake_timer_fields s
  obtain ⟨-, -, -, -, -, f6⟩ := client_failure_fields s PJ_ENOTFOUND e hne
  have f7 := f6 hne2
  obtain ⟨h1, h2, -, h4, h5, -, -, -, h9, h10, -⟩ :=
    reset_ssl_sock_state_fields (cancel_handshake_timer s)
  have h11 := reset_ssl_sock_state_cb_view (cancel_handshake_timer s)
  refine ⟨hd, by rw [hd], fun hst => ⟨fun data size => ?_, fun send_key sent => ?_⟩,
    fun hc hcb => ?_, fun hc hcb => ?_, fun hc => ?_, ?_, fun s2 err queued h => ?_⟩
  · unfold asock_on_data_read
    rw [if_pos hst]
    simp only [if_true, hd, ne_eq, hne3, not_false_eq_true]
  · unfold asock_on_data_sent
    rw [if_pos hst]
    simp only [hd, ne_eq, hne3, not_false_eq_true, if_true]
  · have heq := on_handshake_complete_client_eq s PJ_ENOTFOUND e hc hne
    rw [if_pos hcb, f7] at heq
    refine ⟨(reset_ssl_sock_state (cancel_handshake_timer s)).view, ?_, ?_, h1, h2, h4, h5⟩
    · rw [heq]
      show (reset_ssl_sock_state (cancel_handshake_timer s)).cb_log ++ _ = _
      rw [h10, c4]
    · rw [heq]
      show (reset_ssl_sock_state (cancel_handshake_timer s)).cb_view ++ _ = _
      rw [h11, c5]
  · have heq := on_handshake_complete_client_eq s PJ_ENOTFOUND e hc hne
    have hcb2 : ¬ s.param.cb.on_connect_complete = true := by rw [hcb]; decide
    rw [if_neg hcb2, f7] at heq
    rw [heq, h10, c4]
  · exact (on_handshake_complete_server_failure s PJ_ENOTFOUND e hc hne).1
  · cases hsrv : s.is_server with
    | true => exact (on_handshake_complete_server_failure s PJ_ENOTFOUND e hsrv hne).2.2
    | false =>
      have heq := on_handshake_complete_client_eq s PJ_ENOTFOUND e hsrv hne
      rw [f7] at heq
      rw [heq]
      split_ifs
      · show (reset_ssl_sock_state (cancel_handshake_timer s)).last_err = _
        rw [h9, c6]
      · rw [h9, c6]
  · have := (STATUS_FROM_SSL_ERR_range s2 err queued).1
    rw [h] at this
    revert this
    decide

/-- C20 amended, at a concrete input: the handshaking client `sock_hs` with the
engine failing fatally. -/
theorem fatal_handshake_delivers_enotfound_witness :
    do_handshake sock_hs env_fatal = (PJ_ENOTFOUND, sock_hs) ∧
    asock_on_data_read sock_hs true 10 PJ_SUCCESS env_fatal
      = on_handshake_complete sock_hs PJ_ENOTFOUND env_fatal ∧
    (on_handshake_complete sock_hs PJ_ENOTFOUND env_fatal).2.last_err = sock_hs.last_err :=
  ⟨(fatal_handshake_delivers_enotfound sock_hs env_fatal (by decide) (by decide)).1,
   ((fatal_handshake_delivers_enotfound sock_hs env_fatal (by decide) (by decide)).2.2.1
      rfl).1 true 10,
   (fatal_handshake_delivers_enotfound sock_hs env_fatal (by decide)
      (by decide)).2.2.2.2.2.2.1⟩

/-! ### Certificate information -/

/-- For a certificate whose serial number fits the 20 bytes of the descriptor's
`serial_no`, a second `get_cert_info` on the descriptor the first one left finds
`update_needed` false (issuer string and serial number match) and returns the
descriptor as it is. -/
theorem get_cert_info_short_serial (ci : pj_ssl_cert_info) (cert : gnutls_x509_crt)
    (hs : cert.serial.length ≤ 20) :
    cert_update_needed (get_cert_info ci cert) cert = false ∧
    get_cert_info (get_cert_info ci cert) cert = get_cert_info ci cert := by
  have key : cert_update_needed (get_cert_info ci cert) cert = false := by
    by_cases h : cert_update_needed ci cert = false
    · have : get_cert_info ci cert = ci := by simp [get_cert_info, h]
      rw [this]; exact h
    · unfold get_cert_info
      rw [if_neg h]
      simp [cert_update_needed, List.take_take, Nat.min_eq_left hs]
  refine ⟨key, ?_⟩
  generalize get_cert_info ci cert = c at key
  simp [get_cert_info, key]

/-- The certificate `cert0`, whose serial has three bytes, read twice into a
zeroed descriptor. -/
theorem get_cert_info_short_serial_cert0 :
    cert_update_needed (get_cert_info pj_ssl_cert_info.zero cert0) cert0 = false ∧
    get_cert_info (get_cert_info pj_ssl_cert_info.zero cert0) cert0
      = get_cert_info pj_ssl_cert_info.zero cert0 :=
  get_cert_info_short_serial pj_ssl_cert_info.zero cert0 (by decide)

/-- For a serial number longer than the 20 bytes of `serial_no`, the test
`update_needed` is true for every descriptor. -/
theorem cert_update_needed_long (ci : pj_ssl_cert_info) (cert : gnutls_x509_crt)
    (hl : ci.serial_no.length ≤ 20) (hs : 20 < cert.serial.length) :
    cert_update_needed ci cert = true := by
  have hne : ci.serial_no.take cert.serial.length
      ≠ (serial_buf cert).take cert.serial.length := by
    intro h
    have h2 := congrArg List.length h
    simp only [serial_buf, List.length_take, List.length_append, List.length_replicate] at h2
    omega
  simp [cert_update_needed, hne]

/-- Claim C15, at the inputs where it fails: for a certificate whose serial number
is longer than the 20 bytes of the descriptor's `serial_no`, the second
`get_cert_info` finds `update_needed` true again, although the certificate is
the same: `pj_memcmp` compares `serialsize` bytes, more than the array the
first application filled with `sizeof(ci->serial_no)` bytes holds. -/
theorem get_cert_info_long_serial (ci : pj_ssl_cert_info) (cert : gnutls_x509_crt)
    (hl : ci.serial_no.length = 20) (hs : 20 < cert.serial.length) :
    (get_cert_info ci cert).serial_no = (serial_buf cert).take 20 ∧
    (get_cert_info ci cert).issuer_info = cert.issuer_dn ∧
    cert_update_needed (get_cert_info ci cert) cert = true := by
  have h1 : ¬ cert_update_needed ci cert = false := by
    rw [cert_update_needed_long ci cert (le_of_eq hl) hs]; decide
  have h2 : (get_cert_info ci cert).serial_no = (serial_buf cert).take 20 := by
    unfold get_cert_info
    rw [if_neg h1]
  have h3 : (get_cert_info ci cert).issuer_info = cert.issuer_dn := by
    unfold get_cert_info
    rw [if_neg h1]
  refine ⟨h2, h3, cert_update_needed_long _ cert ?_ hs⟩
  rw [h2]
  simp only [List.length_take]
  omega

/-- C15 at a concrete input: the certificate `cert_long`, whose serial has 21
bytes, read into a zeroed descriptor; the second application would find a
change. -/
theorem get_cert_info_long_serial_witness :
    cert_long.serial.length = 21 ∧
    cert_update_needed (get_cert_info pj_ssl_cert_info.zero cert_long) cert_long = true :=
  ⟨rfl, (get_cert_info_long_serial pj_ssl_cert_info.zero cert_long rfl (by decide)).2.2⟩

/-- Claim C16, at the input where it fails: for the name `O=Acme`, which has no
`CN=` marker, and an output string that held three characters, the resulting
`cn` has a NULL pointer and still the length 3, not 0: `pj_bzero(cn,
sizeof(cn))` clears the size of a pointer, which is the member `ptr` only. -/
theorem get_cn_from_gen_name_keeps_slen :
    pj_strstr { ptr := some ['O', '=', 'A', 'c', 'm', 'e'], slen := 6 }
      { ptr := some ['C', 'N', '='], slen := 3 } = none ∧
    get_cn_from_gen_name { ptr := some ['O', '=', 'A', 'c', 'm', 'e'], slen := 6 }
      { ptr := some ['o', 'l', 'd'], slen := 3 } = { ptr := none, slen := 3 } ∧
    (get_cn_from_gen_name { ptr := some ['O', '=', 'A', 'c', 'm', 'e'], slen := 6 }
      { ptr := some ['o', 'l', 'd'], slen := 3 }).slen ≠ 0 := by
  decide

/-! ### Timer expiry -/

/-- On the client path, for a status that is neither `PJ_SUCCESS` nor `PJ_EEOF` and
with `on_connect_complete` registered, `on_handshake_complete` cancels the
handshake timer, resets the socket and records one invocation of the callback
with that status. -/
theorem on_handshake_complete_client_fail_eq (s : pj_ssl_sock_t) (st : Int) (e : env)
    (hc : s.is_server = false) (h1 : st ≠ PJ_SUCCESS) (h2 : st ≠ PJ_EEOF)
    (hcb : s.param.cb.on_connect_complete = true) :
    (on_handshake_complete s st e).2 =
      notify (reset_ssl_sock_state (if s.timer = timer_id.TIMER_HANDSHAKE_TIMEOUT then
          { s with timer := timer_id.TIMER_NONE } else s)) (cb_event.connect_complete st) := by
  have heq := on_handshake_complete_client_eq s st e hc h1
  rw [if_pos hcb, (client_failure_fields s st e h1).2.2.2.2.2 h2] at heq
  exact heq

/-- Claim C21.  For a client socket whose handshake timer expires (timer id
`TIMER_HANDSHAKE_TIMEOUT`) and that has `on_connect_complete` registered,
`on_timer` leaves `ssl_state` NULL, session and credentials destroyed, the
socket released and the timer id `TIMER_NONE`, and records exactly one
invocation of `on_connect_complete`, with `PJ_ETIMEDOUT`; and the socket it
leaves is the one `on_handshake_complete` leaves for a fatal handshake status
`st` (any status other than `PJ_SUCCESS` and `PJ_EEOF`, such as the
`PJ_ENOTFOUND` of `do_handshake`), up to the status in that record. -/
theorem on_timer_handshake_timeout (s : pj_ssl_sock_t) (e : env) (st : Int)
    (hc : s.is_server = false) (ht : s.timer = timer_id.TIMER_HANDSHAKE_TIMEOUT)
    (hcb : s.param.cb.on_connect_complete = true)
    (h1 : st ≠ PJ_SUCCESS) (h2 : st ≠ PJ_EEOF) :
    (on_timer s e).ssl_state = ssl_state.SSL_STATE_NULL ∧
    (on_timer s e).session = false ∧ (on_timer s e).xcred = false ∧
    (on_timer s e).asock = none ∧ (on_timer s e).sock = none ∧
    (on_timer s e).timer = timer_id.TIMER_NONE ∧
    (on_timer s e).cb_log = s.cb_log ++ [cb_event.connect_complete PJ_ETIMEDOUT] ∧
    (on_handshake_complete s st e).2.cb_log = s.cb_log ++ [cb_event.connect_complete st] ∧
    on_timer s e = { (on_handshake_complete s st e).2 with
      cb_log := s.cb_log ++ [cb_event.connect_complete PJ_ETIMEDOUT] } := by
  have ht1 : on_timer s e =
      (on_handshake_complete { s with timer := timer_id.TIMER_NONE } PJ_ETIMEDOUT e).2 := by
    unfold on_timer
    simp only [ht]
  have e1 := on_handshake_complete_client_fail_eq { s with timer := timer_id.TIMER_NONE }
    PJ_ETIMEDOUT e hc (by decide) (by decide) hcb
  have e2 := on_handshake_complete_client_fail_eq s st e hc h1 h2 hcb
  rw [if_pos ht] at e2
  rw [if_neg (by simp)] at e1
  obtain ⟨g1, g2, g3, g4, g5, g6, -, -, -, g10, -⟩ :=
    reset_ssl_sock_state_fields { s with timer := timer_id.TIMER_NONE }
  rw [ht1, e1, e2]
  refine ⟨g1, g2, g3, g4, g5, g6, ?_, ?_, ?_⟩
  · show (reset_ssl_sock_state _).cb_log ++ _ = _
    rw [g10]
  · show (reset_ssl_sock_state _).cb_log ++ _ = _
    rw [g10]
  · simp only [notify, g10]

/-- C21 at a concrete input: the handshaking client `sock_hs`, compared with the
status `PJ_ENOTFOUND` of a fatal handshake error. -/
theorem on_timer_handshake_timeout_witness :
    (on_timer sock_hs env_ok).ssl_state = ssl_state.SSL_STATE_NULL ∧
    (on_timer sock_hs env_ok).timer = timer_id.TIMER_NONE ∧
    (on_timer sock_hs env_ok).cb_log = [cb_event.connect_complete PJ_ETIMEDOUT] ∧
    on_timer sock_hs env_ok = { (on_handshake_complete sock_hs PJ_ENOTFOUND env_ok).2 with
      cb_log := sock_hs.cb_log ++ [cb_event.connect_complete PJ_ETIMEDOUT] } :=
  ⟨(on_timer_handshake_timeout sock_hs env_ok PJ_ENOTFOUND rfl rfl rfl (by decide)
      (by decide)).1,
   (on_timer_handshake_timeout sock_hs env_ok PJ_ENOTFOUND rfl rfl rfl (by decide)
      (by decide)).2.2.2.2.2.1,
   (on_timer_handshake_timeout sock_hs env_ok PJ_ENOTFOUND rfl rfl rfl (by decide)
      (by decide)).2.2.2.2.2.2.1,
   (on_timer_handshake_timeout sock_hs env_ok PJ_ENOTFOUND rfl rfl rfl (by decide)
      (by decide)).2.2.2.2.2.2.2.2⟩

/-! ### Read completion -/

/-- The fields the engine write leaves alone. -/
theorem ssl_write_frame (s : pj_ssl_sock_t) (k d n f : Nat) (w : Int) :
    (ssl_write s k d n f w).2.ssl_state = s.ssl_state ∧
    (ssl_write s k d n f w).2.state_log = s.state_log ∧
    (ssl_write s k d n f w).2.cb_log = s.cb_log ∧
    (ssl_write s k d n f w).2.asock = s.asock ∧
    (ssl_write s k d n f w).2.sock = s.sock ∧
    (ssl_write s k d n f w).2.param = s.param ∧
    (ssl_write s k d n f w).2.is_server = s.is_server ∧
    (ssl_write s k d n f w).2.timer = s.timer ∧
    (ssl_write s k d n f w).2.pool = s.pool ∧
    (ssl_write s k d n f w).2.session = s.session := by
  unfold ssl_write
  split_ifs <;> exact ⟨rfl, rfl, rfl, rfl, rfl, rfl, rfl, rfl, rfl, rfl⟩

/-- The fields the flush loop leaves alone. -/
theorem flush_loop_frame (pend : List write_data_t) :
    ∀ (s : pj_ssl_sock_t) (rs : Nat → Int),
      (flush_loop s pend rs).2.ssl_state = s.ssl_state ∧
      (flush_loop s pend rs).2.state_log = s.state_log ∧
      (flush_loop s pend rs).2.cb_log = s.cb_log ∧
      (flush_loop s pend rs).2.asock = s.asock ∧
      (flush_loop s pend rs).2.sock = s.sock ∧
      (flush_loop s pend rs).2.param = s.param ∧
      (flush_loop s pend rs).2.is_server = s.is_server ∧
      (flush_loop s pend rs).2.timer = s.timer ∧
      (flush_loop s pend rs).2.pool = s.pool ∧
      (flush_loop s pend rs).2.session = s.session := by
  induction pend with
  | nil => intro s rs; exact ⟨rfl, rfl, rfl, rfl, rfl, rfl, rfl, rfl, rfl, rfl⟩
  | cons wp rest ih =>
    intro s rs
    obtain ⟨h1, h2, h3, h4, h5, h6, h7, h8, h9, h10⟩ :=
      ssl_write_frame s wp.self wp.data_ptr wp.plain_data_len wp.flags (rs 0)
    simp only [flush_loop]
    split_ifs with h
    · exact ⟨h1, h2, h3, h4, h5, h6, h7, h8, h9, h10⟩
    · obtain ⟨g1, g2, g3, g4, g5, g6, g7, g8, g9, g10⟩ := ih
        { (ssl_write s wp.self wp.data_ptr wp.plain_data_len wp.flags (rs 0)).2 with
          write_pending := rest
          write_pending_empty :=
            (ssl_write s wp.self wp.data_ptr wp.plain_data_len wp.flags (rs 0)).2.write_pending_empty
              ++ [wp] }
        (fun i => rs (i + 1))
      exact ⟨g1.trans h1, g2.trans h2, g3.trans h3, g4.trans h4, g5.trans h5, g6.trans h6,
        g7.trans h7, g8.trans h8, g9.trans h9, g10.trans h10⟩

/-- The fields the flush leaves alone. -/
theorem flush_delayed_send_frame (s : pj_ssl_sock_t) (e : env) :
    (flush_delayed_send s e).2.ssl_state = s.ssl_state ∧
    (flush_delayed_send s e).2.state_log = s.state_log ∧
    (flush_delayed_send s e).2.cb_log = s.cb_log ∧
    (flush_delayed_send s e).2.asock = s.asock ∧
    (flush_delayed_send s e).2.sock = s.sock ∧
    (flush_delayed_send s e).2.param = s.param ∧
    (flush_delayed_send s e).2.is_server = s.is_server ∧
    (flush_delayed_send s e).2.timer = s.timer ∧
    (flush_delayed_send s e).2.pool = s.pool ∧
    (flush_delayed_send s e).2.session = s.session := by
  unfold flush_delayed_send
  split_ifs
  · exact ⟨rfl, rfl, rfl, rfl, rfl, rfl, rfl, rfl, rfl, rfl⟩
  · exact flush_loop_frame _ _ _

/-- Claim C22, at the input where it fails: the established socket `sock_reading`
receives data, the engine's decrypt call and the handshake step that follows
both report that they would block; `asock_on_data_read` returns false although
no callback of the application was invoked and the socket is as it was,
ESTABLISHED and with its event-layer socket. -/
theorem asock_on_data_read_false_but_alive :
    asock_on_data_read sock_reading true 10 PJ_SUCCESS { env_again with record_recv_r := -28 }
      = (false, sock_reading) ∧
    sock_reading.ssl_state = ssl_state.SSL_STATE_ESTABLISHED ∧
    sock_reading.asock.isSome = true ∧ sock_reading.cb_log = [] := by
  decide

/-- Claim C23, counterexample: on the established socket `sock_reading` with one
delayed send queued, when the decrypt call reports that it would block and the
status of the event layer is `PJ_SUCCESS`, `asock_on_data_read` makes a
handshake step (the state is assigned again), flushes the delayed send to the
engine, and returns false. -/
theorem asock_on_data_read_would_block_renegotiates :
    (asock_on_data_read (delay_sends sock_reading [(⟨1, 100, 10, 0⟩, env_ok)]) true 10 PJ_SUCCESS
      { env_ok with record_recv_r := -28 }).1 = false ∧
    (asock_on_data_read (delay_sends sock_reading [(⟨1, 100, 10, 0⟩, env_ok)]) true 10 PJ_SUCCESS
      { env_ok with record_recv_r := -28 }).2.state_log
        = [ssl_state.SSL_STATE_ESTABLISHED] ∧
    (delay_sends sock_reading [(⟨1, 100, 10, 0⟩, env_ok)]).engine_log = [] ∧
    (asock_on_data_read (delay_sends sock_reading [(⟨1, 100, 10, 0⟩, env_ok)]) true 10 PJ_SUCCESS
      { env_ok with record_recv_r := -28 }).2.engine_log = [(100, 10, 0)] := by
  decide

/-- The flush loop leaves `read_started` alone. -/
theorem flush_loop_read_started (pend : List write_data_t) :
    ∀ (s : pj_ssl_sock_t) (rs : Nat → Int),
      (flush_loop s pend rs).2.read_started = s.read_started := by
  induction pend with
  | nil => intro s rs; rfl
  | cons wp rest ih =>
    intro s rs
    have h1 : (ssl_write s wp.self wp.data_ptr wp.plain_data_len wp.flags (rs 0)).2.read_started
        = s.read_started := by
      unfold ssl_write
      split_ifs <;> rfl
    simp only [flush_loop]
    split_ifs with h
    · exact h1
    · exact (ih _ _).trans h1

/-- The flush leaves `read_started` alone. -/
theorem flush_delayed_send_read_started (s : pj_ssl_sock_t) (e : env) :
    (flush_delayed_send s e).2.read_started = s.read_started := by
  unfold flush_delayed_send
  split_ifs
  · rfl
  · exact flush_loop_read_started _ _ _

/-- The exit `on_error` of the read completion on a socket out of state
HANDSHAKING on which reading was started: with `on_data_read` registered the
callback is invoked with no data and the status, and the socket is reset
unless the callback returns false; without it the socket is reset. -/
theorem asock_on_data_read_on_error_fields (x : pj_ssl_sock_t) (st : Int) (e : env)
    (hx : x.ssl_state ≠ ssl_state.SSL_STATE_HANDSHAKING) (hr : x.read_started = true) :
    (x.param.cb.on_data_read = true →
      (asock_on_data_read_on_error x st e).2.cb_log
        = x.cb_log ++ [cb_event.data_read false 0 st] ∧
      (e.cb_read_ret = false →
        asock_on_data_read_on_error x st e
          = (false, notify x (cb_event.data_read false 0 st))) ∧
      (e.cb_read_ret = true →
        asock_on_data_read_on_error x st e
          = (false, reset_ssl_sock_state (notify x (cb_event.data_read false 0 st))))) ∧
    (x.param.cb.on_data_read = false →
      asock_on_data_read_on_error x st e = (false, reset_ssl_sock_state x)) := by
  refine ⟨fun hcb => ?_, fun hcb => ?_⟩
  · have hc : (x.read_started && x.param.cb.on_data_read) = true := by simp [hr, hcb]
    have h10 := (reset_ssl_sock_state_fields (notify x (cb_event.data_read false 0 st))).2.2.2.2.2.2.2.2.2.1
    unfold asock_on_data_read_on_error
    rw [if_neg hx, if_pos hc]
    dsimp only
    refine ⟨?_, fun hret => ?_, fun hret => ?_⟩
    · split_ifs
      · rfl
      · exact h10
    · rw [if_pos hret]
    · rw [if_neg (by rw [hret]; decide)]
  · have hc : ¬ (x.read_started && x.param.cb.on_data_read) = true := by simp [hcb]
    unfold asock_on_data_read_on_error
    rw [if_neg hx, if_neg hc]

/-- C23, amended: on an established socket with reading started, when data arrives,
the decrypt call returns the would-block sentinel and the status of the event
layer is `PJ_SUCCESS`, `asock_on_data_read` makes one handshake step.  When the
step is pending the socket is left as it was and no callback is invoked.  When
it succeeds the certificate information is updated and the delayed sends are
flushed; the flush ends with `PJ_SUCCESS`, `PJ_EBUSY` or `PJ_ENOMEM`, and for
the first two the socket is the one the flush left and no callback is invoked.
When the step fails fatally (`PJ_ENOTFOUND`) or the flush fails (`PJ_ENOMEM`),
the function takes its exit `on_error` with that status: with `on_data_read`
registered the callback is invoked with no data and that status.  When the
status of the event layer is not `PJ_SUCCESS`, the result does not depend on
the handshake step. -/
theorem asock_on_data_read_would_block (s : pj_ssl_sock_t) (size : Nat) (e : env)
    (hst : s.ssl_state = ssl_state.SSL_STATE_ESTABLISHED) (hrs : s.read_started = true)
    (hsz : size > 0) (hag : e.record_recv_r = GNUTLS_E_AGAIN) :
    (e.handshake_r ≠ GNUTLS_E_SUCCESS → e.error_is_fatal e.handshake_r = false →
      (asock_on_data_read s true size PJ_SUCCESS e).2 = s) ∧
    (e.handshake_r = GNUTLS_E_SUCCESS →
      ((flush_delayed_send (update_certs_info (do_handshake s e).2 e) e).1 = PJ_SUCCESS ∨
       (flush_delayed_send (update_certs_info (do_handshake s e).2 e) e).1 = PJ_EBUSY) →
      (asock_on_data_read s true size PJ_SUCCESS e).2 =
        (flush_delayed_send (update_certs_info (do_handshake s e).2 e) e).2 ∧
      (asock_on_data_read s true size PJ_SUCCESS e).2.cb_log = s.cb_log) ∧
    (∀ (status r : Int), status ≠ PJ_SUCCESS →
      asock_on_data_read s true size status { e with handshake_r := r }
        = asock_on_data_read s true size status e) ∧
    (e.handshake_r ≠ GNUTLS_E_SUCCESS → e.error_is_fatal e.handshake_r = true →
      asock_on_data_read s true size PJ_SUCCESS e
        = asock_on_data_read_on_error s PJ_ENOTFOUND e ∧
      (s.param.cb.on_data_read = true →
        (asock_on_data_read s true size PJ_SUCCESS e).2.cb_log
          = s.cb_log ++ [cb_event.data_read false 0 PJ_ENOTFOUND])) ∧
    (e.handshake_r = GNUTLS_E_SUCCESS →
      ((flush_delayed_send (update_certs_info (do_handshake s e).2 e) e).1 = PJ_SUCCESS ∨
       (flush_delayed_send (update_certs_info (do_handshake s e).2 e) e).1 = PJ_EBUSY ∨
       (flush_delayed_send (update_certs_info (do_handshake s e).2 e) e).1 = PJ_ENOMEM) ∧
      ((flush_delayed_send (update_certs_info (do_handshake s e).2 e) e).1 = PJ_ENOMEM →
        asock_on_data_read s true size PJ_SUCCESS e
          = asock_on_data_read_on_error
              (flush_delayed_send (update_certs_info (do_handshake s e).2 e) e).2 PJ_ENOMEM e ∧
        (s.param.cb.on_data_read = true →
          (asock_on_data_read s true size PJ_SUCCESS e).2.cb_log
            = s.cb_log ++ [cb_event.data_read false 0 PJ_ENOMEM]))) := by
  have hne : ¬ s.ssl_state = ssl_state.SSL_STATE_HANDSHAKING := by rw [hst]; decide
  have hcond : (true && decide (size > 0) && s.read_started) = true := by simp [hsz, hrs]
  have hag1 : ¬ e.record_recv_r > 0 := by rw [hag]; decide
  have hag2 : ¬ (e.record_recv_r ≠ GNUTLS_E_SUCCESS ∧ e.record_recv_r ≠ GNUTLS_E_AGAIN) := by
    rw [hag]; decide
  have hmain : asock_on_data_read s true size PJ_SUCCESS e =
      (if (do_handshake s e).1 = PJ_SUCCESS then
        (if (if (flush_delayed_send (update_certs_info (do_handshake s e).2 e) e).1 = PJ_EBUSY
              then PJ_SUCCESS
              else (flush_delayed_send (update_certs_info (do_handshake s e).2 e) e).1)
              ≠ PJ_SUCCESS ∧
            (if (flush_delayed_send (update_certs_info (do_handshake s e).2 e) e).1 = PJ_EBUSY
              then PJ_SUCCESS
              else (flush_delayed_send (update_certs_info (do_handshake s e).2 e) e).1)
              ≠ PJ_EPENDING then
          asock_on_data_read_on_error
            (flush_delayed_send (update_certs_info (do_handshake s e).2 e) e).2
            (if (flush_delayed_send (update_certs_info (do_handshake s e).2 e) e).1 = PJ_EBUSY
              then PJ_SUCCESS
              else (flush_delayed_send (update_certs_info (do_handshake s e).2 e) e).1) e
        else (false, (flush_delayed_send (update_certs_info (do_handshake s e).2 e) e).2))
      else if (do_handshake s e).1 ≠ PJ_EPENDING then
        asock_on_data_read_on_error (do_handshake s e).2 (do_handshake s e).1 e
      else (false, (do_handshake s e).2)) := by
    unfold asock_on_data_read
    rw [if_neg hne, if_pos hcond]
    simp only [ne_eq, not_true_eq_false, or_false, if_neg hag1, if_neg hag2]
  refine ⟨fun h1 h2 => ?_, fun h1 h2 => ?_, fun status r hs => ?_, fun h1 h2 => ?_,
    fun h1 => ⟨flush_delayed_send_status _ e, fun h2 => ?_⟩⟩
  · have hd : do_handshake s e = (PJ_EPENDING, s) := by
      simp [do_handshake, h1, h2]
    rw [hmain, hd]
    simp only [show ¬ PJ_EPENDING = PJ_SUCCESS by decide, if_false, ne_eq, not_true_eq_false]
  · have hd : (do_handshake s e).1 = PJ_SUCCESS := by
      simp [do_handshake, h1]
    have hfl : (flush_delayed_send (update_certs_info (do_handshake s e).2 e) e).2.cb_log
        = s.cb_log := by
      have hd2 : (do_handshake s e).2 = set_ssl_state s ssl_state.SSL_STATE_ESTABLISHED := by
        simp [do_handshake, h1]
      rw [hd2, (flush_delayed_send_frame _ e).2.2.1]
      rfl
    rw [hmain, if_pos hd]
    rcases h2 with h2 | h2
    · rw [h2]
      simp only [show ¬ PJ_SUCCESS = PJ_EBUSY by decide, if_false, ne_eq, not_true_eq_false,
        false_and]
      exact ⟨trivial, hfl⟩
    · rw [h2]
      simp only [if_true, ne_eq, not_true_eq_false, false_and, if_false]
      exact ⟨trivial, hfl⟩
  · have hs2 : ¬ status = PJ_SUCCESS := hs
    unfold asock_on_data_read
    simp only [if_neg hne, if_pos hcond, ne_eq, hs2, not_false_eq_true, or_true, if_true]
  · have hd : do_handshake s e = (PJ_ENOTFOUND, s) := by
      simp [do_handshake, h1, h2]
    have heq : asock_on_data_read s true size PJ_SUCCESS e
        = asock_on_data_read_on_error s PJ_ENOTFOUND e := by
      rw [hmain, hd]
      simp only [show ¬ PJ_ENOTFOUND = PJ_SUCCESS by decide, if_false, ne_eq,
        show ¬ PJ_ENOTFOUND = PJ_EPENDING by decide, not_false_eq_true, if_true]
    refine ⟨heq, fun hcb => ?_⟩
    rw [heq]
    exact ((asock_on_data_read_on_error_fields s PJ_ENOTFOUND e hne hrs).1 hcb).1
  · have hd : (do_handshake s e).1 = PJ_SUCCESS := by
      simp [do_handshake, h1]
    have hd2 : (do_handshake s e).2 = set_ssl_state s ssl_state.SSL_STATE_ESTABLISHED := by
      simp [do_handshake, h1]
    obtain ⟨k1, -, k3, -, -, k6, -⟩ :=
      flush_delayed_send_frame (update_certs_info (do_handshake s e).2 e) e
    have k7 := flush_delayed_send_read_started (update_certs_info (do_handshake s e).2 e) e
    have heq : asock_on_data_read s true size PJ_SUCCESS e
        = asock_on_data_read_on_error
            (flush_delayed_send (update_certs_info (do_handshake s e).2 e) e).2 PJ_ENOMEM e := by
      rw [hmain, if_pos hd, h2]
      simp only [show ¬ PJ_ENOMEM = PJ_EBUSY by decide, if_false, ne_eq,
        show ¬ PJ_ENOMEM = PJ_SUCCESS by decide, show ¬ PJ_ENOMEM = PJ_EPENDING by decide,
        not_false_eq_true, and_self, if_true]
    refine ⟨heq, fun hcb => ?_⟩
    have hx : (flush_delayed_send (update_certs_info (do_handshake s e).2 e) e).2.ssl_state
        ≠ ssl_state.SSL_STATE_HANDSHAKING := by
      rw [k1, hd2]; simp [update_certs_info, set_ssl_state]
    have hr : (flush_delayed_send (update_certs_info (do_handshake s e).2 e) e).2.read_started
        = true := by
      rw [k7, hd2]; exact hrs
    have hcb2 : (flush_delayed_send (update_certs_info (do_handshake s e).2 e)
        e).2.param.cb.on_data_read = true := by
      rw [k6, hd2]; exact hcb
    rw [heq, ((asock_on_data_read_on_error_fields _ PJ_ENOMEM e hx hr).1 hcb2).1, k3, hd2]
    rfl

/-- C23 amended, at a concrete input: the socket `sock_reading` is left as it was
when the decrypt call and the handshake step would block. -/
theorem asock_on_data_read_would_block_witness :
    (asock_on_data_read sock_reading true 10 PJ_SUCCESS
      { env_again with record_recv_r := -28 }).2 = sock_reading :=
  (asock_on_data_read_would_block sock_reading 10 { env_again with record_recv_r := -28 }
    rfl rfl (by decide) rfl).1 (by decide) (by decide)

/-- Claim C24, at the input where it fails: on the established socket
`sock_reading` the decrypt call returns `-9`, a negative result other than the
would-block sentinel; `asock_on_data_read` resets the socket and invokes the
read callback with no data, but with the status `PJ_SUCCESS`. -/
theorem asock_on_data_read_error_status_success :
    (asock_on_data_read sock_reading true 10 PJ_SUCCESS { env_ok with record_recv_r := -9 }).1
      = false ∧
    (asock_on_data_read sock_reading true 10 PJ_SUCCESS
      { env_ok with record_recv_r := -9 }).2.ssl_state = ssl_state.SSL_STATE_NULL ∧
    (asock_on_data_read sock_reading true 10 PJ_SUCCESS
      { env_ok with record_recv_r := -9 }).2.cb_log
        = [cb_event.data_read false 0 PJ_SUCCESS] := by
  decide

/-! ### Certificate verification -/

/-- Claim C25, at the input where it fails: for an X.509 certificate whose chain
verifies and that the engine can import (as DER or else as PEM), when the
hostname check answers 0, the engine's answer for a name that does not match,
`verify_callback` returns 0 and leaves the socket as it was, so `verify_status`
gains no flag, whether `verify_peer` is enabled or not: the test after
`gnutls_x509_crt_check_hostname` is `ret < 0`, which the answer 0 passes. -/
theorem verify_callback_hostname_mismatch_accepted (s : pj_ssl_sock_t) (v : verify_session)
    (hvr : ¬ v.verify_peers_ret < 0)
    (hvs : has_bit v.verify_peers_status GNUTLS_CERT_INVALID = false)
    (hin : ¬ v.crt_init_ret < 0) (hpe : v.peers_found = true)
    (him : ¬ (if v.import_der_ret < 0 then v.import_pem_ret else v.import_der_ret) < 0)
    (hh : v.check_hostname_ret = 0) :
    verify_callback s v = (0, s) ∧
    (verify_callback s v).1 ≠ GNUTLS_E_CERTIFICATE_ERROR ∧
    (verify_callback s v).2.verify_status = s.verify_status := by
  have h0 : ¬ ((if v.certificate_type ≠ GNUTLS_CRT_X509 then (1 : Int) else 0) < 0) := by
    split_ifs <;> decide
  have hh2 : ¬ v.check_hostname_ret < 0 := by rw [hh]; decide
  have key : verify_callback s v = (0, s) := by
    by_cases hp : s.param.verify_peer = true
    · unfold verify_callback
      simp only [if_neg h0, if_neg hvr, hvs, Bool.false_eq_true, if_false, hp, if_true,
        if_neg hin, hpe, Bool.not_true, if_neg him, if_neg hh2]
    · unfold verify_callback
      simp only [if_neg h0, if_neg hvr, hvs, Bool.false_eq_true, if_false, if_neg hp]
  refine ⟨key, ?_, ?_⟩
  · rw [key]
    show (0 : Int) ≠ GNUTLS_E_CERTIFICATE_ERROR
    decide
  · rw [key]

/-- C25 at a concrete input: `verify_peer` is enabled, the chain verifies and the
hostname check answers 0 (no match); the callback returns 0 and `verify_status`
stays 0. -/
theorem verify_callback_hostname_mismatch_accepted_witness :
    ({ sock0 with param := { param0 with verify_peer := true } } : pj_ssl_sock_t).param.verify_peer
      = true ∧
    verify_callback { sock0 with param := { param0 with verify_peer := true } }
        { verify_ok with check_hostname_ret := 0 }
      = (0, { sock0 with param := { param0 with verify_peer := true } }) ∧
    (verify_callback { sock0 with param := { param0 with verify_peer := true } }
        { verify_ok with check_hostname_ret := 0 }).2.verify_status = 0 :=
  ⟨rfl,
   (verify_callback_hostname_mismatch_accepted
      { sock0 with param := { param0 with verify_peer := true } }
      { verify_ok with check_hostname_ret := 0 } (by decide) (by decide) (by decide) rfl
      (by decide) rfl).1,
   (verify_callback_hostname_mismatch_accepted
      { sock0 with param := { param0 with verify_peer := true } }
      { verify_ok with check_hostname_ret := 0 } (by decide) (by decide) (by decide) rfl
      (by decide) rfl).2.2⟩

/-- Claim C28, at the input where it fails: for a session whose certificate type is
OpenPGP (2, not `GNUTLS_CRT_X509`), `verify_callback` does not add
`PJ_SSL_CERT_EINVALID_FORMAT` and returns 0; it goes on to the engine's peer
verification, whose failure shows in the result.  The test reads `ret < 0`
with `ret` the truth value of the comparison, which is 0 or 1. -/
theorem verify_callback_accepts_other_type :
    verify_callback sock0 { verify_ok with certificate_type := 2 } = (0, sock0) ∧
    (verify_callback sock0 { verify_ok with certificate_type := 2 }).2.verify_status &&&
      PJ_SSL_CERT_EINVALID_FORMAT = 0 ∧
    verify_callback sock0 { verify_ok with certificate_type := 2, verify_peers_ret := -1 }
      = (GNUTLS_E_CERTIFICATE_ERROR, { sock0 with verify_status := PJ_SSL_CERT_EUNKNOWN }) := by
  decide

/-! ### Socket info -/

/-- Claim C27.  `pj_ssl_sock_get_info` returns `PJ_SUCCESS` and leaves the socket as
it is; `established` is true exactly when `ssl_state` is
`SSL_STATE_ESTABLISHED`; protocol, local address and `last_native_err` are
copied from the socket; when not established, cipher, remote address and
`verify_status` are zero and both descriptor references are NULL; when
established, the references are to the socket's local and remote descriptors,
`verify_status` is the socket's, the remote address is the socket's and the
cipher is the engine's current cipher masked to 24 bits. -/
theorem pj_ssl_sock_get_info_fields (s : pj_ssl_sock_t) (e : env) :
    (pj_ssl_sock_get_info s e).1 = PJ_SUCCESS ∧
    (pj_ssl_sock_get_info s e).2.2 = s ∧
    ((pj_ssl_sock_get_info s e).2.1.established = true ↔
      s.ssl_state = ssl_state.SSL_STATE_ESTABLISHED) ∧
    (pj_ssl_sock_get_info s e).2.1.proto = s.param.proto ∧
    (pj_ssl_sock_get_info s e).2.1.local_addr = s.local_addr ∧
    (pj_ssl_sock_get_info s e).2.1.last_native_err = s.last_err ∧
    (s.ssl_state ≠ ssl_state.SSL_STATE_ESTABLISHED →
      (pj_ssl_sock_get_info s e).2.1.cipher = 0 ∧
      (pj_ssl_sock_get_info s e).2.1.remote_addr = 0 ∧
      (pj_ssl_sock_get_info s e).2.1.verify_status = 0 ∧
      (pj_ssl_sock_get_info s e).2.1.local_cert_info = none ∧
      (pj_ssl_sock_get_info s e).2.1.remote_cert_info = none) ∧
    (s.ssl_state = ssl_state.SSL_STATE_ESTABLISHED →
      (pj_ssl_sock_get_info s e).2.1.cipher = e.cipher_get % 2 ^ 24 ∧
      (pj_ssl_sock_get_info s e).2.1.remote_addr = s.rem_addr ∧
      (pj_ssl_sock_get_info s e).2.1.verify_status = s.verify_status ∧
      (pj_ssl_sock_get_info s e).2.1.local_cert_info = some s.local_cert_info ∧
      (pj_ssl_sock_get_info s e).2.1.remote_cert_info = some s.remote_cert_info) := by
  refine ⟨rfl, rfl, ?_, rfl, rfl, rfl, fun h => ?_, fun h => ?_⟩
  · simp [pj_ssl_sock_get_info]
  · simp [pj_ssl_sock_get_info, h]
  · simp [pj_ssl_sock_get_info, h]

/-- C27 at concrete inputs: the info of the fresh socket `sock0` has no descriptor
references, that of the established socket `sock_est` has both. -/
theorem pj_ssl_sock_get_info_fields_witness :
    (pj_ssl_sock_get_info sock0 env_ok).2.1.local_cert_info = none ∧
    (pj_ssl_sock_get_info sock_est env_ok).2.1.local_cert_info
      = some sock_est.local_cert_info ∧
    (pj_ssl_sock_get_info sock_est env_ok).2.1.cipher = 7 :=
  ⟨((pj_ssl_sock_get_info_fields sock0 env_ok).2.2.2.2.2.2.1 (by decide)).2.2.2.1,
   ((pj_ssl_sock_get_info_fields sock_est env_ok).2.2.2.2.2.2.2 rfl).2.2.2.1,
   ((pj_ssl_sock_get_info_fields sock_est env_ok).2.2.2.2.2.2.2 rfl).1⟩

/-! ### Cipher table -/

/-- The loop of `init_openssl` ends with `i` at most `MAX_CIPHERS`. -/
theorem init_openssl_loop_le (suites : List cipher_suite) :
    ∀ (k i : Nat) (t : cipher_table), k + i = MAX_CIPHERS + 1 → i ≤ MAX_CIPHERS →
      (init_openssl_loop suites k i t).1 ≤ MAX_CIPHERS := by
  intro k
  induction k with
  | zero => intro i t h hi; omega
  | succ k ih =>
    intro i t h hi
    simp only [init_openssl_loop]
    split
    · split_ifs with hlt
      · exact ih _ _ (by omega) hlt
      · exact hi
    · exact hi

/-- After `init_openssl`, `openssl_cipher_num` is at most `MAX_CIPHERS`, when the
table was not filled before. -/
theorem init_openssl_num_le (t : cipher_table) (suites : List cipher_suite)
    (h : t.openssl_cipher_num = 0) :
    (init_openssl t suites).2.openssl_cipher_num ≤ MAX_CIPHERS := by
  unfold init_openssl
  rw [if_pos h]
  exact init_openssl_loop_le suites _ _ _ rfl (Nat.zero_le _)

set_option maxRecDepth 100000 in
/-- Claim C30, at the input where it fails: when the engine enumerates 100 cipher
suites (`MAX_CIPHERS`), the last store of `init_openssl` is at index 100, past
the end of `openssl_ciphers[MAX_CIPHERS]`: `openssl_ciphers[i].id = 0` comes
before the test `i < PJ_ARRAY_SIZE(openssl_ciphers)`.  `openssl_cipher_num` is
100 afterwards. -/
theorem init_openssl_writes_past_table :
    (init_openssl cipher_table.zero (List.replicate 100 suite_rsa)).2.writes.getLast?
      = some MAX_CIPHERS ∧
    (init_openssl cipher_table.zero (List.replicate 100 suite_rsa)).2.writes.all
      (fun i => decide (i < MAX_CIPHERS)) = false ∧
    (init_openssl cipher_table.zero (List.replicate 100 suite_rsa)).2.openssl_cipher_num
      = MAX_CIPHERS := by
  decide

/-! ### Cipher priorities -/

set_option maxRecDepth 1000000 in
/-- Claim C26, at inputs where it fails.  With the one configured cipher
`suite_long` the priority string has 1014 characters when the compression is
appended; `tls_str_append_once` returns `PJ_ETOOMANY` for it, the result is
not looked at, and `tls_priorities_set` hands the string without `COMP-NULL` to
the engine and returns `PJ_SUCCESS`.  With the second cipher `suite_long2`
configured as well, the append of its cipher algorithm does not fit either and
is dropped in the same way: the status of that append is not assigned. -/
theorem tls_priorities_set_ignores_full_buffer :
    long_list.length = 1014 ∧
    (tls_str_append_once (pj_str long_list) (pj_str "COMP-NULL".toList)).1 = PJ_ETOOMANY ∧
    tls_priorities_set { sock0 with param := { param0 with ciphers := [47] } } [suite_long] 0
      = (PJ_SUCCESS, some long_list) ∧
    (tls_str_append_once (pj_str long_list) (pj_str suite_long2.algo)).1 = PJ_ETOOMANY ∧
    tls_priorities_set { sock0 with param := { param0 with ciphers := [47, 51] } }
      [suite_long, suite_long2] 0 = (PJ_SUCCESS, some long_list) := by
  decide

/-- Claim C29, at the input where it fails: with the configured ciphers 0x0033
(key exchange `DHE-RSA`) and 0x002F (key exchange `RSA`), both known to the
engine, `tls_priorities_set` returns `PJ_SUCCESS` and hands the engine a
string without the token `:+RSA`: `tls_str_append_once` finds `RSA` inside
`:+DHE-RSA` and appends nothing. -/
theorem tls_priorities_set_drops_token :
    suite_rsa.id = 47 ∧ suite_rsa.kx = "RSA".toList ∧
    tls_priorities_set { sock0 with param := { param0 with ciphers := [51, 47] } } suites0 0
      = (PJ_SUCCESS, some "NONE:+VERS-SSL3.0:+AES-128-CBC:+SHA1:+DHE-RSA:+COMP-NULL".toList) ∧
    has_token "NONE:+VERS-SSL3.0:+AES-128-CBC:+SHA1:+DHE-RSA:+COMP-NULL".toList "RSA".toList
      = false := by
  decide

/-! ### The state machine of `ssl_state` -/

/-- Allowed assignments made one after the other are allowed assignments. -/
theorem steps_ok_append (l1 : List ssl_state) :
    ∀ (a : ssl_state) (l2 : List ssl_state), steps_ok a l1 → steps_ok (final_state a l1) l2 →
      steps_ok a (l1 ++ l2) := by
  induction l1 with
  | nil => intro a l2 _ h; exact h
  | cons b l ih =>
    intro a l2 h1 h2
    exact ⟨h1.1, ih b l2 h1.2 h2⟩

/-- The state after two runs of assignments. -/
theorem final_state_append (l1 : List ssl_state) :
    ∀ (a : ssl_state) (l2 : List ssl_state),
      final_state a (l1 ++ l2) = final_state (final_state a l1) l2 := by
  induction l1 with
  | nil => intro a l2; rfl
  | cons b l ih => intro a l2; exact ih b l2

/-- An operation that assigns nothing is a legal change. -/
theorem legal_change_refl (s : pj_ssl_sock_t) : legal_change s s :=
  ⟨[], (List.append_nil _).symm, trivial, rfl⟩

/-- Legal changes compose. -/
theorem legal_change_trans (s s1 s2 : pj_ssl_sock_t) (h1 : legal_change s s1)
    (h2 : legal_change s1 s2) : legal_change s s2 := by
  obtain ⟨l1, a1, b1, c1⟩ := h1
  obtain ⟨l2, a2, b2, c2⟩ := h2
  refine ⟨l1 ++ l2, ?_, ?_, ?_⟩
  · rw [a2, a1, List.append_assoc]
  · rw [c1] at b2
    exact steps_ok_append l1 _ l2 b1 b2
  · rw [c2, c1, final_state_append]

/-- The active socket stays in step across two operations. -/
theorem asock_kept_trans (s s1 s2 : pj_ssl_sock_t) (h1 : asock_kept s s1)
    (h2 : asock_kept s1 s2) : asock_kept s s2 := by
  rcases h2 with h2 | ⟨h2, h3⟩
  · exact Or.inl h2
  · rcases h1 with h1 | ⟨h1, h4⟩
    · exact Or.inl (h2.trans h1)
    · refine Or.inr ⟨h2.trans h1, ?_⟩
      rcases h3 with h3 | ⟨h3, h5⟩
      · rcases h4 with h4 | ⟨h4, h6⟩
        · exact Or.inl (h3.trans h4)
        · exact Or.inr ⟨h4, by rw [h3]; exact h6⟩
      · rcases h4 with h4 | ⟨h4, _⟩
        · exact Or.inr ⟨by rw [← h4]; exact h3, h5⟩
        · exact Or.inr ⟨h4, h5⟩

/-- The condition on the active socket survives an operation that keeps it in
step. -/
theorem asock_inv_kept (s s2 : pj_ssl_sock_t) (hi : asock_inv s) (hk : asock_kept s s2) :
    asock_inv s2 := by
  intro a ha
  rcases hk with hk | ⟨hk, hst⟩
  · rw [hk] at ha; exact absurd ha (by simp)
  · rw [hk] at ha
    obtain ⟨i1, i2⟩ := hi a ha
    rcases hst with hst | ⟨h1, h2⟩
    · rw [hst]; exact ⟨i1, i2⟩
    · exact ⟨fun _ => h2, fun h => absurd (i2 h) h1⟩

/-- Doing nothing is an operation of the kind `op_ok`. -/
theorem op_ok_refl (s : pj_ssl_sock_t) : op_ok s s :=
  ⟨legal_change_refl s, Or.inr ⟨rfl, Or.inl rfl⟩⟩

/-- Operations of the kind `op_ok` compose. -/
theorem op_ok_trans (s s1 s2 : pj_ssl_sock_t) (h1 : op_ok s s1) (h2 : op_ok s1 s2) :
    op_ok s s2 :=
  ⟨legal_change_trans s s1 s2 h1.1 h2.1, asock_kept_trans s s1 s2 h1.2 h2.2⟩

/-- After an operation of the kind `op_ok`, a change of fields other than
`ssl_state`, `state_log` and `asock`. -/
theorem op_ok_frame_after (s x y : pj_ssl_sock_t) (h : op_ok s x)
    (h1 : y.ssl_state = x.ssl_state) (h2 : y.state_log = x.state_log)
    (h3 : y.asock = x.asock) : op_ok s y := by
  refine op_ok_trans s x y h ⟨⟨[], ?_, trivial, h1⟩, Or.inr ⟨h3, Or.inl h1⟩⟩
  rw [h2, List.append_nil]

/-- The reset assigns NULL to `ssl_state` once. -/
theorem reset_ssl_sock_state_log (s : pj_ssl_sock_t) :
    (reset_ssl_sock_state s).state_log = s.state_log ++ [ssl_state.SSL_STATE_NULL] := by
  unfold reset_ssl_sock_state destroy_ssl set_ssl_state
  cases ha : s.asock <;> cases hs : s.sock <;> simp [ha, hs]

/-- After an operation of the kind `op_ok`, a reset. -/
theorem op_ok_reset_after (s x : pj_ssl_sock_t) (h : op_ok s x) :
    op_ok s (reset_ssl_sock_state x) := by
  refine op_ok_trans s x _ h ⟨⟨[ssl_state.SSL_STATE_NULL], ?_, ?_, ?_⟩, Or.inl ?_⟩
  · exact reset_ssl_sock_state_log x
  · exact ⟨Or.inr (Or.inr (Or.inr rfl)), trivial⟩
  · exact (reset_ssl_sock_state_fields x).1
  · exact (reset_ssl_sock_state_fields x).2.2.2.1

/-- After an operation of the kind `op_ok`, a close. -/
theorem op_ok_close_after (s x : pj_ssl_sock_t) (h : op_ok s x) :
    op_ok s (pj_ssl_sock_close x).2 := by
  unfold pj_ssl_sock_close
  split_ifs
  · exact h
  · simp only []
    refine op_ok_frame_after s (reset_ssl_sock_state { x with timer := timer_id.TIMER_NONE })
      _ ?_ rfl rfl rfl
    apply op_ok_reset_after
    exact op_ok_frame_after s x _ h rfl rfl rfl
  · simp only []
    refine op_ok_frame_after s (reset_ssl_sock_state x) _ ?_ rfl rfl rfl
    exact op_ok_reset_after s x h

/-- After an operation of the kind `op_ok` that leaves the socket out of state
NULL, a handshake step. -/
theorem op_ok_do_handshake_after (s x : pj_ssl_sock_t) (e : env) (h : op_ok s x)
    (hx : x.ssl_state ≠ ssl_state.SSL_STATE_NULL) : op_ok s (do_handshake x e).2 := by
  simp only [do_handshake]
  split_ifs
  · refine op_ok_trans s x _ h
      ⟨⟨[ssl_state.SSL_STATE_ESTABLISHED], rfl, ⟨?_, trivial⟩, rfl⟩,
       Or.inr ⟨rfl, Or.inr ⟨hx, by simp [set_ssl_state]⟩⟩⟩
    cases hs : x.ssl_state
    · exact absurd hs hx
    · exact Or.inr (Or.inr (Or.inl ⟨rfl, rfl⟩))
    · exact Or.inl rfl
  · exact h
  · exact h

/-- The part of `on_handshake_complete` after the timer is cancelled and the
certificate information updated, on the socket `x` these steps left. -/
theorem op_ok_handshake_complete_tail (s x : pj_ssl_sock_t) (status : Int) (e : env)
    (h : op_ok s x) :
    op_ok s
      (if x.is_server then
        if status ≠ PJ_SUCCESS then
          if e.win32 && x.param.timer_heap then
            if e.close_timer_status ≠ 0 then
              (false, (pj_ssl_sock_close
                { ({ reset_ssl_sock_state x with timer := timer_id.TIMER_CLOSE } : pj_ssl_sock_t)
                  with timer := timer_id.TIMER_NONE }).2)
            else (false, { reset_ssl_sock_state x with timer := timer_id.TIMER_CLOSE })
          else (false, (pj_ssl_sock_close x).2)
        else if x.param.cb.on_accept_complete then
          if e.cb_accept_ret = false then
            (false, notify x cb_event.accept_complete)
          else (true, notify x cb_event.accept_complete)
        else (true, x)
      else
        if (if status ≠ PJ_SUCCESS then
              ((if status = PJ_EEOF then
                  if e.err_get_error ≠ SSL_ERROR_NONE then
                    STATUS_FROM_SSL_ERR x e.err_get_error e.err_queue_next
                  else (status, x)
                else (status, x)).1,
               reset_ssl_sock_state
                (if status = PJ_EEOF then
                  if e.err_get_error ≠ SSL_ERROR_NONE then
                    STATUS_FROM_SSL_ERR x e.err_get_error e.err_queue_next
                  else (status, x)
                else (status, x)).2)
            else (status, x)).2.param.cb.on_connect_complete then
          if e.cb_connect_ret = false then
            (false,
              notify (if status ≠ PJ_SUCCESS then
              ((if status = PJ_EEOF then
                  if e.err_get_error ≠ SSL_ERROR_NONE then
                    STATUS_FROM_SSL_ERR x e.err_get_error e.err_queue_next
                  else (status, x)
                else (status, x)).1,
               reset_ssl_sock_state
                (if status = PJ_EEOF then
                  if e.err_get_error ≠ SSL_ERROR_NONE then
                    STATUS_FROM_SSL_ERR x e.err_get_error e.err_queue_next
                  else (status, x)
                else (status, x)).2)
            else (status, x)).2
                (cb_event.connect_complete (if status ≠ PJ_SUCCESS then
              ((if status = PJ_EEOF then
                  if e.err_get_error ≠ SSL_ERROR_NONE then
                    STATUS_FROM_SSL_ERR x e.err_get_error e.err_queue_next
                  else (status, x)
                else (status, x)).1,
               reset_ssl_sock_state
                (if status = PJ_EEOF then
                  if e.err_get_error ≠ SSL_ERROR_NONE then
                    STATUS_FROM_SSL_ERR x e.err_get_error e.err_queue_next
                  else (status, x)
                else (status, x)).2)
            else (status, x)).1))
          else
            (true,
              notify (if status ≠ PJ_SUCCESS then
              ((if status = PJ_EEOF then
                  if e.err_get_error ≠ SSL_ERROR_NONE then
                    STATUS_FROM_SSL_ERR x e.err_get_error e.err_queue_next
                  else (status, x)
                else (status, x)).1,
               reset_ssl_sock_state
                (if status = PJ_EEOF then
                  if e.err_get_error ≠ SSL_ERROR_NONE then
                    STATUS_FROM_SSL_ERR x e.err_get_error e.err_queue_next
                  else (status, x)
                else (status, x)).2)
            else (status, x)).2
                (cb_event.connect_complete (if status ≠ PJ_SUCCESS then
              ((if status = PJ_EEOF then
                  if e.err_get_error ≠ SSL_ERROR_NONE then
                    STATUS_FROM_SSL_ERR x e.err_get_error e.err_queue_next
                  else (status, x)
                else (status, x)).1,
               reset_ssl_sock_state
                (if status = PJ_EEOF then
                  if e.err_get_error ≠ SSL_ERROR_NONE then
                    STATUS_FROM_SSL_ERR x e.err_get_error e.err_queue_next
                  else (status, x)
                else (status, x)).2)
            else (status, x)).1))
        else (true, (if status ≠ PJ_SUCCESS then
              ((if status = PJ_EEOF then
                  if e.err_get_error ≠ SSL_ERROR_NONE then
                    STATUS_FROM_SSL_ERR x e.err_get_error e.err_queue_next
                  else (status, x)
                else (status, x)).1,
               reset_ssl_sock_state
                (if status = PJ_EEOF then
                  if e.err_get_error ≠ SSL_ERROR_NONE then
                    STATUS_FROM_SSL_ERR x e.err_get_error e.err_queue_next
                  else (status, x)
                else (status, x)).2)
            else (status, x)).2)).2 := by
  split_ifs <;>
    repeat' first
      | exact h
      | apply op_ok_reset_after
      | apply op_ok_close_after

/-- After an operation of the kind `op_ok`, the completion of the handshake with
any status. -/
theorem op_ok_handshake_complete_after (s x : pj_ssl_sock_t) (status : Int) (e : env)
    (h : op_ok s x) : op_ok s (on_handshake_complete x status e).2 := by
  have a2 : op_ok s (if status = PJ_SUCCESS then
      update_certs_info (if x.timer = timer_id.TIMER_HANDSHAKE_TIMEOUT then
        { x with timer := timer_id.TIMER_NONE } else x) e
      else (if x.timer = timer_id.TIMER_HANDSHAKE_TIMEOUT then
        { x with timer := timer_id.TIMER_NONE } else x)) := by
    split_ifs <;> exact h
  exact op_ok_handshake_complete_tail s _ status e a2
/-- After an operation of the kind `op_ok`, a flush of the delayed sends. -/
theorem op_ok_flush_after (s x : pj_ssl_sock_t) (e : env) (h : op_ok s x) :
    op_ok s (flush_delayed_send x e).2 :=
  op_ok_frame_after s x _ h (flush_delayed_send_frame x e).1 (flush_delayed_send_frame x e).2.1
    (flush_delayed_send_frame x e).2.2.2.1

/-- After an operation of the kind `op_ok`, an engine write. -/
theorem op_ok_ssl_write_after (s x : pj_ssl_sock_t) (k d n f : Nat) (w : Int) (h : op_ok s x) :
    op_ok s (ssl_write x k d n f w).2 :=
  op_ok_frame_after s x _ h (ssl_write_frame x k d n f w).1 (ssl_write_frame x k d n f w).2.1
    (ssl_write_frame x k d n f w).2.2.2.1

/-- After an operation of the kind `op_ok`, a delayed send. -/
theorem op_ok_delay_send_after (s x : pj_ssl_sock_t) (k d n f : Nat) (e : env) (h : op_ok s x) :
    op_ok s (delay_send x k d n f e).2 :=
  op_ok_frame_after s x _ h rfl rfl rfl

/-- A send is an operation of the kind `op_ok`. -/
theorem op_ok_send (s : pj_ssl_sock_t) (k d : Nat) (size : Int) (f : Nat) (e : env) :
    op_ok s (pj_ssl_sock_send s k d size f e).2 := by
  have hf := op_ok_flush_after s s e (op_ok_refl s)
  have hw := op_ok_ssl_write_after s _ k d size.toNat f e.send_nwritten hf
  unfold pj_ssl_sock_send
  by_cases h1 : d = 0 ∨ ¬ (size > 0)
  · rw [if_pos h1]; exact op_ok_refl s
  · rw [if_neg h1]
    by_cases h2 : s.ssl_state ≠ ssl_state.SSL_STATE_ESTABLISHED
    · rw [if_pos h2]; exact op_ok_refl s
    · rw [if_neg h2]
      dsimp only
      by_cases h3 : (flush_delayed_send s e).1 = PJ_EBUSY
      · rw [if_pos h3]; exact op_ok_delay_send_after s _ _ _ _ _ e hf
      · rw [if_neg h3]
        by_cases h4 : (flush_delayed_send s e).1 ≠ PJ_SUCCESS
        · rw [if_pos h4]; exact hf
        · rw [if_neg h4]
          by_cases h5 : (ssl_write (flush_delayed_send s e).2 k d size.toNat f
              e.send_nwritten).1 = PJ_EBUSY
          · rw [if_pos h5]; exact op_ok_delay_send_after s _ _ _ _ _ e hw
          · rw [if_neg h5]; exact hw

/-- After an operation of the kind `op_ok`, the label `on_error` of the read
completion. -/
theorem op_ok_on_error_after (s x : pj_ssl_sock_t) (status : Int) (e : env) (h : op_ok s x) :
    op_ok s (asock_on_data_read_on_error x status e).2 := by
  unfold asock_on_data_read_on_error
  by_cases h1 : x.ssl_state = ssl_state.SSL_STATE_HANDSHAKING
  · rw [if_pos h1]; exact op_ok_handshake_complete_after s x status e h
  · rw [if_neg h1]
    by_cases h2 : (x.read_started && x.param.cb.on_data_read) = true
    · rw [if_pos h2]
      dsimp only
      by_cases h3 : e.cb_read_ret = false
      · rw [if_pos h3]; exact h
      · rw [if_neg h3]; exact op_ok_reset_after s _ h
    · rw [if_neg h2]; exact op_ok_reset_after s x h

/-- A read completion on a socket out of state NULL is an operation of the kind
`op_ok`. -/
theorem op_ok_data_read (s : pj_ssl_sock_t) (data : Bool) (size : Nat) (status : Int) (e : env)
    (hs : s.ssl_state ≠ ssl_state.SSL_STATE_NULL) :
    op_ok s (asock_on_data_read s data size status e).2 := by
  have hd := op_ok_do_handshake_after s s e (op_ok_refl s) hs
  have hfl := op_ok_flush_after s (update_certs_info (do_handshake s e).2 e) e hd
  unfold asock_on_data_read
  by_cases h1 : s.ssl_state = ssl_state.SSL_STATE_HANDSHAKING
  · rw [if_pos h1]
    dsimp only
    by_cases h2 : status = PJ_SUCCESS
    · rw [if_pos h2]
      by_cases h3 : (do_handshake s e).1 ≠ PJ_EPENDING
      · rw [if_pos h3]; exact op_ok_handshake_complete_after s _ _ e hd
      · rw [if_neg h3]; exact hd
    · rw [if_neg h2]
      by_cases h3 : status ≠ PJ_EPENDING
      · rw [if_pos h3]; exact op_ok_handshake_complete_after s s _ e (op_ok_refl s)
      · rw [if_neg h3]; exact op_ok_refl s
  · rw [if_neg h1]
    by_cases h2 : (data && decide (size > 0) && s.read_started) = true
    · rw [if_pos h2]
      dsimp only
      by_cases h3 : e.record_recv_r > 0 ∨ status ≠ PJ_SUCCESS
      · rw [if_pos h3]
        have hcb : op_ok s (if s.param.cb.on_data_read = true then
            notify s (cb_event.data_read true e.record_recv_r PJ_EEOF)
            else s) := by
          split_ifs
          · exact op_ok_frame_after s s _ (op_ok_refl s) rfl rfl rfl
          · exact op_ok_refl s
        by_cases h4 : (s.param.cb.on_data_read && decide (e.cb_read_ret = false)) = true
        · rw [if_pos h4]; exact hcb
        · rw [if_neg h4]
          by_cases h5 : status ≠ PJ_SUCCESS
          · rw [if_pos h5]; exact op_ok_reset_after s _ hcb
          · rw [if_neg h5]; exact hcb
      · rw [if_neg h3]
        by_cases h4 : e.record_recv_r ≠ GNUTLS_E_SUCCESS ∧ e.record_recv_r ≠ GNUTLS_E_AGAIN
        · rw [if_pos h4]
          exact op_ok_on_error_after s _ status e (op_ok_reset_after s s (op_ok_refl s))
        · rw [if_neg h4]
          by_cases h5 : (do_handshake s e).1 = PJ_SUCCESS
          · rw [if_pos h5]
            by_cases h6 : (if (flush_delayed_send (update_certs_info (do_handshake s e).2 e) e).1
                  = PJ_EBUSY then PJ_SUCCESS
                else (flush_delayed_send (update_certs_info (do_handshake s e).2 e) e).1)
                  ≠ PJ_SUCCESS ∧
                (if (flush_delayed_send (update_certs_info (do_handshake s e).2 e) e).1
                  = PJ_EBUSY then PJ_SUCCESS
                else (flush_delayed_send (update_certs_info (do_handshake s e).2 e) e).1)
                  ≠ PJ_EPENDING
            · rw [if_pos h6]; exact op_ok_on_error_after s _ _ e hfl
            · rw [if_neg h6]; exact hfl
          · rw [if_neg h5]
            by_cases h6 : (do_handshake s e).1 ≠ PJ_EPENDING
            · rw [if_pos h6]; exact op_ok_on_error_after s _ _ e hd
            · rw [if_neg h6]; exact hd
    · rw [if_neg h2]; exact op_ok_refl s

/-- A write completion is an operation of the kind `op_ok`. -/
theorem op_ok_data_sent (s : pj_ssl_sock_t) (send_key : Option Nat) (sent : Int) (e : env) :
    op_ok s (asock_on_data_sent s send_key sent e).2 := by
  unfold asock_on_data_sent
  by_cases h1 : s.ssl_state = ssl_state.SSL_STATE_HANDSHAKING
  · have hd := op_ok_do_handshake_after s s e (op_ok_refl s) (by rw [h1]; decide)
    rw [if_pos h1]
    dsimp only
    by_cases h3 : (do_handshake s e).1 ≠ PJ_EPENDING
    · rw [if_pos h3]; exact op_ok_handshake_complete_after s _ _ e hd
    · rw [if_neg h3]; exact hd
  · rw [if_neg h1]
    cases send_key with
    | none => exact op_ok_refl s
    | some w =>
      dsimp only
      split_ifs <;> exact op_ok_frame_after s s _ (op_ok_refl s) rfl rfl rfl

/-- A timer expiry is an operation of the kind `op_ok`. -/
theorem op_ok_timer (s : pj_ssl_sock_t) (e : env) : op_ok s (on_timer s e) := by
  have h0 : op_ok s { s with timer := timer_id.TIMER_NONE } :=
    op_ok_frame_after s s _ (op_ok_refl s) rfl rfl rfl
  unfold on_timer
  cases s.timer
  · exact h0
  · exact op_ok_handshake_complete_after s _ _ e h0
  · exact op_ok_close_after s _ h0

/-- A renegotiation request is an operation of the kind `op_ok`. -/
theorem op_ok_renegotiate (s : pj_ssl_sock_t) (e : env) :
    op_ok s (pj_ssl_sock_renegotiate s e).2 := by
  have h0 : op_ok s { s with renegotiate_calls := s.renegotiate_calls + 1 } :=
    op_ok_frame_after s s _ (op_ok_refl s) rfl rfl rfl
  unfold pj_ssl_sock_renegotiate
  by_cases h1 : s.ssl_state ≠ ssl_state.SSL_STATE_ESTABLISHED
  · rw [if_pos h1]; exact op_ok_refl s
  · rw [if_neg h1]
    have h2 : s.ssl_state = ssl_state.SSL_STATE_ESTABLISHED := not_not.mp h1
    by_cases h3 : e.renegotiate_pending = true
    · rw [if_pos h3]; exact op_ok_refl s
    · rw [if_neg h3]
      dsimp only
      by_cases h4 : e.renegotiate_r ≤ 0
      · rw [if_pos h4]; exact h0
      · rw [if_neg h4]
        exact op_ok_do_handshake_after s _ e h0 (by show s.ssl_state ≠ _; rw [h2]; decide)

/-- The start of reading is an operation of the kind `op_ok`. -/
theorem op_ok_start_read (s : pj_ssl_sock_t) (n f : Nat) :
    op_ok s (pj_ssl_sock_start_read2 s n f).2 := by
  unfold pj_ssl_sock_start_read2
  split_ifs
  · exact op_ok_refl s
  · exact op_ok_refl s
  · exact op_ok_frame_after s s _ (op_ok_refl s) rfl rfl rfl

/-- A legal change followed by an operation of the kind `op_ok` is a legal change,
and the condition on the active socket survives. -/
theorem step_of_op_ok (s x y : pj_ssl_sock_t) (h1 : legal_change s x) (h2 : asock_inv x)
    (h3 : op_ok x y) : legal_change s y ∧ asock_inv y :=
  ⟨legal_change_trans s x y h1 h3.1, asock_inv_kept x y h2 h3.2⟩

/-- What `create_ssl` leaves alone. -/
theorem create_ssl_frame (x : pj_ssl_sock_t) (e : env) :
    (create_ssl x e).2.ssl_state = x.ssl_state ∧
    (create_ssl x e).2.state_log = x.state_log ∧
    (create_ssl x e).2.asock = x.asock := by
  unfold create_ssl
  split_ifs
  · exact ⟨rfl, rfl, rfl⟩
  · exact ⟨rfl, rfl, rfl⟩
  · dsimp only
    cases x.cert with
    | none => exact ⟨rfl, rfl, rfl⟩
    | some c =>
      dsimp only
      split_ifs <;> exact ⟨rfl, rfl, rfl⟩

/-- The part of the connect and accept completion from the start of the handshake
on: for a socket `x` with an active socket whose connect is not outstanding,
the assignment of HANDSHAKING from state NULL, a handshake step and, unless it
is pending, the completion of the handshake. -/
theorem handshake_start_ok (x : pj_ssl_sock_t) (e : env)
    (hnull : x.ssl_state = ssl_state.SSL_STATE_NULL)
    (hcp : ∀ a : pj_activesock_t, x.asock = some a → a.connect_pending = false) :
    (legal_change x (do_handshake (set_ssl_state x ssl_state.SSL_STATE_HANDSHAKING) e).2 ∧
      asock_inv (do_handshake (set_ssl_state x ssl_state.SSL_STATE_HANDSHAKING) e).2) ∧
    ∀ status : Int,
      legal_change x (on_handshake_complete
        (do_handshake (set_ssl_state x ssl_state.SSL_STATE_HANDSHAKING) e).2 status e).2 ∧
      asock_inv (on_handshake_complete
        (do_handshake (set_ssl_state x ssl_state.SSL_STATE_HANDSHAKING) e).2 status e).2 := by
  have h1 : legal_change x (set_ssl_state x ssl_state.SSL_STATE_HANDSHAKING) :=
    ⟨[ssl_state.SSL_STATE_HANDSHAKING], rfl, ⟨Or.inr (Or.inl ⟨hnull, rfl⟩), trivial⟩, rfl⟩
  have h2 : asock_inv (set_ssl_state x ssl_state.SSL_STATE_HANDSHAKING) := by
    intro a ha
    refine ⟨fun _ => by simp [set_ssl_state], fun h => ?_⟩
    have := hcp a ha
    rw [this] at h
    exact absurd h (by decide)
  have h3 : op_ok (set_ssl_state x ssl_state.SSL_STATE_HANDSHAKING)
      (do_handshake (set_ssl_state x ssl_state.SSL_STATE_HANDSHAKING) e).2 :=
    op_ok_do_handshake_after _ _ e (op_ok_refl _) (by simp [set_ssl_state])
  refine ⟨step_of_op_ok _ _ _ h1 h2 h3, fun status => ?_⟩
  exact step_of_op_ok _ _ _ h1 h2 (op_ok_handshake_complete_after _ _ status e h3)

/-- A connect completion on a socket in state NULL makes a legal change, and the
condition on the active socket holds afterwards. -/
theorem connect_complete_ok (s : pj_ssl_sock_t) (status : Int) (e : env)
    (hnull : s.ssl_state = ssl_state.SSL_STATE_NULL) (hinv : asock_inv s) :
    legal_change s (asock_on_connect_complete s status e).2 ∧
    asock_inv (asock_on_connect_complete s status e).2 := by
  -- the socket with the connect no longer outstanding
  have h0 : legal_change s
      { s with asock := s.asock.map (fun a => { a with connect_pending := false }) } :=
    ⟨[], (List.append_nil _).symm, trivial, rfl⟩
  have i0 : asock_inv
      { s with asock := s.asock.map (fun a => { a with connect_pending := false }) } := by
    intro a ha
    cases hsa : s.asock with
    | none => simp [hsa] at ha
    | some a0 =>
      simp only [hsa, Option.map_some', Option.some.injEq] at ha
      subst ha
      exact ⟨fun h => (hinv a0 hsa).1 h, fun h => by simp at h⟩
  have fail : ∀ (x : pj_ssl_sock_t) (st : Int),
      x.ssl_state = s.ssl_state → x.state_log = s.state_log →
      x.asock = s.asock.map (fun a => { a with connect_pending := false }) →
      legal_change s (on_handshake_complete x st e).2 ∧
        asock_inv (on_handshake_complete x st e).2 := by
    intro x st e1 e2 e3
    have hx : op_ok { s with asock := s.asock.map (fun a => { a with connect_pending := false }) }
        x := op_ok_frame_after _ _ x (op_ok_refl _) e1 e2 e3
    exact step_of_op_ok s _ _ h0 i0 (op_ok_handshake_complete_after _ x st e hx)
  obtain ⟨c1, c2, c3⟩ := create_ssl_frame
    { ({ s with asock := s.asock.map (fun a => { a with connect_pending := false }) } :
        pj_ssl_sock_t) with local_addr := e.sockname } e
  unfold asock_on_connect_complete
  dsimp only
  by_cases h1 : status ≠ PJ_SUCCESS
  · rw [if_pos h1]; exact fail _ _ rfl rfl rfl
  · rw [if_neg h1]
    by_cases h2 : e.getsockname_status ≠ PJ_SUCCESS
    · rw [if_pos h2]; exact fail _ _ rfl rfl rfl
    · rw [if_neg h2]
      by_cases h3 : (create_ssl
          { ({ s with asock := s.asock.map (fun a => { a with connect_pending := false }) } :
            pj_ssl_sock_t) with local_addr := e.sockname } e).1 ≠ PJ_SUCCESS
      · rw [if_pos h3]; exact fail _ _ c1 c2 c3
      · rw [if_neg h3]
        by_cases h4 : e.start_read_status ≠ PJ_SUCCESS
        · rw [if_pos h4]; exact fail _ _ c1 c2 c3
        · rw [if_neg h4]
          -- the socket on which the handshake starts
          have g0 : legal_change s (prepare_send_state (asock_start_read (create_ssl
              { ({ s with asock := s.asock.map (fun a => { a with connect_pending := false }) } :
                pj_ssl_sock_t) with local_addr := e.sockname } e).2) e) := by
            refine ⟨[], ?_, trivial, ?_⟩
            · rw [List.append_nil]; exact c2
            · exact c1
          have g1 : (prepare_send_state (asock_start_read (create_ssl
              { ({ s with asock := s.asock.map (fun a => { a with connect_pending := false }) } :
                pj_ssl_sock_t) with local_addr := e.sockname } e).2) e).ssl_state
                = ssl_state.SSL_STATE_NULL := c1.trans hnull
          have g2 : ∀ a : pj_activesock_t, (prepare_send_state (asock_start_read (create_ssl
              { ({ s with asock := s.asock.map (fun a => { a with connect_pending := false }) } :
                pj_ssl_sock_t) with local_addr := e.sockname } e).2) e).asock = some a →
              a.connect_pending = false := by
            intro a ha
            have ha2 : ((create_ssl
              { ({ s with asock := s.asock.map (fun a => { a with connect_pending := false }) } :
                pj_ssl_sock_t) with local_addr := e.sockname } e).2.asock.map
                  (fun a => { a with reading := true })) = some a := ha
            rw [c3] at ha2
            cases hsa : s.asock with
            | none => simp [hsa] at ha2
            | some a0 =>
              simp only [hsa, Option.map_some', Option.some.injEq] at ha2
              subst ha2
              rfl
          obtain ⟨k1, k2⟩ := handshake_start_ok _ e g1 g2
          by_cases h5 : (do_handshake (set_ssl_state (prepare_send_state (asock_start_read
              (create_ssl
              { ({ s with asock := s.asock.map (fun a => { a with connect_pending := false }) } :
                pj_ssl_sock_t) with local_addr := e.sockname } e).2) e)
                ssl_state.SSL_STATE_HANDSHAKING) e).1 ≠ PJ_EPENDING
          · rw [if_pos h5]
            exact ⟨legal_change_trans s _ _ g0 (k2 _).1, (k2 _).2⟩
          · rw [if_neg h5]
            exact ⟨legal_change_trans s _ _ g0 k1.1, k1.2⟩

/-- An operation of the kind `op_ok` on a socket that meets the condition on the
active socket makes a legal change and keeps the condition. -/
theorem step_of_op_ok_self (s y : pj_ssl_sock_t) (hinv : asock_inv s) (h : op_ok s y) :
    legal_change s y ∧ asock_inv y :=
  step_of_op_ok s s y (legal_change_refl s) hinv h

/-- A socket without active socket meets the condition on the active socket. -/
theorem asock_inv_none (x : pj_ssl_sock_t) (h : x.asock = none) : asock_inv x := by
  intro a ha
  rw [h] at ha
  exact absurd ha (by simp)

/-- A socket whose active socket neither reads nor connects meets the condition
on the active socket. -/
theorem asock_inv_idle (x : pj_ssl_sock_t) (acc : Bool)
    (h : x.asock = some { connect_pending := false, reading := false, accepting := acc }) :
    asock_inv x := by
  intro a ha
  rw [h] at ha
  simp only [Option.some.injEq] at ha
  subst ha
  exact ⟨fun h => by simp at h, fun h => by simp at h⟩

/-- The timer block leaves state, log and active socket alone. -/
theorem start_handshake_timer_frame (x : pj_ssl_sock_t) (e : env) :
    (start_handshake_timer x e).ssl_state = x.ssl_state ∧
    (start_handshake_timer x e).state_log = x.state_log ∧
    (start_handshake_timer x e).asock = x.asock := by
  unfold start_handshake_timer
  split_ifs <;> exact ⟨rfl, rfl, rfl⟩

/-- A reset makes a legal change and leaves no active socket. -/
theorem reset_step_ok (s x : pj_ssl_sock_t) (h2 : x.state_log = s.state_log) :
    legal_change s (reset_ssl_sock_state x) ∧ asock_inv (reset_ssl_sock_state x) := by
  refine ⟨⟨[ssl_state.SSL_STATE_NULL], ?_, ⟨Or.inr (Or.inr (Or.inr rfl)), trivial⟩, ?_⟩,
    asock_inv_none _ (reset_ssl_sock_state_fields x).2.2.2.1⟩
  · rw [reset_ssl_sock_state_log, h2]
  · exact (reset_ssl_sock_state_fields x).1

/-- The start of accepting makes a legal change, and the condition on the active
socket holds afterwards. -/
theorem start_accept_ok (s : pj_ssl_sock_t) (localaddr : Nat) (e : env) :
    legal_change s (pj_ssl_sock_start_accept s localaddr e).2 ∧
    asock_inv (pj_ssl_sock_start_accept s localaddr e).2 := by
  unfold pj_ssl_sock_start_accept
  by_cases h1 : e.sock_socket_status ≠ PJ_SUCCESS
  · rw [if_pos h1]; exact reset_step_ok s s rfl
  · rw [if_neg h1]
    dsimp only
    by_cases h2 : e.qos_status ≠ PJ_SUCCESS ∧ s.param.qos_ignore_error = false
    · rw [if_pos h2]; exact reset_step_ok s _ rfl
    · rw [if_neg h2]
      by_cases h3 : e.bind_status ≠ PJ_SUCCESS
      · rw [if_pos h3]; exact reset_step_ok s _ rfl
      · rw [if_neg h3]
        by_cases h4 : e.listen_status ≠ PJ_SUCCESS
        · rw [if_pos h4]; exact reset_step_ok s _ rfl
        · rw [if_neg h4]
          by_cases h5 : e.asock_create_status ≠ PJ_SUCCESS
          · rw [if_pos h5]; exact reset_step_ok s _ rfl
          · rw [if_neg h5]
            by_cases h6 : e.start_accept_status ≠ PJ_SUCCESS
            · rw [if_pos h6]; exact reset_step_ok s _ rfl
            · rw [if_neg h6]
              exact ⟨⟨[], (List.append_nil _).symm, trivial, rfl⟩, asock_inv_idle _ true rfl⟩

/-- The start of a connect on a socket in state NULL makes a legal change, and the
condition on the active socket holds afterwards. -/
theorem start_connect_ok (s : pj_ssl_sock_t) (remaddr : Nat) (e : env)
    (hnull : s.ssl_state = ssl_state.SSL_STATE_NULL) :
    legal_change s (pj_ssl_sock_start_connect s remaddr e).2 ∧
    asock_inv (pj_ssl_sock_start_connect s remaddr e).2 := by
  -- the socket with its new active socket and the timer started
  obtain ⟨t1, t2, t3⟩ := start_handshake_timer_frame
    { ({ s with sock := some e.new_sock } : pj_ssl_sock_t) with
      asock := some { connect_pending := false, reading := false, accepting := false },
      rem_addr := remaddr } e
  have g0 : legal_change s (start_handshake_timer
    { ({ s with sock := some e.new_sock } : pj_ssl_sock_t) with
      asock := some { connect_pending := false, reading := false, accepting := false },
      rem_addr := remaddr } e) := by
    refine ⟨[], ?_, trivial, t1⟩
    rw [List.append_nil]; exact t2
  have g1 : asock_inv (start_handshake_timer
    { ({ s with sock := some e.new_sock } : pj_ssl_sock_t) with
      asock := some { connect_pending := false, reading := false, accepting := false },
      rem_addr := remaddr } e) := asock_inv_idle _ false t3
  unfold pj_ssl_sock_start_connect
  by_cases h1 : e.sock_socket_status ≠ PJ_SUCCESS
  · rw [if_pos h1]; exact reset_step_ok s s rfl
  · rw [if_neg h1]
    dsimp only
    by_cases h2 : e.qos_status ≠ PJ_SUCCESS ∧ s.param.qos_ignore_error = false
    · rw [if_pos h2]; exact reset_step_ok s _ rfl
    · rw [if_neg h2]
      by_cases h3 : e.bind_status ≠ PJ_SUCCESS
      · rw [if_pos h3]; exact reset_step_ok s _ rfl
      · rw [if_neg h3]
        by_cases h5 : e.asock_create_status ≠ PJ_SUCCESS
        · rw [if_pos h5]; exact reset_step_ok s _ rfl
        · rw [if_neg h5]
          by_cases h6 : e.start_connect_status = PJ_SUCCESS
          · rw [if_pos h6]
            obtain ⟨k1, k2⟩ := connect_complete_ok _ PJ_SUCCESS e (t1.trans hnull) g1
            exact ⟨legal_change_trans s _ _ g0 k1, k2⟩
          · rw [if_neg h6]
            by_cases h7 : e.start_connect_status ≠ PJ_EPENDING
            · rw [if_pos h7]; exact reset_step_ok s _ t2
            · rw [if_neg h7]
              refine ⟨g0, ?_⟩
              intro a ha
              have ha2 : (start_handshake_timer
                { ({ s with sock := some e.new_sock } : pj_ssl_sock_t) with
                  asock := some { connect_pending := false, reading := false,
                                  accepting := false },
                  rem_addr := remaddr } e).asock.map
                    (fun a => { a with connect_pending := true }) = some a := ha
              rw [t3] at ha2
              simp only [Option.map_some', Option.some.injEq] at ha2
              subst ha2
              exact ⟨fun h => by simp at h, fun _ => t1.trans hnull⟩
/-- The socket `pj_ssl_sock_create` returns is in state NULL, has assigned no state
yet and has no active socket. -/
theorem pj_ssl_sock_create_fresh (param : pj_ssl_sock_param) (e : env) (status : Int)
    (s : pj_ssl_sock_t) (h : pj_ssl_sock_create param e = (status, some s)) :
    s.ssl_state = ssl_state.SSL_STATE_NULL ∧ s.state_log = [] ∧ s.asock = none := by
  unfold pj_ssl_sock_create at h
  split_ifs at h
  · simp at h
  · simp at h
  · simp only [Prod.mk.injEq, Option.some.injEq] at h
    obtain ⟨-, h⟩ := h
    subst h
    exact ⟨rfl, rfl, rfl⟩

/-- The socket an accept completion creates has made legal changes only since its
creation in state NULL, and meets the condition on the active socket. -/
theorem accept_complete_ok (p : pj_ssl_sock_t) (parent_addr newsock src_addr : Nat) (e : env)
    (b : Bool) (c : pj_ssl_sock_t)
    (h : asock_on_accept_complete p parent_addr newsock src_addr e = (b, some c)) :
    steps_ok ssl_state.SSL_STATE_NULL c.state_log ∧
    c.ssl_state = final_state ssl_state.SSL_STATE_NULL c.state_log ∧ asock_inv c := by
  -- it is enough to find a fresh socket from which the new one comes by a legal change
  suffices hs : ∃ f : pj_ssl_sock_t, f.ssl_state = ssl_state.SSL_STATE_NULL ∧ f.state_log = [] ∧
      legal_change f c ∧ asock_inv c by
    obtain ⟨f, f1, f2, ⟨l, l1, l2, l3⟩, f4⟩ := hs
    rw [f2, List.nil_append] at l1
    rw [f1] at l2 l3
    rw [l1]
    exact ⟨l2, l3, f4⟩
  unfold asock_on_accept_complete at h
  cases hc : pj_ssl_sock_create p.param e with
  | mk st o =>
    cases o with
    | none => rw [hc] at h; simp at h
    | some f =>
      obtain ⟨f1, f2, f3⟩ := pj_ssl_sock_create_fresh p.param e st f hc
      refine ⟨f, f1, f2, ?_⟩
      rw [hc] at h
      dsimp only at h
      -- the exit `on_return` on a socket that comes from `f` by a legal change
      have ret : ∀ (x : pj_ssl_sock_t) (status : Int), legal_change f x → asock_inv x →
          (if status ≠ PJ_EPENDING then (true, some (on_handshake_complete x status e).2)
            else (true, some x)) = (b, some c) → legal_change f c ∧ asock_inv c := by
        intro x status hx ix hret
        by_cases hp : status ≠ PJ_EPENDING
        · rw [if_pos hp] at hret
          simp only [Prod.mk.injEq, Option.some.injEq] at hret
          rw [← hret.2]
          exact step_of_op_ok f x _ hx ix (op_ok_handshake_complete_after x x status e
            (op_ok_refl x))
        · rw [if_neg hp] at hret
          simp only [Prod.mk.injEq, Option.some.injEq] at hret
          rw [← hret.2]
          exact ⟨hx, ix⟩
      have frame : ∀ x : pj_ssl_sock_t, x.ssl_state = f.ssl_state → x.state_log = f.state_log →
          legal_change f x := by
        intro x e1 e2
        refine ⟨[], ?_, trivial, e1⟩
        rw [List.append_nil]; exact e2
      by_cases h1 : e.qos_status ≠ PJ_SUCCESS ∧ f.param.qos_ignore_error = false
      · rw [if_pos h1] at h
        refine ret _ _ ?_ ?_ h
        · exact frame _ rfl rfl
        · exact asock_inv_none _ f3
      · rw [if_neg h1] at h
        obtain ⟨c1, c2, c3⟩ := create_ssl_frame
          { ({ f with sock := some newsock, parent := some parent_addr, is_server := true,
                      cert := p.cert } : pj_ssl_sock_t) with
            local_addr := if e.getsockname_status ≠ PJ_SUCCESS then p.local_addr else e.sockname,
            rem_addr := src_addr } e
        by_cases h2 : (create_ssl
          { ({ f with sock := some newsock, parent := some parent_addr, is_server := true,
                      cert := p.cert } : pj_ssl_sock_t) with
            local_addr := if e.getsockname_status ≠ PJ_SUCCESS then p.local_addr else e.sockname,
            rem_addr := src_addr } e).1 ≠ PJ_SUCCESS
        · rw [if_pos h2] at h
          refine ret _ _ ?_ ?_ h
          · exact frame _ c1 c2
          · exact asock_inv_none _ (c3.trans f3)
        · rw [if_neg h2] at h
          by_cases h3 : e.asock_create_status ≠ PJ_SUCCESS
          · rw [if_pos h3] at h
            refine ret _ _ ?_ ?_ h
            · exact frame _ c1 c2
            · exact asock_inv_none _ (c3.trans f3)
          · rw [if_neg h3] at h
            by_cases h4 : e.start_read_status ≠ PJ_SUCCESS
            · rw [if_pos h4] at h
              refine ret _ _ ?_ ?_ h
              · exact frame _ c1 c2
              · exact asock_inv_idle _ false rfl
            · rw [if_neg h4] at h
              obtain ⟨t1, t2, t3⟩ := start_handshake_timer_frame (prepare_send_state
                (asock_start_read
                  { (create_ssl
                    { ({ f with sock := some newsock, parent := some parent_addr,
                                is_server := true, cert := p.cert } : pj_ssl_sock_t) with
                      local_addr := if e.getsockname_status ≠ PJ_SUCCESS then p.local_addr
                                    else e.sockname,
                      rem_addr := src_addr } e).2 with
                    asock := some { connect_pending := false, reading := false,
                                    accepting := false } }) e) e
              have g0 := frame _ (t1.trans c1) (t2.trans c2)
              have g2 : ∀ a : pj_activesock_t, (start_handshake_timer (prepare_send_state
                (asock_start_read
                  { (create_ssl
                    { ({ f with sock := some newsock, parent := some parent_addr,
                                is_server := true, cert := p.cert } : pj_ssl_sock_t) with
                      local_addr := if e.getsockname_status ≠ PJ_SUCCESS then p.local_addr
                                    else e.sockname,
                      rem_addr := src_addr } e).2 with
                    asock := some { connect_pending := false, reading := false,
                                    accepting := false } }) e) e).asock = some a →
                  a.connect_pending = false := by
                intro a ha
                rw [t3] at ha
                simp only [prepare_send_state, asock_start_read, Option.map_some',
                  Option.some.injEq] at ha
                subst ha
                rfl
              obtain ⟨k1, k2⟩ := handshake_start_ok _ e ((t1.trans c1).trans f1) g2
              by_cases h5 : (do_handshake (set_ssl_state (start_handshake_timer
                  (prepare_send_state (asock_start_read
                  { (create_ssl
                    { ({ f with sock := some newsock, parent := some parent_addr,
                                is_server := true, cert := p.cert } : pj_ssl_sock_t) with
                      local_addr := if e.getsockname_status ≠ PJ_SUCCESS then p.local_addr
                                    else e.sockname,
                      rem_addr := src_addr } e).2 with
                    asock := some { connect_pending := false, reading := false,
                                    accepting := false } }) e) e)
                  ssl_state.SSL_STATE_HANDSHAKING) e).1 ≠ PJ_EPENDING
              · rw [if_pos h5] at h
                simp only [Prod.mk.injEq, Option.some.injEq] at h
                rw [← h.2]
                exact ⟨legal_change_trans f _ _ g0 (k2 _).1, (k2 _).2⟩
              · rw [if_neg h5] at h
                simp only [Prod.mk.injEq, Option.some.injEq] at h
                rw [← h.2]
                exact ⟨legal_change_trans f _ _ g0 k1.1, k1.2⟩

/-- Every operation on a socket that meets the condition on the active socket
makes a legal change and keeps the condition. -/
theorem sock_step_ok (s s2 : pj_ssl_sock_t) (hinv : asock_inv s) (h : sock_step s s2) :
    legal_change s s2 ∧ asock_inv s2 := by
  cases h with
  | connect_complete a status e ha hcp =>
    exact connect_complete_ok s status e ((hinv a ha).2 hcp) hinv
  | data_read a data size status e ha hr =>
    exact step_of_op_ok_self s _ hinv (op_ok_data_read s data size status e ((hinv a ha).1 hr))
  | data_sent send_key sent e =>
    exact step_of_op_ok_self s _ hinv (op_ok_data_sent s send_key sent e)
  | timer e => exact step_of_op_ok_self s _ hinv (op_ok_timer s e)
  | send send_key data size flags e =>
    exact step_of_op_ok_self s _ hinv (op_ok_send s send_key data size flags e)
  | renegotiate e => exact step_of_op_ok_self s _ hinv (op_ok_renegotiate s e)
  | reset => exact step_of_op_ok_self s _ hinv (op_ok_reset_after s s (op_ok_refl s))
  | close => exact step_of_op_ok_self s _ hinv (op_ok_close_after s s (op_ok_refl s))
  | start_read n f => exact step_of_op_ok_self s _ hinv (op_ok_start_read s n f)
  | start_accept localaddr e => exact start_accept_ok s localaddr e
  | start_connect remaddr e hnull => exact start_connect_ok s remaddr e hnull

/-- A history of legal changes from state NULL, extended by a legal change. -/
theorem history_extend (s s2 : pj_ssl_sock_t)
    (h1 : steps_ok ssl_state.SSL_STATE_NULL s.state_log)
    (h2 : s.ssl_state = final_state ssl_state.SSL_STATE_NULL s.state_log)
    (h : legal_change s s2) :
    steps_ok ssl_state.SSL_STATE_NULL s2.state_log ∧
    s2.ssl_state = final_state ssl_state.SSL_STATE_NULL s2.state_log := by
  obtain ⟨l, l1, l2, l3⟩ := h
  rw [l1, final_state_append, ← h2]
  refine ⟨steps_ok_append _ _ _ h1 ?_, l3⟩
  rw [← h2]
  exact l2

/-- Every reachable socket meets the condition on the active socket, and the
values assigned to its `ssl_state` since its creation are legal changes from
state NULL that end in its present state. -/
theorem reachable_inv (s : pj_ssl_sock_t) (h : reachable s) :
    asock_inv s ∧ steps_ok ssl_state.SSL_STATE_NULL s.state_log ∧
    s.ssl_state = final_state ssl_state.SSL_STATE_NULL s.state_log := by
  induction h with
  | create param e status s hc =>
    obtain ⟨f1, f2, f3⟩ := pj_ssl_sock_create_fresh param e status s hc
    refine ⟨asock_inv_none s f3, ?_, ?_⟩
    · rw [f2]; trivial
    · rw [f2]; exact f1
  | accept p parent_addr newsock src_addr e b c _ hacc _ =>
    obtain ⟨a1, a2, a3⟩ := accept_complete_ok p parent_addr newsock src_addr e b c hacc
    exact ⟨a3, a1, a2⟩
  | step s s2 _ hstep ih =>
    obtain ⟨k1, k2⟩ := sock_step_ok s s2 ih.1 hstep
    exact ⟨k2, history_extend s s2 ih.2.1 ih.2.2 k1⟩

/-- Claim C1, counterexample: the client socket `sock0` that `pj_ssl_sock_create`
returns, after `pj_ssl_sock_start_connect` with the connect outstanding, is in
state NULL; the connect completion, with an engine that completes the
handshake in the first step, leaves it in state ESTABLISHED.  The operation
has moved the socket from NULL to ESTABLISHED, which is none of the changes the
claim lists. -/
theorem connect_complete_null_to_established :
    pj_ssl_sock_create param0 env_ok = (PJ_SUCCESS, some sock0) ∧
    sock_connecting = (pj_ssl_sock_start_connect sock0 9 env_ok).2 ∧
    sock_connecting.asock
      = some { connect_pending := true, reading := false, accepting := false } ∧
    sock_connecting.ssl_state = ssl_state.SSL_STATE_NULL ∧
    (asock_on_connect_complete sock_connecting PJ_SUCCESS env_ok).2.ssl_state
      = ssl_state.SSL_STATE_ESTABLISHED ∧
    ¬ state_change_ok ssl_state.SSL_STATE_NULL ssl_state.SSL_STATE_ESTABLISHED := by
  decide

/-- C1, amended: for every socket `s` reachable from a freshly created one and every
operation of the module that takes it to `s2`, the values the operation
assigns to `ssl_state`, in their order, are each an allowed change (no change,
NULL to HANDSHAKING, HANDSHAKING to ESTABLISHED, or a reset to NULL) from the
value before, and `ssl_state` ends as the last of them; the same holds for all
the values assigned since the creation of `s` in state NULL.  No allowed
change goes from ESTABLISHED to HANDSHAKING or from NULL to ESTABLISHED. -/
theorem ssl_state_changes_legal (s s2 : pj_ssl_sock_t) (hr : reachable s)
    (hstep : sock_step s s2) :
    (∃ l : List ssl_state, s2.state_log = s.state_log ++ l ∧ steps_ok s.ssl_state l ∧
      s2.ssl_state = final_state s.ssl_state l) ∧
    (steps_ok ssl_state.SSL_STATE_NULL s.state_log ∧
      s.ssl_state = final_state ssl_state.SSL_STATE_NULL s.state_log) ∧
    ¬ state_change_ok ssl_state.SSL_STATE_ESTABLISHED ssl_state.SSL_STATE_HANDSHAKING ∧
    ¬ state_change_ok ssl_state.SSL_STATE_NULL ssl_state.SSL_STATE_ESTABLISHED := by
  obtain ⟨i1, i2, i3⟩ := reachable_inv s hr
  exact ⟨(sock_step_ok s s2 i1 hstep).1, ⟨i2, i3⟩, by decide, by decide⟩

/-- C1 amended, at a concrete input: the connect completion on `sock_connecting`
with an engine that completes the handshake at once assigns HANDSHAKING and
then ESTABLISHED. -/
theorem ssl_state_changes_legal_witness :
    (∃ l : List ssl_state,
      (asock_on_connect_complete sock_connecting PJ_SUCCESS env_ok).2.state_log
        = sock_connecting.state_log ++ l ∧
      steps_ok sock_connecting.ssl_state l ∧
      (asock_on_connect_complete sock_connecting PJ_SUCCESS env_ok).2.ssl_state
        = final_state sock_connecting.ssl_state l) ∧
    (steps_ok ssl_state.SSL_STATE_NULL sock_connecting.state_log ∧
      sock_connecting.ssl_state
        = final_state ssl_state.SSL_STATE_NULL sock_connecting.state_log) ∧
    ¬ state_change_ok ssl_state.SSL_STATE_ESTABLISHED ssl_state.SSL_STATE_HANDSHAKING ∧
    ¬ state_change_ok ssl_state.SSL_STATE_NULL ssl_state.SSL_STATE_ESTABLISHED :=
  ssl_state_changes_legal sock_connecting
    (asock_on_connect_complete sock_connecting PJ_SUCCESS env_ok).2
    (reachable.step sock0 sock_connecting
      (reachable.create param0 env_ok PJ_SUCCESS sock0 (by decide))
      (sock_step.start_connect sock0 9 env_ok rfl))
    (sock_step.connect_complete sock_connecting
      { connect_pending := true, reading := false, accepting := false } PJ_SUCCESS env_ok
      (by decide) rfl)

end SslSock
